import Mathlib

/-!
Verification of the method-dispatch adaptation layer of the magnus binding
library (src/method.rs and src/try_convert.rs).

The embedding models the observable behaviour of the trampoline family:
an opaque value handle, an effect type recording the externally observable
events of a call (conversion-contract invocations, user-function
invocations, host block callbacks) together with the outcome of the
computation (normal value, typed error, or native unwind), and the
per-arity adapter types translated from the source.

External contracts (TryConvert, IntoValue) are modelled as explicit
dictionaries, which is the standard elaboration of the Rust traits the
source is generic over.
-/

/-- Opaque value handle managed by the host runtime.  The only structure
the core observes on a handle is nil-ness (used by the Option conversion);
the index distinguishes handles. -/
structure Value where
  idx : Nat
  is_nil : Bool
deriving DecidableEq, Repr

/-- Value::default() produces the nil handle. -/
def Value.default : Value := ⟨0, true⟩

/-- Aggregate array container handed to the arity minus-two adapters.  The
adapter only ever uses it as a whole, via its handle. -/
structure RArray where
  asValue : Value
deriving DecidableEq, Repr

/-- Host enumerator object (block.rs); converted into a plain handle by
Into.  Modelled from the spec: a pre-built lazy enumerator handle. -/
structure Enumerator where
  asValue : Value
deriving DecidableEq, Repr

/-- Payload carried by a native unwind: a message string when available,
otherwise a generic boxed marker.  Modelled from the spec: the unwind
payload extraction is best-effort. -/
inductive PanicPayload where
  | message (s : String)
  | boxed (n : Nat)
deriving DecidableEq, Repr

/-- Host exception class reference (external). -/
structure ExceptionClass where
  id : Nat
deriving DecidableEq, Repr

/-- Typed error representation.  Modelled from the spec: error.rs is not
under src; Error is the normalized typed-error representation, with
Error.from_panic building the caught-panic variant carrying the unwind
payload. -/
inductive Error where
  | new (cls : ExceptionClass) (msg : String)
  | from_panic (p : PanicPayload)
deriving DecidableEq, Repr

/-- Externally observable events of a trampoline invocation: a conversion
contract invoked on a handle (tagged with the instance id of the
converter), the user function invoked with its (converted) arguments, and
the host block callback invocations made while driving a lazy sequence. -/
inductive Ev where
  | convert (id : Nat) (v : Value)
  | invoke (args : List Value)
  | block_call (v : Value)
  | block_call_values (vs : List Value)
  | block_call_splat (r : RArray)
deriving DecidableEq, Repr

/-- Outcome of a computation that may return normally, return a typed
error, or unwind natively. -/
inductive Outcome (α : Type) where
  | ok (a : α)
  | err (e : Error)
  | panicked (p : PanicPayload)
deriving DecidableEq, Repr

/-- A computation: the trace of events it emits together with its
outcome. -/
def M (α : Type) : Type := List Ev × Outcome α

/-- Sequencing of computations; a typed error or an unwind propagates (the
source's question-mark operator, and unwinding through a frame). -/
def M.bind (x : M α) (f : α → M β) : M β :=
  match x.2 with
  | Outcome.ok a => (x.1 ++ (f a).1, (f a).2)
  | Outcome.err e => (x.1, Outcome.err e)
  | Outcome.panicked p => (x.1, Outcome.panicked p)

/-- Prepend a trace to a computation's trace. -/
def tracePre (t : List Ev) (m : M α) : M α := (t ++ m.1, m.2)

/-- Result of a user-supplied function: it returns its value normally or
unwinds; it has no typed-error channel of its own (typed errors live in
its return type, handled by the return adapter). -/
inductive PanicOr (α : Type) where
  | ok (a : α)
  | panicked (p : PanicPayload)
deriving DecidableEq, Repr

/-- A user-function computation: emitted events plus normal return or
unwind. -/
def PanicM (α : Type) : Type := List Ev × PanicOr α

/-- Include a user-function computation into the general effect type. -/
def toM (x : PanicM α) : M α :=
  (x.1, match x.2 with
        | PanicOr.ok a => Outcome.ok a
        | PanicOr.panicked p => Outcome.panicked p)

/-- The TryConvert contract (try_convert.rs): given a handle, produce a
typed value or fail; conversion code may itself unwind. -/
structure TryConv (α : Type) where
  try_convert : Value → M α

/-- The IntoValue contract (external): infallible conversion of a typed
value into a handle. -/
structure IV (α : Type) where
  into_value : α → Value

/-- The ReturnValue contract (method.rs private::ReturnValue): normalize a
user function result into a raw-handle-or-error outcome. -/
structure RV (ρ : Type) where
  into_return_value : ρ → M Value

/-- ReturnValue for Result of T and Error: map the Ok value through
into_value_unchecked (method.rs lines 372..379). -/
def RV.ofResult (iv : IV α) : RV (Except Error α) :=
  ⟨fun res =>
    match res with
    | Except.ok v => ([], Outcome.ok (iv.into_value v))
    | Except.error e => ([], Outcome.err e)⟩

/-- ReturnValue for a bare T: wrap in Ok and delegate (method.rs lines
381..388). -/
def RV.ofValue (iv : IV α) : RV α :=
  ⟨fun v => (RV.ofResult iv).into_return_value (Except.ok v)⟩

/-- The result a trampoline hands back across the C boundary: a normal
handle, a raise of a host exception (terminal: the raise primitive never
returns), or a native unwind escaping the boundary (which the bridge must
never produce). -/
inductive BRes where
  | returned (v : Value)
  | raised (e : Error)
  | unwound (p : PanicPayload)
deriving DecidableEq, Repr

/-- Modelled from the spec: the host raise primitive (error.rs) performs a
non-local, non-unwinding control transfer and never returns; its call is
terminal for the trampoline. -/
def raise (e : Error) : BRes := BRes.raised e

/-- std::panic::catch_unwind: run the computation; a native unwind is
intercepted and surfaced as the error branch, anything else passes
through as the ok branch. -/
def catch_unwind (o : M α) : List Ev × Except PanicPayload (Outcome α) :=
  (o.1,
   match o.2 with
   | Outcome.ok a => Except.ok (Outcome.ok a)
   | Outcome.err e => Except.ok (Outcome.err e)
   | Outcome.panicked p => Except.error p)

/-- The unwind/error bridge shared by every call_handle_error in
method.rs: catch_unwind around the checked call, converting a caught
unwind via Error.from_panic, then return the value or raise the typed
error. -/
def boundary (o : M Value) : List Ev × BRes :=
  let res : Outcome Value :=
    match (catch_unwind o).2 with
    | Except.ok v => v
    | Except.error e => Outcome.err (Error.from_panic e)
  ((catch_unwind o).1,
   match res with
   | Outcome.ok v => BRes.returned v
   | Outcome.err e => raise e
   | Outcome.panicked p => BRes.unwound p)

/-- Zero-sized marker carrying compile-time-only type information
(std::marker::PhantomData). -/
structure PhantomData (α : Type) where
  mk ::
deriving DecidableEq, Repr

/-- slice::from_raw_parts argv argc: the view of exactly argc elements
starting at argv. -/
def slice_from_raw_parts (argv : Nat → Value) (argc : Nat) : List Value :=
  (List.range argc).map argv

/-- Rust Bool.then: evaluate the closure only when the condition holds. -/
def boolThen (b : Bool) (f : Unit → β) : Option β :=
  if b then some (f ()) else none

/-- Option.transpose over our computation type: Option of a Result into a
Result of an Option. -/
def optTranspose : Option (M α) → M (Option α)
  | none => ([], Outcome.ok none)
  | some m =>
    (m.1,
     match m.2 with
     | Outcome.ok a => Outcome.ok (some a)
     | Outcome.err e => Outcome.err e
     | Outcome.panicked p => Outcome.panicked p)

/-- TryConvert for Option T (try_convert.rs lines 36..43): nil converts to
none without invoking T's conversion; otherwise T's conversion runs and a
success is wrapped in some. -/
def TryConv.option (tc : TryConv α) : TryConv (Option α) :=
  ⟨fun val => optTranspose (boolThen (!val.is_nil) (fun _ => tc.try_convert val))⟩

/-- Lazy-sequence return shape bridging a Rust iterator to the host block
protocol (block.rs Yield).  Modelled from the spec: either an active
iterator to drive eagerly, or a pre-built enumerator handle.  A finite
single-pass iterator is a list of pending elements. -/
inductive Yield (α : Type) where
  | Iter (l : List α)
  | Enumerator (e : Enumerator)

/-- Yield-values shape: each element expands into multiple call arguments
(block.rs YieldValues).  Modelled from the spec. -/
inductive YieldValues (α : Type) where
  | Iter (l : List α)
  | Enumerator (e : Enumerator)

/-- Yield-splat shape: each element is itself an aggregate to be splatted
(block.rs YieldSplat).  Modelled from the spec. -/
inductive YieldSplat where
  | Iter (l : List RArray)
  | Enumerator (e : Enumerator)

/-- The ArgList contract (into_value.rs, external): a value expanding into
a list of call-argument handles. -/
structure ArgList (α : Type) where
  as_args : α → List Value

/-- Modelled from the spec: block.rs do_yield_iter — drive the iterator on
the calling thread, invoking the host block callback once per produced
element, in production order, stopping at exhaustion. -/
def do_yield_iter (iv : IV α) (l : List α) : M Unit :=
  (l.map fun x => Ev.block_call (iv.into_value x), Outcome.ok ())

/-- Modelled from the spec: block.rs do_yield_values_iter — as
do_yield_iter, but each element expands into multiple call arguments. -/
def do_yield_values_iter (al : ArgList α) (l : List α) : M Unit :=
  (l.map fun x => Ev.block_call_values (al.as_args x), Outcome.ok ())

/-- Modelled from the spec: block.rs do_yield_splat_iter — as
do_yield_iter, but each element is an aggregate to be splatted. -/
def do_yield_splat_iter (l : List RArray) : M Unit :=
  (l.map fun r => Ev.block_call_splat r, Outcome.ok ())

/-- ReturnValue for Yield (method.rs lines 390..404): the Iter variant
drives the iteration and returns the default (nil) handle; the Enumerator
variant returns the enumerator handle. -/
def RV.yield (iv : IV α) : RV (Yield α) :=
  ⟨fun y =>
    match y with
    | Yield.Iter l => M.bind (do_yield_iter iv l) fun _ => ([], Outcome.ok Value.default)
    | Yield.Enumerator e => ([], Outcome.ok e.asValue)⟩

/-- ReturnValue for Result of Yield and Error (method.rs lines 406..414):
unwrap with the question-mark operator, then delegate. -/
def RV.yieldResult (iv : IV α) : RV (Except Error (Yield α)) :=
  ⟨fun res =>
    match res with
    | Except.ok y => (RV.yield iv).into_return_value y
    | Except.error e => ([], Outcome.err e)⟩

/-- ReturnValue for YieldValues (method.rs lines 416..430). -/
def RV.yieldValues (al : ArgList α) : RV (YieldValues α) :=
  ⟨fun y =>
    match y with
    | YieldValues.Iter l => M.bind (do_yield_values_iter al l) fun _ => ([], Outcome.ok Value.default)
    | YieldValues.Enumerator e => ([], Outcome.ok e.asValue)⟩

/-- ReturnValue for Result of YieldValues and Error (method.rs lines
432..440). -/
def RV.yieldValuesResult (al : ArgList α) : RV (Except Error (YieldValues α)) :=
  ⟨fun res =>
    match res with
    | Except.ok y => (RV.yieldValues al).into_return_value y
    | Except.error e => ([], Outcome.err e)⟩

/-- ReturnValue for YieldSplat (method.rs lines 442..455). -/
def RV.yieldSplat : RV YieldSplat :=
  ⟨fun y =>
    match y with
    | YieldSplat.Iter l => M.bind (do_yield_splat_iter l) fun _ => ([], Outcome.ok Value.default)
    | YieldSplat.Enumerator e => ([], Outcome.ok e.asValue)⟩

/-- ReturnValue for Result of YieldSplat and Error (method.rs lines
457..464). -/
def RV.yieldSplatResult : RV (Except Error YieldSplat) :=
  ⟨fun res =>
    match res with
    | Except.ok y => RV.yieldSplat.into_return_value y
    | Except.error e => ([], Outcome.err e)⟩

/-- Helper type wrapping a function as a method taking self and a Ruby
array of arguments (method.rs MethodRbAry, arity -2). -/
structure MethodRbAry (S Args ρ : Type) where
  func : S → Args → PanicM ρ
  rb_self : PhantomData S := ⟨⟩
  args : PhantomData Args := ⟨⟩
  res : PhantomData ρ := ⟨⟩

def MethodRbAry.new (f : S → Args → PanicM ρ) : MethodRbAry S Args ρ :=
  { func := f }

def MethodRbAry.call_convert_value (tcS : TryConv S) (tcArgs : TryConv Args)
    (rv : RV ρ) (meth : MethodRbAry S Args ρ) (rb_self : Value) (args : RArray) :
    M Value :=
  M.bind (tcS.try_convert rb_self) fun s =>
  M.bind (tcArgs.try_convert args.asValue) fun a =>
  M.bind (toM (meth.func s a)) rv.into_return_value

def MethodRbAry.call_handle_error (tcS : TryConv S) (tcArgs : TryConv Args)
    (rv : RV ρ) (meth : MethodRbAry S Args ρ) (rb_self : Value) (args : RArray) :
    List Ev × BRes :=
  boundary (MethodRbAry.call_convert_value tcS tcArgs rv meth rb_self args)

/-- Helper type wrapping a function as a method taking self and a slice of
arguments (method.rs MethodCAry, arity -1). -/
structure MethodCAry (S ρ : Type) where
  func : S → List Value → PanicM ρ
  rb_self : PhantomData S := ⟨⟩
  res : PhantomData ρ := ⟨⟩

def MethodCAry.new (f : S → List Value → PanicM ρ) : MethodCAry S ρ :=
  { func := f }

def MethodCAry.call_convert_value (tcS : TryConv S) (rv : RV ρ)
    (meth : MethodCAry S ρ) (argc : Nat) (argv : Nat → Value) (rb_self : Value) :
    M Value :=
  let args := slice_from_raw_parts argv argc
  M.bind (tcS.try_convert rb_self) fun s =>
  M.bind (toM (meth.func s args)) rv.into_return_value

def MethodCAry.call_handle_error (tcS : TryConv S) (rv : RV ρ)
    (meth : MethodCAry S ρ) (argc : Nat) (argv : Nat → Value) (rb_self : Value) :
    List Ev × BRes :=
  boundary (MethodCAry.call_convert_value tcS rv meth argc argv rb_self)

/-- Helper type wrapping a function as a method taking self and 0
arguments (method.rs Method0). -/
structure Method0 (S ρ : Type) where
  func : S → PanicM ρ
  rb_self : PhantomData S := ⟨⟩
  res : PhantomData ρ := ⟨⟩

def Method0.new (f : S → PanicM ρ) : Method0 S ρ :=
  { func := f }

def Method0.call_convert_value (tcS : TryConv S) (rv : RV ρ)
    (meth : Method0 S ρ) (rb_self : Value) :
    M Value :=
  M.bind (tcS.try_convert rb_self) fun s =>
  M.bind (toM (meth.func s)) rv.into_return_value

def Method0.call_handle_error (tcS : TryConv S) (rv : RV ρ)
    (meth : Method0 S ρ) (rb_self : Value) :
    List Ev × BRes :=
  boundary (Method0.call_convert_value tcS rv meth rb_self )

/-- Helper type wrapping a function as a method taking self and 1
argument (method.rs Method1). -/
structure Method1 (S A1 ρ : Type) where
  func : S → A1 → PanicM ρ
  rb_self : PhantomData S := ⟨⟩
  a : PhantomData A1 := ⟨⟩
  res : PhantomData ρ := ⟨⟩

def Method1.new (f : S → A1 → PanicM ρ) : Method1 S A1 ρ :=
  { func := f }

def Method1.call_convert_value (tcS : TryConv S) (tc1 : TryConv A1) (rv : RV ρ)
    (meth : Method1 S A1 ρ) (rb_self a : Value) :
    M Value :=
  M.bind (tcS.try_convert rb_self) fun s =>
  M.bind (tc1.try_convert a) fun x1 =>
  M.bind (toM (meth.func s x1)) rv.into_return_value

def Method1.call_handle_error (tcS : TryConv S) (tc1 : TryConv A1) (rv : RV ρ)
    (meth : Method1 S A1 ρ) (rb_self a : Value) :
    List Ev × BRes :=
  boundary (Method1.call_convert_value tcS tc1 rv meth rb_self a)

/-- Helper type wrapping a function as a method taking self and 2
arguments (method.rs Method2). -/
structure Method2 (S A1 A2 ρ : Type) where
  func : S → A1 → A2 → PanicM ρ
  rb_self : PhantomData S := ⟨⟩
  a : PhantomData A1 := ⟨⟩
  b : PhantomData A2 := ⟨⟩
  res : PhantomData ρ := ⟨⟩

def Method2.new (f : S → A1 → A2 → PanicM ρ) : Method2 S A1 A2 ρ :=
  { func := f }

def Method2.call_convert_value (tcS : TryConv S) (tc1 : TryConv A1) (tc2 : TryConv A2) (rv : RV ρ)
    (meth : Method2 S A1 A2 ρ) (rb_self a b : Value) :
    M Value :=
  M.bind (tcS.try_convert rb_self) fun s =>
  M.bind (tc1.try_convert a) fun x1 =>
  M.bind (tc2.try_convert b) fun x2 =>
  M.bind (toM (meth.func s x1 x2)) rv.into_return_value

def Method2.call_handle_error (tcS : TryConv S) (tc1 : TryConv A1) (tc2 : TryConv A2) (rv : RV ρ)
    (meth : Method2 S A1 A2 ρ) (rb_self a b : Value) :
    List Ev × BRes :=
  boundary (Method2.call_convert_value tcS tc1 tc2 rv meth rb_self a b)

/-- Helper type wrapping a function as a method taking self and 3
arguments (method.rs Method3). -/
structure Method3 (S A1 A2 A3 ρ : Type) where
  func : S → A1 → A2 → A3 → PanicM ρ
  rb_self : PhantomData S := ⟨⟩
  a : PhantomData A1 := ⟨⟩
  b : PhantomData A2 := ⟨⟩
  c : PhantomData A3 := ⟨⟩
  res : PhantomData ρ := ⟨⟩

def Method3.new (f : S → A1 → A2 → A3 → PanicM ρ) : Method3 S A1 A2 A3 ρ :=
  { func := f }

def Method3.call_convert_value (tcS : TryConv S) (tc1 : TryConv A1) (tc2 : TryConv A2) (tc3 : TryConv A3) (rv : RV ρ)
    (meth : Method3 S A1 A2 A3 ρ) (rb_self a b c : Value) :
    M Value :=
  M.bind (tcS.try_convert rb_self) fun s =>
  M.bind (tc1.try_convert a) fun x1 =>
  M.bind (tc2.try_convert b) fun x2 =>
  M.bind (tc3.try_convert c) fun x3 =>
  M.bind (toM (meth.func s x1 x2 x3)) rv.into_return_value

def Method3.call_handle_error (tcS : TryConv S) (tc1 : TryConv A1) (tc2 : TryConv A2) (tc3 : TryConv A3) (rv : RV ρ)
    (meth : Method3 S A1 A2 A3 ρ) (rb_self a b c : Value) :
    List Ev × BRes :=
  boundary (Method3.call_convert_value tcS tc1 tc2 tc3 rv meth rb_self a b c)

/-- Helper type wrapping a function as a method taking self and 4
arguments (method.rs Method4). -/
structure Method4 (S A1 A2 A3 A4 ρ : Type) where
  func : S → A1 → A2 → A3 → A4 → PanicM ρ
  rb_self : PhantomData S := ⟨⟩
  a : PhantomData A1 := ⟨⟩
  b : PhantomData A2 := ⟨⟩
  c : PhantomData A3 := ⟨⟩
  d : PhantomData A4 := ⟨⟩
  res : PhantomData ρ := ⟨⟩

def Method4.new (f : S → A1 → A2 → A3 → A4 → PanicM ρ) : Method4 S A1 A2 A3 A4 ρ :=
  { func := f }

def Method4.call_convert_value (tcS : TryConv S) (tc1 : TryConv A1) (tc2 : TryConv A2) (tc3 : TryConv A3) (tc4 : TryConv A4) (rv : RV ρ)
    (meth : Method4 S A1 A2 A3 A4 ρ) (rb_self a b c d : Value) :
    M Value :=
  M.bind (tcS.try_convert rb_self) fun s =>
  M.bind (tc1.try_convert a) fun x1 =>
  M.bind (tc2.try_convert b) fun x2 =>
  M.bind (tc3.try_convert c) fun x3 =>
  M.bind (tc4.try_convert d) fun x4 =>
  M.bind (toM (meth.func s x1 x2 x3 x4)) rv.into_return_value

def Method4.call_handle_error (tcS : TryConv S) (tc1 : TryConv A1) (tc2 : TryConv A2) (tc3 : TryConv A3) (tc4 : TryConv A4) (rv : RV ρ)
    (meth : Method4 S A1 A2 A3 A4 ρ) (rb_self a b c d : Value) :
    List Ev × BRes :=
  boundary (Method4.call_convert_value tcS tc1 tc2 tc3 tc4 rv meth rb_self a b c d)

/-- Helper type wrapping a function as a method taking self and 5
arguments (method.rs Method5). -/
structure Method5 (S A1 A2 A3 A4 A5 ρ : Type) where
  func : S → A1 → A2 → A3 → A4 → A5 → PanicM ρ
  rb_self : PhantomData S := ⟨⟩
  a : PhantomData A1 := ⟨⟩
  b : PhantomData A2 := ⟨⟩
  c : PhantomData A3 := ⟨⟩
  d : PhantomData A4 := ⟨⟩
  e : PhantomData A5 := ⟨⟩
  res : PhantomData ρ := ⟨⟩

def Method5.new (f : S → A1 → A2 → A3 → A4 → A5 → PanicM ρ) : Method5 S A1 A2 A3 A4 A5 ρ :=
  { func := f }

def Method5.call_convert_value (tcS : TryConv S) (tc1 : TryConv A1) (tc2 : TryConv A2) (tc3 : TryConv A3) (tc4 : TryConv A4) (tc5 : TryConv A5) (rv : RV ρ)
    (meth : Method5 S A1 A2 A3 A4 A5 ρ) (rb_self a b c d e : Value) :
    M Value :=
  M.bind (tcS.try_convert rb_self) fun s =>
  M.bind (tc1.try_convert a) fun x1 =>
  M.bind (tc2.try_convert b) fun x2 =>
  M.bind (tc3.try_convert c) fun x3 =>
  M.bind (tc4.try_convert d) fun x4 =>
  M.bind (tc5.try_convert e) fun x5 =>
  M.bind (toM (meth.func s x1 x2 x3 x4 x5)) rv.into_return_value

def Method5.call_handle_error (tcS : TryConv S) (tc1 : TryConv A1) (tc2 : TryConv A2) (tc3 : TryConv A3) (tc4 : TryConv A4) (tc5 : TryConv A5) (rv : RV ρ)
    (meth : Method5 S A1 A2 A3 A4 A5 ρ) (rb_self a b c d e : Value) :
    List Ev × BRes :=
  boundary (Method5.call_convert_value tcS tc1 tc2 tc3 tc4 tc5 rv meth rb_self a b c d e)

/-- Helper type wrapping a function as a method taking self and 6
arguments (method.rs Method6). -/
structure Method6 (S A1 A2 A3 A4 A5 A6 ρ : Type) where
  func : S → A1 → A2 → A3 → A4 → A5 → A6 → PanicM ρ
  rb_self : PhantomData S := ⟨⟩
  a : PhantomData A1 := ⟨⟩
  b : PhantomData A2 := ⟨⟩
  c : PhantomData A3 := ⟨⟩
  d : PhantomData A4 := ⟨⟩
  e : PhantomData A5 := ⟨⟩
  f : PhantomData A6 := ⟨⟩
  res : PhantomData ρ := ⟨⟩

def Method6.new (f : S → A1 → A2 → A3 → A4 → A5 → A6 → PanicM ρ) : Method6 S A1 A2 A3 A4 A5 A6 ρ :=
  { func := f }

def Method6.call_convert_value (tcS : TryConv S) (tc1 : TryConv A1) (tc2 : TryConv A2) (tc3 : TryConv A3) (tc4 : TryConv A4) (tc5 : TryConv A5) (tc6 : TryConv A6) (rv : RV ρ)
    (meth : Method6 S A1 A2 A3 A4 A5 A6 ρ) (rb_self a b c d e f : Value) :
    M Value :=
  M.bind (tcS.try_convert rb_self) fun s =>
  M.bind (tc1.try_convert a) fun x1 =>
  M.bind (tc2.try_convert b) fun x2 =>
  M.bind (tc3.try_convert c) fun x3 =>
  M.bind (tc4.try_convert d) fun x4 =>
  M.bind (tc5.try_convert e) fun x5 =>
  M.bind (tc6.try_convert f) fun x6 =>
  M.bind (toM (meth.func s x1 x2 x3 x4 x5 x6)) rv.into_return_value

def Method6.call_handle_error (tcS : TryConv S) (tc1 : TryConv A1) (tc2 : TryConv A2) (tc3 : TryConv A3) (tc4 : TryConv A4) (tc5 : TryConv A5) (tc6 : TryConv A6) (rv : RV ρ)
    (meth : Method6 S A1 A2 A3 A4 A5 A6 ρ) (rb_self a b c d e f : Value) :
    List Ev × BRes :=
  boundary (Method6.call_convert_value tcS tc1 tc2 tc3 tc4 tc5 tc6 rv meth rb_self a b c d e f)

/-- Helper type wrapping a function as a method taking self and 7
arguments (method.rs Method7). -/
structure Method7 (S A1 A2 A3 A4 A5 A6 A7 ρ : Type) where
  func : S → A1 → A2 → A3 → A4 → A5 → A6 → A7 → PanicM ρ
  rb_self : PhantomData S := ⟨⟩
  a : PhantomData A1 := ⟨⟩
  b : PhantomData A2 := ⟨⟩
  c : PhantomData A3 := ⟨⟩
  d : PhantomData A4 := ⟨⟩
  e : PhantomData A5 := ⟨⟩
  f : PhantomData A6 := ⟨⟩
  g : PhantomData A7 := ⟨⟩
  res : PhantomData ρ := ⟨⟩

def Method7.new (f : S → A1 → A2 → A3 → A4 → A5 → A6 → A7 → PanicM ρ) : Method7 S A1 A2 A3 A4 A5 A6 A7 ρ :=
  { func := f }

def Method7.call_convert_value (tcS : TryConv S) (tc1 : TryConv A1) (tc2 : TryConv A2) (tc3 : TryConv A3) (tc4 : TryConv A4) (tc5 : TryConv A5) (tc6 : TryConv A6) (tc7 : TryConv A7) (rv : RV ρ)
    (meth : Method7 S A1 A2 A3 A4 A5 A6 A7 ρ) (rb_self a b c d e f g : Value) :
    M Value :=
  M.bind (tcS.try_convert rb_self) fun s =>
  M.bind (tc1.try_convert a) fun x1 =>
  M.bind (tc2.try_convert b) fun x2 =>
  M.bind (tc3.try_convert c) fun x3 =>
  M.bind (tc4.try_convert d) fun x4 =>
  M.bind (tc5.try_convert e) fun x5 =>
  M.bind (tc6.try_convert f) fun x6 =>
  M.bind (tc7.try_convert g) fun x7 =>
  M.bind (toM (meth.func s x1 x2 x3 x4 x5 x6 x7)) rv.into_return_value

def Method7.call_handle_error (tcS : TryConv S) (tc1 : TryConv A1) (tc2 : TryConv A2) (tc3 : TryConv A3) (tc4 : TryConv A4) (tc5 : TryConv A5) (tc6 : TryConv A6) (tc7 : TryConv A7) (rv : RV ρ)
    (meth : Method7 S A1 A2 A3 A4 A5 A6 A7 ρ) (rb_self a b c d e f g : Value) :
    List Ev × BRes :=
  boundary (Method7.call_convert_value tcS tc1 tc2 tc3 tc4 tc5 tc6 tc7 rv meth rb_self a b c d e f g)

/-- Helper type wrapping a function as a method taking self and 8
arguments (method.rs Method8). -/
structure Method8 (S A1 A2 A3 A4 A5 A6 A7 A8 ρ : Type) where
  func : S → A1 → A2 → A3 → A4 → A5 → A6 → A7 → A8 → PanicM ρ
  rb_self : PhantomData S := ⟨⟩
  a : PhantomData A1 := ⟨⟩
  b : PhantomData A2 := ⟨⟩
  c : PhantomData A3 := ⟨⟩
  d : PhantomData A4 := ⟨⟩
  e : PhantomData A5 := ⟨⟩
  f : PhantomData A6 := ⟨⟩
  g : PhantomData A7 := ⟨⟩
  h : PhantomData A8 := ⟨⟩
  res : PhantomData ρ := ⟨⟩

def Method8.new (f : S → A1 → A2 → A3 → A4 → A5 → A6 → A7 → A8 → PanicM ρ) : Method8 S A1 A2 A3 A4 A5 A6 A7 A8 ρ :=
  { func := f }

def Method8.call_convert_value (tcS : TryConv S) (tc1 : TryConv A1) (tc2 : TryConv A2) (tc3 : TryConv A3) (tc4 : TryConv A4) (tc5 : TryConv A5) (tc6 : TryConv A6) (tc7 : TryConv A7) (tc8 : TryConv A8) (rv : RV ρ)
    (meth : Method8 S A1 A2 A3 A4 A5 A6 A7 A8 ρ) (rb_self a b c d e f g h : Value) :
    M Value :=
  M.bind (tcS.try_convert rb_self) fun s =>
  M.bind (tc1.try_convert a) fun x1 =>
  M.bind (tc2.try_convert b) fun x2 =>
  M.bind (tc3.try_convert c) fun x3 =>
  M.bind (tc4.try_convert d) fun x4 =>
  M.bind (tc5.try_convert e) fun x5 =>
  M.bind (tc6.try_convert f) fun x6 =>
  M.bind (tc7.try_convert g) fun x7 =>
  M.bind (tc8.try_convert h) fun x8 =>
  M.bind (toM (meth.func s x1 x2 x3 x4 x5 x6 x7 x8)) rv.into_return_value

def Method8.call_handle_error (tcS : TryConv S) (tc1 : TryConv A1) (tc2 : TryConv A2) (tc3 : TryConv A3) (tc4 : TryConv A4) (tc5 : TryConv A5) (tc6 : TryConv A6) (tc7 : TryConv A7) (tc8 : TryConv A8) (rv : RV ρ)
    (meth : Method8 S A1 A2 A3 A4 A5 A6 A7 A8 ρ) (rb_self a b c d e f g h : Value) :
    List Ev × BRes :=
  boundary (Method8.call_convert_value tcS tc1 tc2 tc3 tc4 tc5 tc6 tc7 tc8 rv meth rb_self a b c d e f g h)

/-- Helper type wrapping a function as a method taking self and 9
arguments (method.rs Method9). -/
structure Method9 (S A1 A2 A3 A4 A5 A6 A7 A8 A9 ρ : Type) where
  func : S → A1 → A2 → A3 → A4 → A5 → A6 → A7 → A8 → A9 → PanicM ρ
  rb_self : PhantomData S := ⟨⟩
  a : PhantomData A1 := ⟨⟩
  b : PhantomData A2 := ⟨⟩
  c : PhantomData A3 := ⟨⟩
  d : PhantomData A4 := ⟨⟩
  e : PhantomData A5 := ⟨⟩
  f : PhantomData A6 := ⟨⟩
  g : PhantomData A7 := ⟨⟩
  h : PhantomData A8 := ⟨⟩
  i : PhantomData A9 := ⟨⟩
  res : PhantomData ρ := ⟨⟩

def Method9.new (f : S → A1 → A2 → A3 → A4 → A5 → A6 → A7 → A8 → A9 → PanicM ρ) : Method9 S A1 A2 A3 A4 A5 A6 A7 A8 A9 ρ :=
  { func := f }

def Method9.call_convert_value (tcS : TryConv S) (tc1 : TryConv A1) (tc2 : TryConv A2) (tc3 : TryConv A3) (tc4 : TryConv A4) (tc5 : TryConv A5) (tc6 : TryConv A6) (tc7 : TryConv A7) (tc8 : TryConv A8) (tc9 : TryConv A9) (rv : RV ρ)
    (meth : Method9 S A1 A2 A3 A4 A5 A6 A7 A8 A9 ρ) (rb_self a b c d e f g h i : Value) :
    M Value :=
  M.bind (tcS.try_convert rb_self) fun s =>
  M.bind (tc1.try_convert a) fun x1 =>
  M.bind (tc2.try_convert b) fun x2 =>
  M.bind (tc3.try_convert c) fun x3 =>
  M.bind (tc4.try_convert d) fun x4 =>
  M.bind (tc5.try_convert e) fun x5 =>
  M.bind (tc6.try_convert f) fun x6 =>
  M.bind (tc7.try_convert g) fun x7 =>
  M.bind (tc8.try_convert h) fun x8 =>
  M.bind (tc9.try_convert i) fun x9 =>
  M.bind (toM (meth.func s x1 x2 x3 x4 x5 x6 x7 x8 x9)) rv.into_return_value

def Method9.call_handle_error (tcS : TryConv S) (tc1 : TryConv A1) (tc2 : TryConv A2) (tc3 : TryConv A3) (tc4 : TryConv A4) (tc5 : TryConv A5) (tc6 : TryConv A6) (tc7 : TryConv A7) (tc8 : TryConv A8) (tc9 : TryConv A9) (rv : RV ρ)
    (meth : Method9 S A1 A2 A3 A4 A5 A6 A7 A8 A9 ρ) (rb_self a b c d e f g h i : Value) :
    List Ev × BRes :=
  boundary (Method9.call_convert_value tcS tc1 tc2 tc3 tc4 tc5 tc6 tc7 tc8 tc9 rv meth rb_self a b c d e f g h i)

/-- Helper type wrapping a function as a method taking self and 10
arguments (method.rs Method10). -/
structure Method10 (S A1 A2 A3 A4 A5 A6 A7 A8 A9 A10 ρ : Type) where
  func : S → A1 → A2 → A3 → A4 → A5 → A6 → A7 → A8 → A9 → A10 → PanicM ρ
  rb_self : PhantomData S := ⟨⟩
  a : PhantomData A1 := ⟨⟩
  b : PhantomData A2 := ⟨⟩
  c : PhantomData A3 := ⟨⟩
  d : PhantomData A4 := ⟨⟩
  e : PhantomData A5 := ⟨⟩
  f : PhantomData A6 := ⟨⟩
  g : PhantomData A7 := ⟨⟩
  h : PhantomData A8 := ⟨⟩
  i : PhantomData A9 := ⟨⟩
  j : PhantomData A10 := ⟨⟩
  res : PhantomData ρ := ⟨⟩

def Method10.new (f : S → A1 → A2 → A3 → A4 → A5 → A6 → A7 → A8 → A9 → A10 → PanicM ρ) : Method10 S A1 A2 A3 A4 A5 A6 A7 A8 A9 A10 ρ :=
  { func := f }

def Method10.call_convert_value (tcS : TryConv S) (tc1 : TryConv A1) (tc2 : TryConv A2) (tc3 : TryConv A3) (tc4 : TryConv A4) (tc5 : TryConv A5) (tc6 : TryConv A6) (tc7 : TryConv A7) (tc8 : TryConv A8) (tc9 : TryConv A9) (tc10 : TryConv A10) (rv : RV ρ)
    (meth : Method10 S A1 A2 A3 A4 A5 A6 A7 A8 A9 A10 ρ) (rb_self a b c d e f g h i j : Value) :
    M Value :=
  M.bind (tcS.try_convert rb_self) fun s =>
  M.bind (tc1.try_convert a) fun x1 =>
  M.bind (tc2.try_convert b) fun x2 =>
  M.bind (tc3.try_convert c) fun x3 =>
  M.bind (tc4.try_convert d) fun x4 =>
  M.bind (tc5.try_convert e) fun x5 =>
  M.bind (tc6.try_convert f) fun x6 =>
  M.bind (tc7.try_convert g) fun x7 =>
  M.bind (tc8.try_convert h) fun x8 =>
  M.bind (tc9.try_convert i) fun x9 =>
  M.bind (tc10.try_convert j) fun x10 =>
  M.bind (toM (meth.func s x1 x2 x3 x4 x5 x6 x7 x8 x9 x10)) rv.into_return_value

def Method10.call_handle_error (tcS : TryConv S) (tc1 : TryConv A1) (tc2 : TryConv A2) (tc3 : TryConv A3) (tc4 : TryConv A4) (tc5 : TryConv A5) (tc6 : TryConv A6) (tc7 : TryConv A7) (tc8 : TryConv A8) (tc9 : TryConv A9) (tc10 : TryConv A10) (rv : RV ρ)
    (meth : Method10 S A1 A2 A3 A4 A5 A6 A7 A8 A9 A10 ρ) (rb_self a b c d e f g h i j : Value) :
    List Ev × BRes :=
  boundary (Method10.call_convert_value tcS tc1 tc2 tc3 tc4 tc5 tc6 tc7 tc8 tc9 tc10 rv meth rb_self a b c d e f g h i j)

/-- Helper type wrapping a function as a method taking self and 11
arguments (method.rs Method11). -/
structure Method11 (S A1 A2 A3 A4 A5 A6 A7 A8 A9 A10 A11 ρ : Type) where
  func : S → A1 → A2 → A3 → A4 → A5 → A6 → A7 → A8 → A9 → A10 → A11 → PanicM ρ
  rb_self : PhantomData S := ⟨⟩
  a : PhantomData A1 := ⟨⟩
  b : PhantomData A2 := ⟨⟩
  c : PhantomData A3 := ⟨⟩
  d : PhantomData A4 := ⟨⟩
  e : PhantomData A5 := ⟨⟩
  f : PhantomData A6 := ⟨⟩
  g : PhantomData A7 := ⟨⟩
  h : PhantomData A8 := ⟨⟩
  i : PhantomData A9 := ⟨⟩
  j : PhantomData A10 := ⟨⟩
  k : PhantomData A11 := ⟨⟩
  res : PhantomData ρ := ⟨⟩

def Method11.new (f : S → A1 → A2 → A3 → A4 → A5 → A6 → A7 → A8 → A9 → A10 → A11 → PanicM ρ) : Method11 S A1 A2 A3 A4 A5 A6 A7 A8 A9 A10 A11 ρ :=
  { func := f }

def Method11.call_convert_value (tcS : TryConv S) (tc1 : TryConv A1) (tc2 : TryConv A2) (tc3 : TryConv A3) (tc4 : TryConv A4) (tc5 : TryConv A5) (tc6 : TryConv A6) (tc7 : TryConv A7) (tc8 : TryConv A8) (tc9 : TryConv A9) (tc10 : TryConv A10) (tc11 : TryConv A11) (rv : RV ρ)
    (meth : Method11 S A1 A2 A3 A4 A5 A6 A7 A8 A9 A10 A11 ρ) (rb_self a b c d e f g h i j k : Value) :
    M Value :=
  M.bind (tcS.try_convert rb_self) fun s =>
  M.bind (tc1.try_convert a) fun x1 =>
  M.bind (tc2.try_convert b) fun x2 =>
  M.bind (tc3.try_convert c) fun x3 =>
  M.bind (tc4.try_convert d) fun x4 =>
  M.bind (tc5.try_convert e) fun x5 =>
  M.bind (tc6.try_convert f) fun x6 =>
  M.bind (tc7.try_convert g) fun x7 =>
  M.bind (tc8.try_convert h) fun x8 =>
  M.bind (tc9.try_convert i) fun x9 =>
  M.bind (tc10.try_convert j) fun x10 =>
  M.bind (tc11.try_convert k) fun x11 =>
  M.bind (toM (meth.func s x1 x2 x3 x4 x5 x6 x7 x8 x9 x10 x11)) rv.into_return_value

def Method11.call_handle_error (tcS : TryConv S) (tc1 : TryConv A1) (tc2 : TryConv A2) (tc3 : TryConv A3) (tc4 : TryConv A4) (tc5 : TryConv A5) (tc6 : TryConv A6) (tc7 : TryConv A7) (tc8 : TryConv A8) (tc9 : TryConv A9) (tc10 : TryConv A10) (tc11 : TryConv A11) (rv : RV ρ)
    (meth : Method11 S A1 A2 A3 A4 A5 A6 A7 A8 A9 A10 A11 ρ) (rb_self a b c d e f g h i j k : Value) :
    List Ev × BRes :=
  boundary (Method11.call_convert_value tcS tc1 tc2 tc3 tc4 tc5 tc6 tc7 tc8 tc9 tc10 tc11 rv meth rb_self a b c d e f g h i j k)

/-- Helper type wrapping a function as a method taking self and 12
arguments (method.rs Method12). -/
structure Method12 (S A1 A2 A3 A4 A5 A6 A7 A8 A9 A10 A11 A12 ρ : Type) where
  func : S → A1 → A2 → A3 → A4 → A5 → A6 → A7 → A8 → A9 → A10 → A11 → A12 → PanicM ρ
  rb_self : PhantomData S := ⟨⟩
  a : PhantomData A1 := ⟨⟩
  b : PhantomData A2 := ⟨⟩
  c : PhantomData A3 := ⟨⟩
  d : PhantomData A4 := ⟨⟩
  e : PhantomData A5 := ⟨⟩
  f : PhantomData A6 := ⟨⟩
  g : PhantomData A7 := ⟨⟩
  h : PhantomData A8 := ⟨⟩
  i : PhantomData A9 := ⟨⟩
  j : PhantomData A10 := ⟨⟩
  k : PhantomData A11 := ⟨⟩
  l : PhantomData A12 := ⟨⟩
  res : PhantomData ρ := ⟨⟩

def Method12.new (f : S → A1 → A2 → A3 → A4 → A5 → A6 → A7 → A8 → A9 → A10 → A11 → A12 → PanicM ρ) : Method12 S A1 A2 A3 A4 A5 A6 A7 A8 A9 A10 A11 A12 ρ :=
  { func := f }

def Method12.call_convert_value (tcS : TryConv S) (tc1 : TryConv A1) (tc2 : TryConv A2) (tc3 : TryConv A3) (tc4 : TryConv A4) (tc5 : TryConv A5) (tc6 : TryConv A6) (tc7 : TryConv A7) (tc8 : TryConv A8) (tc9 : TryConv A9) (tc10 : TryConv A10) (tc11 : TryConv A11) (tc12 : TryConv A12) (rv : RV ρ)
    (meth : Method12 S A1 A2 A3 A4 A5 A6 A7 A8 A9 A10 A11 A12 ρ) (rb_self a b c d e f g h i j k l : Value) :
    M Value :=
  M.bind (tcS.try_convert rb_self) fun s =>
  M.bind (tc1.try_convert a) fun x1 =>
  M.bind (tc2.try_convert b) fun x2 =>
  M.bind (tc3.try_convert c) fun x3 =>
  M.bind (tc4.try_convert d) fun x4 =>
  M.bind (tc5.try_convert e) fun x5 =>
  M.bind (tc6.try_convert f) fun x6 =>
  M.bind (tc7.try_convert g) fun x7 =>
  M.bind (tc8.try_convert h) fun x8 =>
  M.bind (tc9.try_convert i) fun x9 =>
  M.bind (tc10.try_convert j) fun x10 =>
  M.bind (tc11.try_convert k) fun x11 =>
  M.bind (tc12.try_convert l) fun x12 =>
  M.bind (toM (meth.func s x1 x2 x3 x4 x5 x6 x7 x8 x9 x10 x11 x12)) rv.into_return_value

def Method12.call_handle_error (tcS : TryConv S) (tc1 : TryConv A1) (tc2 : TryConv A2) (tc3 : TryConv A3) (tc4 : TryConv A4) (tc5 : TryConv A5) (tc6 : TryConv A6) (tc7 : TryConv A7) (tc8 : TryConv A8) (tc9 : TryConv A9) (tc10 : TryConv A10) (tc11 : TryConv A11) (tc12 : TryConv A12) (rv : RV ρ)
    (meth : Method12 S A1 A2 A3 A4 A5 A6 A7 A8 A9 A10 A11 A12 ρ) (rb_self a b c d e f g h i j k l : Value) :
    List Ev × BRes :=
  boundary (Method12.call_convert_value tcS tc1 tc2 tc3 tc4 tc5 tc6 tc7 tc8 tc9 tc10 tc11 tc12 rv meth rb_self a b c d e f g h i j k l)

/-- Helper type wrapping a function as a method taking self and 13
arguments (method.rs Method13). -/
structure Method13 (S A1 A2 A3 A4 A5 A6 A7 A8 A9 A10 A11 A12 A13 ρ : Type) where
  func : S → A1 → A2 → A3 → A4 → A5 → A6 → A7 → A8 → A9 → A10 → A11 → A12 → A13 → PanicM ρ
  rb_self : PhantomData S := ⟨⟩
  a : PhantomData A1 := ⟨⟩
  b : PhantomData A2 := ⟨⟩
  c : PhantomData A3 := ⟨⟩
  d : PhantomData A4 := ⟨⟩
  e : PhantomData A5 := ⟨⟩
  f : PhantomData A6 := ⟨⟩
  g : PhantomData A7 := ⟨⟩
  h : PhantomData A8 := ⟨⟩
  i : PhantomData A9 := ⟨⟩
  j : PhantomData A10 := ⟨⟩
  k : PhantomData A11 := ⟨⟩
  l : PhantomData A12 := ⟨⟩
  m : PhantomData A13 := ⟨⟩
  res : PhantomData ρ := ⟨⟩

def Method13.new (f : S → A1 → A2 → A3 → A4 → A5 → A6 → A7 → A8 → A9 → A10 → A11 → A12 → A13 → PanicM ρ) : Method13 S A1 A2 A3 A4 A5 A6 A7 A8 A9 A10 A11 A12 A13 ρ :=
  { func := f }

def Method13.call_convert_value (tcS : TryConv S) (tc1 : TryConv A1) (tc2 : TryConv A2) (tc3 : TryConv A3) (tc4 : TryConv A4) (tc5 : TryConv A5) (tc6 : TryConv A6) (tc7 : TryConv A7) (tc8 : TryConv A8) (tc9 : TryConv A9) (tc10 : TryConv A10) (tc11 : TryConv A11) (tc12 : TryConv A12) (tc13 : TryConv A13) (rv : RV ρ)
    (meth : Method13 S A1 A2 A3 A4 A5 A6 A7 A8 A9 A10 A11 A12 A13 ρ) (rb_self a b c d e f g h i j k l m : Value) :
    M Value :=
  M.bind (tcS.try_convert rb_self) fun s =>
  M.bind (tc1.try_convert a) fun x1 =>
  M.bind (tc2.try_convert b) fun x2 =>
  M.bind (tc3.try_convert c) fun x3 =>
  M.bind (tc4.try_convert d) fun x4 =>
  M.bind (tc5.try_convert e) fun x5 =>
  M.bind (tc6.try_convert f) fun x6 =>
  M.bind (tc7.try_convert g) fun x7 =>
  M.bind (tc8.try_convert h) fun x8 =>
  M.bind (tc9.try_convert i) fun x9 =>
  M.bind (tc10.try_convert j) fun x10 =>
  M.bind (tc11.try_convert k) fun x11 =>
  M.bind (tc12.try_convert l) fun x12 =>
  M.bind (tc13.try_convert m) fun x13 =>
  M.bind (toM (meth.func s x1 x2 x3 x4 x5 x6 x7 x8 x9 x10 x11 x12 x13)) rv.into_return_value

def Method13.call_handle_error (tcS : TryConv S) (tc1 : TryConv A1) (tc2 : TryConv A2) (tc3 : TryConv A3) (tc4 : TryConv A4) (tc5 : TryConv A5) (tc6 : TryConv A6) (tc7 : TryConv A7) (tc8 : TryConv A8) (tc9 : TryConv A9) (tc10 : TryConv A10) (tc11 : TryConv A11) (tc12 : TryConv A12) (tc13 : TryConv A13) (rv : RV ρ)
    (meth : Method13 S A1 A2 A3 A4 A5 A6 A7 A8 A9 A10 A11 A12 A13 ρ) (rb_self a b c d e f g h i j k l m : Value) :
    List Ev × BRes :=
  boundary (Method13.call_convert_value tcS tc1 tc2 tc3 tc4 tc5 tc6 tc7 tc8 tc9 tc10 tc11 tc12 tc13 rv meth rb_self a b c d e f g h i j k l m)

/-- Helper type wrapping a function as a method taking self and 14
arguments (method.rs Method14). -/
structure Method14 (S A1 A2 A3 A4 A5 A6 A7 A8 A9 A10 A11 A12 A13 A14 ρ : Type) where
  func : S → A1 → A2 → A3 → A4 → A5 → A6 → A7 → A8 → A9 → A10 → A11 → A12 → A13 → A14 → PanicM ρ
  rb_self : PhantomData S := ⟨⟩
  a : PhantomData A1 := ⟨⟩
  b : PhantomData A2 := ⟨⟩
  c : PhantomData A3 := ⟨⟩
  d : PhantomData A4 := ⟨⟩
  e : PhantomData A5 := ⟨⟩
  f : PhantomData A6 := ⟨⟩
  g : PhantomData A7 := ⟨⟩
  h : PhantomData A8 := ⟨⟩
  i : PhantomData A9 := ⟨⟩
  j : PhantomData A10 := ⟨⟩
  k : PhantomData A11 := ⟨⟩
  l : PhantomData A12 := ⟨⟩
  m : PhantomData A13 := ⟨⟩
  n : PhantomData A14 := ⟨⟩
  res : PhantomData ρ := ⟨⟩

def Method14.new (f : S → A1 → A2 → A3 → A4 → A5 → A6 → A7 → A8 → A9 → A10 → A11 → A12 → A13 → A14 → PanicM ρ) : Method14 S A1 A2 A3 A4 A5 A6 A7 A8 A9 A10 A11 A12 A13 A14 ρ :=
  { func := f }

def Method14.call_convert_value (tcS : TryConv S) (tc1 : TryConv A1) (tc2 : TryConv A2) (tc3 : TryConv A3) (tc4 : TryConv A4) (tc5 : TryConv A5) (tc6 : TryConv A6) (tc7 : TryConv A7) (tc8 : TryConv A8) (tc9 : TryConv A9) (tc10 : TryConv A10) (tc11 : TryConv A11) (tc12 : TryConv A12) (tc13 : TryConv A13) (tc14 : TryConv A14) (rv : RV ρ)
    (meth : Method14 S A1 A2 A3 A4 A5 A6 A7 A8 A9 A10 A11 A12 A13 A14 ρ) (rb_self a b c d e f g h i j k l m n : Value) :
    M Value :=
  M.bind (tcS.try_convert rb_self) fun s =>
  M.bind (tc1.try_convert a) fun x1 =>
  M.bind (tc2.try_convert b) fun x2 =>
  M.bind (tc3.try_convert c) fun x3 =>
  M.bind (tc4.try_convert d) fun x4 =>
  M.bind (tc5.try_convert e) fun x5 =>
  M.bind (tc6.try_convert f) fun x6 =>
  M.bind (tc7.try_convert g) fun x7 =>
  M.bind (tc8.try_convert h) fun x8 =>
  M.bind (tc9.try_convert i) fun x9 =>
  M.bind (tc10.try_convert j) fun x10 =>
  M.bind (tc11.try_convert k) fun x11 =>
  M.bind (tc12.try_convert l) fun x12 =>
  M.bind (tc13.try_convert m) fun x13 =>
  M.bind (tc14.try_convert n) fun x14 =>
  M.bind (toM (meth.func s x1 x2 x3 x4 x5 x6 x7 x8 x9 x10 x11 x12 x13 x14)) rv.into_return_value

def Method14.call_handle_error (tcS : TryConv S) (tc1 : TryConv A1) (tc2 : TryConv A2) (tc3 : TryConv A3) (tc4 : TryConv A4) (tc5 : TryConv A5) (tc6 : TryConv A6) (tc7 : TryConv A7) (tc8 : TryConv A8) (tc9 : TryConv A9) (tc10 : TryConv A10) (tc11 : TryConv A11) (tc12 : TryConv A12) (tc13 : TryConv A13) (tc14 : TryConv A14) (rv : RV ρ)
    (meth : Method14 S A1 A2 A3 A4 A5 A6 A7 A8 A9 A10 A11 A12 A13 A14 ρ) (rb_self a b c d e f g h i j k l m n : Value) :
    List Ev × BRes :=
  boundary (Method14.call_convert_value tcS tc1 tc2 tc3 tc4 tc5 tc6 tc7 tc8 tc9 tc10 tc11 tc12 tc13 tc14 rv meth rb_self a b c d e f g h i j k l m n)

/-- Helper type wrapping a function as a method taking self and 15
arguments (method.rs Method15). -/
structure Method15 (S A1 A2 A3 A4 A5 A6 A7 A8 A9 A10 A11 A12 A13 A14 A15 ρ : Type) where
  func : S → A1 → A2 → A3 → A4 → A5 → A6 → A7 → A8 → A9 → A10 → A11 → A12 → A13 → A14 → A15 → PanicM ρ
  rb_self : PhantomData S := ⟨⟩
  a : PhantomData A1 := ⟨⟩
  b : PhantomData A2 := ⟨⟩
  c : PhantomData A3 := ⟨⟩
  d : PhantomData A4 := ⟨⟩
  e : PhantomData A5 := ⟨⟩
  f : PhantomData A6 := ⟨⟩
  g : PhantomData A7 := ⟨⟩
  h : PhantomData A8 := ⟨⟩
  i : PhantomData A9 := ⟨⟩
  j : PhantomData A10 := ⟨⟩
  k : PhantomData A11 := ⟨⟩
  l : PhantomData A12 := ⟨⟩
  m : PhantomData A13 := ⟨⟩
  n : PhantomData A14 := ⟨⟩
  o : PhantomData A15 := ⟨⟩
  res : PhantomData ρ := ⟨⟩

def Method15.new (f : S → A1 → A2 → A3 → A4 → A5 → A6 → A7 → A8 → A9 → A10 → A11 → A12 → A13 → A14 → A15 → PanicM ρ) : Method15 S A1 A2 A3 A4 A5 A6 A7 A8 A9 A10 A11 A12 A13 A14 A15 ρ :=
  { func := f }

def Method15.call_convert_value (tcS : TryConv S) (tc1 : TryConv A1) (tc2 : TryConv A2) (tc3 : TryConv A3) (tc4 : TryConv A4) (tc5 : TryConv A5) (tc6 : TryConv A6) (tc7 : TryConv A7) (tc8 : TryConv A8) (tc9 : TryConv A9) (tc10 : TryConv A10) (tc11 : TryConv A11) (tc12 : TryConv A12) (tc13 : TryConv A13) (tc14 : TryConv A14) (tc15 : TryConv A15) (rv : RV ρ)
    (meth : Method15 S A1 A2 A3 A4 A5 A6 A7 A8 A9 A10 A11 A12 A13 A14 A15 ρ) (rb_self a b c d e f g h i j k l m n o : Value) :
    M Value :=
  M.bind (tcS.try_convert rb_self) fun s =>
  M.bind (tc1.try_convert a) fun x1 =>
  M.bind (tc2.try_convert b) fun x2 =>
  M.bind (tc3.try_convert c) fun x3 =>
  M.bind (tc4.try_convert d) fun x4 =>
  M.bind (tc5.try_convert e) fun x5 =>
  M.bind (tc6.try_convert f) fun x6 =>
  M.bind (tc7.try_convert g) fun x7 =>
  M.bind (tc8.try_convert h) fun x8 =>
  M.bind (tc9.try_convert i) fun x9 =>
  M.bind (tc10.try_convert j) fun x10 =>
  M.bind (tc11.try_convert k) fun x11 =>
  M.bind (tc12.try_convert l) fun x12 =>
  M.bind (tc13.try_convert m) fun x13 =>
  M.bind (tc14.try_convert n) fun x14 =>
  M.bind (tc15.try_convert o) fun x15 =>
  M.bind (toM (meth.func s x1 x2 x3 x4 x5 x6 x7 x8 x9 x10 x11 x12 x13 x14 x15)) rv.into_return_value

def Method15.call_handle_error (tcS : TryConv S) (tc1 : TryConv A1) (tc2 : TryConv A2) (tc3 : TryConv A3) (tc4 : TryConv A4) (tc5 : TryConv A5) (tc6 : TryConv A6) (tc7 : TryConv A7) (tc8 : TryConv A8) (tc9 : TryConv A9) (tc10 : TryConv A10) (tc11 : TryConv A11) (tc12 : TryConv A12) (tc13 : TryConv A13) (tc14 : TryConv A14) (tc15 : TryConv A15) (rv : RV ρ)
    (meth : Method15 S A1 A2 A3 A4 A5 A6 A7 A8 A9 A10 A11 A12 A13 A14 A15 ρ) (rb_self a b c d e f g h i j k l m n o : Value) :
    List Ev × BRes :=
  boundary (Method15.call_convert_value tcS tc1 tc2 tc3 tc4 tc5 tc6 tc7 tc8 tc9 tc10 tc11 tc12 tc13 tc14 tc15 rv meth rb_self a b c d e f g h i j k l m n o)

/-- Helper type wrapping a function as a method taking self and 16
arguments (method.rs Method16). -/
structure Method16 (S A1 A2 A3 A4 A5 A6 A7 A8 A9 A10 A11 A12 A13 A14 A15 A16 ρ : Type) where
  func : S → A1 → A2 → A3 → A4 → A5 → A6 → A7 → A8 → A9 → A10 → A11 → A12 → A13 → A14 → A15 → A16 → PanicM ρ
  rb_self : PhantomData S := ⟨⟩
  a : PhantomData A1 := ⟨⟩
  b : PhantomData A2 := ⟨⟩
  c : PhantomData A3 := ⟨⟩
  d : PhantomData A4 := ⟨⟩
  e : PhantomData A5 := ⟨⟩
  f : PhantomData A6 := ⟨⟩
  g : PhantomData A7 := ⟨⟩
  h : PhantomData A8 := ⟨⟩
  i : PhantomData A9 := ⟨⟩
  j : PhantomData A10 := ⟨⟩
  k : PhantomData A11 := ⟨⟩
  l : PhantomData A12 := ⟨⟩
  m : PhantomData A13 := ⟨⟩
  n : PhantomData A14 := ⟨⟩
  o : PhantomData A15 := ⟨⟩
  p : PhantomData A16 := ⟨⟩
  res : PhantomData ρ := ⟨⟩

def Method16.new (f : S → A1 → A2 → A3 → A4 → A5 → A6 → A7 → A8 → A9 → A10 → A11 → A12 → A13 → A14 → A15 → A16 → PanicM ρ) : Method16 S A1 A2 A3 A4 A5 A6 A7 A8 A9 A10 A11 A12 A13 A14 A15 A16 ρ :=
  { func := f }

def Method16.call_convert_value (tcS : TryConv S) (tc1 : TryConv A1) (tc2 : TryConv A2) (tc3 : TryConv A3) (tc4 : TryConv A4) (tc5 : TryConv A5) (tc6 : TryConv A6) (tc7 : TryConv A7) (tc8 : TryConv A8) (tc9 : TryConv A9) (tc10 : TryConv A10) (tc11 : TryConv A11) (tc12 : TryConv A12) (tc13 : TryConv A13) (tc14 : TryConv A14) (tc15 : TryConv A15) (tc16 : TryConv A16) (rv : RV ρ)
    (meth : Method16 S A1 A2 A3 A4 A5 A6 A7 A8 A9 A10 A11 A12 A13 A14 A15 A16 ρ) (rb_self a b c d e f g h i j k l m n o p : Value) :
    M Value :=
  M.bind (tcS.try_convert rb_self) fun s =>
  M.bind (tc1.try_convert a) fun x1 =>
  M.bind (tc2.try_convert b) fun x2 =>
  M.bind (tc3.try_convert c) fun x3 =>
  M.bind (tc4.try_convert d) fun x4 =>
  M.bind (tc5.try_convert e) fun x5 =>
  M.bind (tc6.try_convert f) fun x6 =>
  M.bind (tc7.try_convert g) fun x7 =>
  M.bind (tc8.try_convert h) fun x8 =>
  M.bind (tc9.try_convert i) fun x9 =>
  M.bind (tc10.try_convert j) fun x10 =>
  M.bind (tc11.try_convert k) fun x11 =>
  M.bind (tc12.try_convert l) fun x12 =>
  M.bind (tc13.try_convert m) fun x13 =>
  M.bind (tc14.try_convert n) fun x14 =>
  M.bind (tc15.try_convert o) fun x15 =>
  M.bind (tc16.try_convert p) fun x16 =>
  M.bind (toM (meth.func s x1 x2 x3 x4 x5 x6 x7 x8 x9 x10 x11 x12 x13 x14 x15 x16)) rv.into_return_value

def Method16.call_handle_error (tcS : TryConv S) (tc1 : TryConv A1) (tc2 : TryConv A2) (tc3 : TryConv A3) (tc4 : TryConv A4) (tc5 : TryConv A5) (tc6 : TryConv A6) (tc7 : TryConv A7) (tc8 : TryConv A8) (tc9 : TryConv A9) (tc10 : TryConv A10) (tc11 : TryConv A11) (tc12 : TryConv A12) (tc13 : TryConv A13) (tc14 : TryConv A14) (tc15 : TryConv A15) (tc16 : TryConv A16) (rv : RV ρ)
    (meth : Method16 S A1 A2 A3 A4 A5 A6 A7 A8 A9 A10 A11 A12 A13 A14 A15 A16 ρ) (rb_self a b c d e f g h i j k l m n o p : Value) :
    List Ev × BRes :=
  boundary (Method16.call_convert_value tcS tc1 tc2 tc3 tc4 tc5 tc6 tc7 tc8 tc9 tc10 tc11 tc12 tc13 tc14 tc15 tc16 rv meth rb_self a b c d e f g h i j k l m n o p)

/-- Helper type wrapping a function as a method ignoring self and taking a
Ruby array of arguments (method.rs FunctionRbAry, arity -2). -/
structure FunctionRbAry (Args ρ : Type) where
  func : Args → PanicM ρ
  args : PhantomData Args := ⟨⟩
  res : PhantomData ρ := ⟨⟩

def FunctionRbAry.new (f : Args → PanicM ρ) : FunctionRbAry Args ρ :=
  { func := f }

def FunctionRbAry.call_convert_value (tcArgs : TryConv Args) (rv : RV ρ)
    (meth : FunctionRbAry Args ρ) (args : RArray) : M Value :=
  M.bind (tcArgs.try_convert args.asValue) fun a =>
  M.bind (toM (meth.func a)) rv.into_return_value

def FunctionRbAry.call_handle_error (tcArgs : TryConv Args) (rv : RV ρ)
    (meth : FunctionRbAry Args ρ) (args : RArray) : List Ev × BRes :=
  boundary (FunctionRbAry.call_convert_value tcArgs rv meth args)

/-- Helper type wrapping a function as a method ignoring self and taking a
slice of arguments (method.rs FunctionCAry, arity -1). -/
structure FunctionCAry (ρ : Type) where
  func : List Value → PanicM ρ
  res : PhantomData ρ := ⟨⟩

def FunctionCAry.new (f : List Value → PanicM ρ) : FunctionCAry ρ :=
  { func := f }

def FunctionCAry.call_convert_value (rv : RV ρ) (meth : FunctionCAry ρ)
    (argc : Nat) (argv : Nat → Value) : M Value :=
  let args := slice_from_raw_parts argv argc
  M.bind (toM (meth.func args)) rv.into_return_value

def FunctionCAry.call_handle_error (rv : RV ρ) (meth : FunctionCAry ρ)
    (argc : Nat) (argv : Nat → Value) : List Ev × BRes :=
  boundary (FunctionCAry.call_convert_value rv meth argc argv)

/-- Helper type wrapping a function as a method ignoring self and
taking 0 arguments (method.rs Function0). -/
structure Function0 (ρ : Type) where
  func : Unit → PanicM ρ
  res : PhantomData ρ := ⟨⟩

def Function0.new (f : Unit → PanicM ρ) : Function0 ρ :=
  { func := f }

def Function0.call_convert_value (rv : RV ρ) (meth : Function0 ρ) :
    M Value :=
  M.bind (toM (meth.func ())) rv.into_return_value

def Function0.call_handle_error (rv : RV ρ) (meth : Function0 ρ) :
    List Ev × BRes :=
  boundary (Function0.call_convert_value rv meth)

/-- Helper type wrapping a function as a method ignoring self and
taking 1 argument (method.rs Function1). -/
structure Function1 (A1 ρ : Type) where
  func : A1 → PanicM ρ
  a : PhantomData A1 := ⟨⟩
  res : PhantomData ρ := ⟨⟩

def Function1.new (f : A1 → PanicM ρ) : Function1 A1 ρ :=
  { func := f }

def Function1.call_convert_value (tc1 : TryConv A1) (rv : RV ρ) (meth : Function1 A1 ρ) (a : Value) :
    M Value :=
  M.bind (tc1.try_convert a) fun x1 =>
  M.bind (toM (meth.func x1)) rv.into_return_value

def Function1.call_handle_error (tc1 : TryConv A1) (rv : RV ρ) (meth : Function1 A1 ρ) (a : Value) :
    List Ev × BRes :=
  boundary (Function1.call_convert_value tc1 rv meth a)

/-- Helper type wrapping a function as a method ignoring self and
taking 2 arguments (method.rs Function2). -/
structure Function2 (A1 A2 ρ : Type) where
  func : A1 → A2 → PanicM ρ
  a : PhantomData A1 := ⟨⟩
  b : PhantomData A2 := ⟨⟩
  res : PhantomData ρ := ⟨⟩

def Function2.new (f : A1 → A2 → PanicM ρ) : Function2 A1 A2 ρ :=
  { func := f }

def Function2.call_convert_value (tc1 : TryConv A1) (tc2 : TryConv A2) (rv : RV ρ) (meth : Function2 A1 A2 ρ) (a b : Value) :
    M Value :=
  M.bind (tc1.try_convert a) fun x1 =>
  M.bind (tc2.try_convert b) fun x2 =>
  M.bind (toM (meth.func x1 x2)) rv.into_return_value

def Function2.call_handle_error (tc1 : TryConv A1) (tc2 : TryConv A2) (rv : RV ρ) (meth : Function2 A1 A2 ρ) (a b : Value) :
    List Ev × BRes :=
  boundary (Function2.call_convert_value tc1 tc2 rv meth a b)

/-- Helper type wrapping a function as a method ignoring self and
taking 3 arguments (method.rs Function3). -/
structure Function3 (A1 A2 A3 ρ : Type) where
  func : A1 → A2 → A3 → PanicM ρ
  a : PhantomData A1 := ⟨⟩
  b : PhantomData A2 := ⟨⟩
  c : PhantomData A3 := ⟨⟩
  res : PhantomData ρ := ⟨⟩

def Function3.new (f : A1 → A2 → A3 → PanicM ρ) : Function3 A1 A2 A3 ρ :=
  { func := f }

def Function3.call_convert_value (tc1 : TryConv A1) (tc2 : TryConv A2) (tc3 : TryConv A3) (rv : RV ρ) (meth : Function3 A1 A2 A3 ρ) (a b c : Value) :
    M Value :=
  M.bind (tc1.try_convert a) fun x1 =>
  M.bind (tc2.try_convert b) fun x2 =>
  M.bind (tc3.try_convert c) fun x3 =>
  M.bind (toM (meth.func x1 x2 x3)) rv.into_return_value

def Function3.call_handle_error (tc1 : TryConv A1) (tc2 : TryConv A2) (tc3 : TryConv A3) (rv : RV ρ) (meth : Function3 A1 A2 A3 ρ) (a b c : Value) :
    List Ev × BRes :=
  boundary (Function3.call_convert_value tc1 tc2 tc3 rv meth a b c)

/-- Helper type wrapping a function as a method ignoring self and
taking 4 arguments (method.rs Function4). -/
structure Function4 (A1 A2 A3 A4 ρ : Type) where
  func : A1 → A2 → A3 → A4 → PanicM ρ
  a : PhantomData A1 := ⟨⟩
  b : PhantomData A2 := ⟨⟩
  c : PhantomData A3 := ⟨⟩
  d : PhantomData A4 := ⟨⟩
  res : PhantomData ρ := ⟨⟩

def Function4.new (f : A1 → A2 → A3 → A4 → PanicM ρ) : Function4 A1 A2 A3 A4 ρ :=
  { func := f }

def Function4.call_convert_value (tc1 : TryConv A1) (tc2 : TryConv A2) (tc3 : TryConv A3) (tc4 : TryConv A4) (rv : RV ρ) (meth : Function4 A1 A2 A3 A4 ρ) (a b c d : Value) :
    M Value :=
  M.bind (tc1.try_convert a) fun x1 =>
  M.bind (tc2.try_convert b) fun x2 =>
  M.bind (tc3.try_convert c) fun x3 =>
  M.bind (tc4.try_convert d) fun x4 =>
  M.bind (toM (meth.func x1 x2 x3 x4)) rv.into_return_value

def Function4.call_handle_error (tc1 : TryConv A1) (tc2 : TryConv A2) (tc3 : TryConv A3) (tc4 : TryConv A4) (rv : RV ρ) (meth : Function4 A1 A2 A3 A4 ρ) (a b c d : Value) :
    List Ev × BRes :=
  boundary (Function4.call_convert_value tc1 tc2 tc3 tc4 rv meth a b c d)

/-- Helper type wrapping a function as a method ignoring self and
taking 5 arguments (method.rs Function5). -/
structure Function5 (A1 A2 A3 A4 A5 ρ : Type) where
  func : A1 → A2 → A3 → A4 → A5 → PanicM ρ
  a : PhantomData A1 := ⟨⟩
  b : PhantomData A2 := ⟨⟩
  c : PhantomData A3 := ⟨⟩
  d : PhantomData A4 := ⟨⟩
  e : PhantomData A5 := ⟨⟩
  res : PhantomData ρ := ⟨⟩

def Function5.new (f : A1 → A2 → A3 → A4 → A5 → PanicM ρ) : Function5 A1 A2 A3 A4 A5 ρ :=
  { func := f }

def Function5.call_convert_value (tc1 : TryConv A1) (tc2 : TryConv A2) (tc3 : TryConv A3) (tc4 : TryConv A4) (tc5 : TryConv A5) (rv : RV ρ) (meth : Function5 A1 A2 A3 A4 A5 ρ) (a b c d e : Value) :
    M Value :=
  M.bind (tc1.try_convert a) fun x1 =>
  M.bind (tc2.try_convert b) fun x2 =>
  M.bind (tc3.try_convert c) fun x3 =>
  M.bind (tc4.try_convert d) fun x4 =>
  M.bind (tc5.try_convert e) fun x5 =>
  M.bind (toM (meth.func x1 x2 x3 x4 x5)) rv.into_return_value

def Function5.call_handle_error (tc1 : TryConv A1) (tc2 : TryConv A2) (tc3 : TryConv A3) (tc4 : TryConv A4) (tc5 : TryConv A5) (rv : RV ρ) (meth : Function5 A1 A2 A3 A4 A5 ρ) (a b c d e : Value) :
    List Ev × BRes :=
  boundary (Function5.call_convert_value tc1 tc2 tc3 tc4 tc5 rv meth a b c d e)

/-- Helper type wrapping a function as a method ignoring self and
taking 6 arguments (method.rs Function6). -/
structure Function6 (A1 A2 A3 A4 A5 A6 ρ : Type) where
  func : A1 → A2 → A3 → A4 → A5 → A6 → PanicM ρ
  a : PhantomData A1 := ⟨⟩
  b : PhantomData A2 := ⟨⟩
  c : PhantomData A3 := ⟨⟩
  d : PhantomData A4 := ⟨⟩
  e : PhantomData A5 := ⟨⟩
  f : PhantomData A6 := ⟨⟩
  res : PhantomData ρ := ⟨⟩

def Function6.new (f : A1 → A2 → A3 → A4 → A5 → A6 → PanicM ρ) : Function6 A1 A2 A3 A4 A5 A6 ρ :=
  { func := f }

def Function6.call_convert_value (tc1 : TryConv A1) (tc2 : TryConv A2) (tc3 : TryConv A3) (tc4 : TryConv A4) (tc5 : TryConv A5) (tc6 : TryConv A6) (rv : RV ρ) (meth : Function6 A1 A2 A3 A4 A5 A6 ρ) (a b c d e f : Value) :
    M Value :=
  M.bind (tc1.try_convert a) fun x1 =>
  M.bind (tc2.try_convert b) fun x2 =>
  M.bind (tc3.try_convert c) fun x3 =>
  M.bind (tc4.try_convert d) fun x4 =>
  M.bind (tc5.try_convert e) fun x5 =>
  M.bind (tc6.try_convert f) fun x6 =>
  M.bind (toM (meth.func x1 x2 x3 x4 x5 x6)) rv.into_return_value

def Function6.call_handle_error (tc1 : TryConv A1) (tc2 : TryConv A2) (tc3 : TryConv A3) (tc4 : TryConv A4) (tc5 : TryConv A5) (tc6 : TryConv A6) (rv : RV ρ) (meth : Function6 A1 A2 A3 A4 A5 A6 ρ) (a b c d e f : Value) :
    List Ev × BRes :=
  boundary (Function6.call_convert_value tc1 tc2 tc3 tc4 tc5 tc6 rv meth a b c d e f)

/-- Helper type wrapping a function as a method ignoring self and
taking 7 arguments (method.rs Function7). -/
structure Function7 (A1 A2 A3 A4 A5 A6 A7 ρ : Type) where
  func : A1 → A2 → A3 → A4 → A5 → A6 → A7 → PanicM ρ
  a : PhantomData A1 := ⟨⟩
  b : PhantomData A2 := ⟨⟩
  c : PhantomData A3 := ⟨⟩
  d : PhantomData A4 := ⟨⟩
  e : PhantomData A5 := ⟨⟩
  f : PhantomData A6 := ⟨⟩
  g : PhantomData A7 := ⟨⟩
  res : PhantomData ρ := ⟨⟩

def Function7.new (f : A1 → A2 → A3 → A4 → A5 → A6 → A7 → PanicM ρ) : Function7 A1 A2 A3 A4 A5 A6 A7 ρ :=
  { func := f }

def Function7.call_convert_value (tc1 : TryConv A1) (tc2 : TryConv A2) (tc3 : TryConv A3) (tc4 : TryConv A4) (tc5 : TryConv A5) (tc6 : TryConv A6) (tc7 : TryConv A7) (rv : RV ρ) (meth : Function7 A1 A2 A3 A4 A5 A6 A7 ρ) (a b c d e f g : Value) :
    M Value :=
  M.bind (tc1.try_convert a) fun x1 =>
  M.bind (tc2.try_convert b) fun x2 =>
  M.bind (tc3.try_convert c) fun x3 =>
  M.bind (tc4.try_convert d) fun x4 =>
  M.bind (tc5.try_convert e) fun x5 =>
  M.bind (tc6.try_convert f) fun x6 =>
  M.bind (tc7.try_convert g) fun x7 =>
  M.bind (toM (meth.func x1 x2 x3 x4 x5 x6 x7)) rv.into_return_value

def Function7.call_handle_error (tc1 : TryConv A1) (tc2 : TryConv A2) (tc3 : TryConv A3) (tc4 : TryConv A4) (tc5 : TryConv A5) (tc6 : TryConv A6) (tc7 : TryConv A7) (rv : RV ρ) (meth : Function7 A1 A2 A3 A4 A5 A6 A7 ρ) (a b c d e f g : Value) :
    List Ev × BRes :=
  boundary (Function7.call_convert_value tc1 tc2 tc3 tc4 tc5 tc6 tc7 rv meth a b c d e f g)

/-- Helper type wrapping a function as a method ignoring self and
taking 8 arguments (method.rs Function8). -/
structure Function8 (A1 A2 A3 A4 A5 A6 A7 A8 ρ : Type) where
  func : A1 → A2 → A3 → A4 → A5 → A6 → A7 → A8 → PanicM ρ
  a : PhantomData A1 := ⟨⟩
  b : PhantomData A2 := ⟨⟩
  c : PhantomData A3 := ⟨⟩
  d : PhantomData A4 := ⟨⟩
  e : PhantomData A5 := ⟨⟩
  f : PhantomData A6 := ⟨⟩
  g : PhantomData A7 := ⟨⟩
  h : PhantomData A8 := ⟨⟩
  res : PhantomData ρ := ⟨⟩

def Function8.new (f : A1 → A2 → A3 → A4 → A5 → A6 → A7 → A8 → PanicM ρ) : Function8 A1 A2 A3 A4 A5 A6 A7 A8 ρ :=
  { func := f }

def Function8.call_convert_value (tc1 : TryConv A1) (tc2 : TryConv A2) (tc3 : TryConv A3) (tc4 : TryConv A4) (tc5 : TryConv A5) (tc6 : TryConv A6) (tc7 : TryConv A7) (tc8 : TryConv A8) (rv : RV ρ) (meth : Function8 A1 A2 A3 A4 A5 A6 A7 A8 ρ) (a b c d e f g h : Value) :
    M Value :=
  M.bind (tc1.try_convert a) fun x1 =>
  M.bind (tc2.try_convert b) fun x2 =>
  M.bind (tc3.try_convert c) fun x3 =>
  M.bind (tc4.try_convert d) fun x4 =>
  M.bind (tc5.try_convert e) fun x5 =>
  M.bind (tc6.try_convert f) fun x6 =>
  M.bind (tc7.try_convert g) fun x7 =>
  M.bind (tc8.try_convert h) fun x8 =>
  M.bind (toM (meth.func x1 x2 x3 x4 x5 x6 x7 x8)) rv.into_return_value

def Function8.call_handle_error (tc1 : TryConv A1) (tc2 : TryConv A2) (tc3 : TryConv A3) (tc4 : TryConv A4) (tc5 : TryConv A5) (tc6 : TryConv A6) (tc7 : TryConv A7) (tc8 : TryConv A8) (rv : RV ρ) (meth : Function8 A1 A2 A3 A4 A5 A6 A7 A8 ρ) (a b c d e f g h : Value) :
    List Ev × BRes :=
  boundary (Function8.call_convert_value tc1 tc2 tc3 tc4 tc5 tc6 tc7 tc8 rv meth a b c d e f g h)

/-- Helper type wrapping a function as a method ignoring self and
taking 9 arguments (method.rs Function9). -/
structure Function9 (A1 A2 A3 A4 A5 A6 A7 A8 A9 ρ : Type) where
  func : A1 → A2 → A3 → A4 → A5 → A6 → A7 → A8 → A9 → PanicM ρ
  a : PhantomData A1 := ⟨⟩
  b : PhantomData A2 := ⟨⟩
  c : PhantomData A3 := ⟨⟩
  d : PhantomData A4 := ⟨⟩
  e : PhantomData A5 := ⟨⟩
  f : PhantomData A6 := ⟨⟩
  g : PhantomData A7 := ⟨⟩
  h : PhantomData A8 := ⟨⟩
  i : PhantomData A9 := ⟨⟩
  res : PhantomData ρ := ⟨⟩

def Function9.new (f : A1 → A2 → A3 → A4 → A5 → A6 → A7 → A8 → A9 → PanicM ρ) : Function9 A1 A2 A3 A4 A5 A6 A7 A8 A9 ρ :=
  { func := f }

def Function9.call_convert_value (tc1 : TryConv A1) (tc2 : TryConv A2) (tc3 : TryConv A3) (tc4 : TryConv A4) (tc5 : TryConv A5) (tc6 : TryConv A6) (tc7 : TryConv A7) (tc8 : TryConv A8) (tc9 : TryConv A9) (rv : RV ρ) (meth : Function9 A1 A2 A3 A4 A5 A6 A7 A8 A9 ρ) (a b c d e f g h i : Value) :
    M Value :=
  M.bind (tc1.try_convert a) fun x1 =>
  M.bind (tc2.try_convert b) fun x2 =>
  M.bind (tc3.try_convert c) fun x3 =>
  M.bind (tc4.try_convert d) fun x4 =>
  M.bind (tc5.try_convert e) fun x5 =>
  M.bind (tc6.try_convert f) fun x6 =>
  M.bind (tc7.try_convert g) fun x7 =>
  M.bind (tc8.try_convert h) fun x8 =>
  M.bind (tc9.try_convert i) fun x9 =>
  M.bind (toM (meth.func x1 x2 x3 x4 x5 x6 x7 x8 x9)) rv.into_return_value

def Function9.call_handle_error (tc1 : TryConv A1) (tc2 : TryConv A2) (tc3 : TryConv A3) (tc4 : TryConv A4) (tc5 : TryConv A5) (tc6 : TryConv A6) (tc7 : TryConv A7) (tc8 : TryConv A8) (tc9 : TryConv A9) (rv : RV ρ) (meth : Function9 A1 A2 A3 A4 A5 A6 A7 A8 A9 ρ) (a b c d e f g h i : Value) :
    List Ev × BRes :=
  boundary (Function9.call_convert_value tc1 tc2 tc3 tc4 tc5 tc6 tc7 tc8 tc9 rv meth a b c d e f g h i)

/-- Helper type wrapping a function as a method ignoring self and
taking 10 arguments (method.rs Function10). -/
structure Function10 (A1 A2 A3 A4 A5 A6 A7 A8 A9 A10 ρ : Type) where
  func : A1 → A2 → A3 → A4 → A5 → A6 → A7 → A8 → A9 → A10 → PanicM ρ
  a : PhantomData A1 := ⟨⟩
  b : PhantomData A2 := ⟨⟩
  c : PhantomData A3 := ⟨⟩
  d : PhantomData A4 := ⟨⟩
  e : PhantomData A5 := ⟨⟩
  f : PhantomData A6 := ⟨⟩
  g : PhantomData A7 := ⟨⟩
  h : PhantomData A8 := ⟨⟩
  i : PhantomData A9 := ⟨⟩
  j : PhantomData A10 := ⟨⟩
  res : PhantomData ρ := ⟨⟩

def Function10.new (f : A1 → A2 → A3 → A4 → A5 → A6 → A7 → A8 → A9 → A10 → PanicM ρ) : Function10 A1 A2 A3 A4 A5 A6 A7 A8 A9 A10 ρ :=
  { func := f }

def Function10.call_convert_value (tc1 : TryConv A1) (tc2 : TryConv A2) (tc3 : TryConv A3) (tc4 : TryConv A4) (tc5 : TryConv A5) (tc6 : TryConv A6) (tc7 : TryConv A7) (tc8 : TryConv A8) (tc9 : TryConv A9) (tc10 : TryConv A10) (rv : RV ρ) (meth : Function10 A1 A2 A3 A4 A5 A6 A7 A8 A9 A10 ρ) (a b c d e f g h i j : Value) :
    M Value :=
  M.bind (tc1.try_convert a) fun x1 =>
  M.bind (tc2.try_convert b) fun x2 =>
  M.bind (tc3.try_convert c) fun x3 =>
  M.bind (tc4.try_convert d) fun x4 =>
  M.bind (tc5.try_convert e) fun x5 =>
  M.bind (tc6.try_convert f) fun x6 =>
  M.bind (tc7.try_convert g) fun x7 =>
  M.bind (tc8.try_convert h) fun x8 =>
  M.bind (tc9.try_convert i) fun x9 =>
  M.bind (tc10.try_convert j) fun x10 =>
  M.bind (toM (meth.func x1 x2 x3 x4 x5 x6 x7 x8 x9 x10)) rv.into_return_value

def Function10.call_handle_error (tc1 : TryConv A1) (tc2 : TryConv A2) (tc3 : TryConv A3) (tc4 : TryConv A4) (tc5 : TryConv A5) (tc6 : TryConv A6) (tc7 : TryConv A7) (tc8 : TryConv A8) (tc9 : TryConv A9) (tc10 : TryConv A10) (rv : RV ρ) (meth : Function10 A1 A2 A3 A4 A5 A6 A7 A8 A9 A10 ρ) (a b c d e f g h i j : Value) :
    List Ev × BRes :=
  boundary (Function10.call_convert_value tc1 tc2 tc3 tc4 tc5 tc6 tc7 tc8 tc9 tc10 rv meth a b c d e f g h i j)

/-- Helper type wrapping a function as a method ignoring self and
taking 11 arguments (method.rs Function11). -/
structure Function11 (A1 A2 A3 A4 A5 A6 A7 A8 A9 A10 A11 ρ : Type) where
  func : A1 → A2 → A3 → A4 → A5 → A6 → A7 → A8 → A9 → A10 → A11 → PanicM ρ
  a : PhantomData A1 := ⟨⟩
  b : PhantomData A2 := ⟨⟩
  c : PhantomData A3 := ⟨⟩
  d : PhantomData A4 := ⟨⟩
  e : PhantomData A5 := ⟨⟩
  f : PhantomData A6 := ⟨⟩
  g : PhantomData A7 := ⟨⟩
  h : PhantomData A8 := ⟨⟩
  i : PhantomData A9 := ⟨⟩
  j : PhantomData A10 := ⟨⟩
  k : PhantomData A11 := ⟨⟩
  res : PhantomData ρ := ⟨⟩

def Function11.new (f : A1 → A2 → A3 → A4 → A5 → A6 → A7 → A8 → A9 → A10 → A11 → PanicM ρ) : Function11 A1 A2 A3 A4 A5 A6 A7 A8 A9 A10 A11 ρ :=
  { func := f }

def Function11.call_convert_value (tc1 : TryConv A1) (tc2 : TryConv A2) (tc3 : TryConv A3) (tc4 : TryConv A4) (tc5 : TryConv A5) (tc6 : TryConv A6) (tc7 : TryConv A7) (tc8 : TryConv A8) (tc9 : TryConv A9) (tc10 : TryConv A10) (tc11 : TryConv A11) (rv : RV ρ) (meth : Function11 A1 A2 A3 A4 A5 A6 A7 A8 A9 A10 A11 ρ) (a b c d e f g h i j k : Value) :
    M Value :=
  M.bind (tc1.try_convert a) fun x1 =>
  M.bind (tc2.try_convert b) fun x2 =>
  M.bind (tc3.try_convert c) fun x3 =>
  M.bind (tc4.try_convert d) fun x4 =>
  M.bind (tc5.try_convert e) fun x5 =>
  M.bind (tc6.try_convert f) fun x6 =>
  M.bind (tc7.try_convert g) fun x7 =>
  M.bind (tc8.try_convert h) fun x8 =>
  M.bind (tc9.try_convert i) fun x9 =>
  M.bind (tc10.try_convert j) fun x10 =>
  M.bind (tc11.try_convert k) fun x11 =>
  M.bind (toM (meth.func x1 x2 x3 x4 x5 x6 x7 x8 x9 x10 x11)) rv.into_return_value

def Function11.call_handle_error (tc1 : TryConv A1) (tc2 : TryConv A2) (tc3 : TryConv A3) (tc4 : TryConv A4) (tc5 : TryConv A5) (tc6 : TryConv A6) (tc7 : TryConv A7) (tc8 : TryConv A8) (tc9 : TryConv A9) (tc10 : TryConv A10) (tc11 : TryConv A11) (rv : RV ρ) (meth : Function11 A1 A2 A3 A4 A5 A6 A7 A8 A9 A10 A11 ρ) (a b c d e f g h i j k : Value) :
    List Ev × BRes :=
  boundary (Function11.call_convert_value tc1 tc2 tc3 tc4 tc5 tc6 tc7 tc8 tc9 tc10 tc11 rv meth a b c d e f g h i j k)

/-- Helper type wrapping a function as a method ignoring self and
taking 12 arguments (method.rs Function12). -/
structure Function12 (A1 A2 A3 A4 A5 A6 A7 A8 A9 A10 A11 A12 ρ : Type) where
  func : A1 → A2 → A3 → A4 → A5 → A6 → A7 → A8 → A9 → A10 → A11 → A12 → PanicM ρ
  a : PhantomData A1 := ⟨⟩
  b : PhantomData A2 := ⟨⟩
  c : PhantomData A3 := ⟨⟩
  d : PhantomData A4 := ⟨⟩
  e : PhantomData A5 := ⟨⟩
  f : PhantomData A6 := ⟨⟩
  g : PhantomData A7 := ⟨⟩
  h : PhantomData A8 := ⟨⟩
  i : PhantomData A9 := ⟨⟩
  j : PhantomData A10 := ⟨⟩
  k : PhantomData A11 := ⟨⟩
  l : PhantomData A12 := ⟨⟩
  res : PhantomData ρ := ⟨⟩

def Function12.new (f : A1 → A2 → A3 → A4 → A5 → A6 → A7 → A8 → A9 → A10 → A11 → A12 → PanicM ρ) : Function12 A1 A2 A3 A4 A5 A6 A7 A8 A9 A10 A11 A12 ρ :=
  { func := f }

def Function12.call_convert_value (tc1 : TryConv A1) (tc2 : TryConv A2) (tc3 : TryConv A3) (tc4 : TryConv A4) (tc5 : TryConv A5) (tc6 : TryConv A6) (tc7 : TryConv A7) (tc8 : TryConv A8) (tc9 : TryConv A9) (tc10 : TryConv A10) (tc11 : TryConv A11) (tc12 : TryConv A12) (rv : RV ρ) (meth : Function12 A1 A2 A3 A4 A5 A6 A7 A8 A9 A10 A11 A12 ρ) (a b c d e f g h i j k l : Value) :
    M Value :=
  M.bind (tc1.try_convert a) fun x1 =>
  M.bind (tc2.try_convert b) fun x2 =>
  M.bind (tc3.try_convert c) fun x3 =>
  M.bind (tc4.try_convert d) fun x4 =>
  M.bind (tc5.try_convert e) fun x5 =>
  M.bind (tc6.try_convert f) fun x6 =>
  M.bind (tc7.try_convert g) fun x7 =>
  M.bind (tc8.try_convert h) fun x8 =>
  M.bind (tc9.try_convert i) fun x9 =>
  M.bind (tc10.try_convert j) fun x10 =>
  M.bind (tc11.try_convert k) fun x11 =>
  M.bind (tc12.try_convert l) fun x12 =>
  M.bind (toM (meth.func x1 x2 x3 x4 x5 x6 x7 x8 x9 x10 x11 x12)) rv.into_return_value

def Function12.call_handle_error (tc1 : TryConv A1) (tc2 : TryConv A2) (tc3 : TryConv A3) (tc4 : TryConv A4) (tc5 : TryConv A5) (tc6 : TryConv A6) (tc7 : TryConv A7) (tc8 : TryConv A8) (tc9 : TryConv A9) (tc10 : TryConv A10) (tc11 : TryConv A11) (tc12 : TryConv A12) (rv : RV ρ) (meth : Function12 A1 A2 A3 A4 A5 A6 A7 A8 A9 A10 A11 A12 ρ) (a b c d e f g h i j k l : Value) :
    List Ev × BRes :=
  boundary (Function12.call_convert_value tc1 tc2 tc3 tc4 tc5 tc6 tc7 tc8 tc9 tc10 tc11 tc12 rv meth a b c d e f g h i j k l)

/-- Helper type wrapping a function as a method ignoring self and
taking 13 arguments (method.rs Function13). -/
structure Function13 (A1 A2 A3 A4 A5 A6 A7 A8 A9 A10 A11 A12 A13 ρ : Type) where
  func : A1 → A2 → A3 → A4 → A5 → A6 → A7 → A8 → A9 → A10 → A11 → A12 → A13 → PanicM ρ
  a : PhantomData A1 := ⟨⟩
  b : PhantomData A2 := ⟨⟩
  c : PhantomData A3 := ⟨⟩
  d : PhantomData A4 := ⟨⟩
  e : PhantomData A5 := ⟨⟩
  f : PhantomData A6 := ⟨⟩
  g : PhantomData A7 := ⟨⟩
  h : PhantomData A8 := ⟨⟩
  i : PhantomData A9 := ⟨⟩
  j : PhantomData A10 := ⟨⟩
  k : PhantomData A11 := ⟨⟩
  l : PhantomData A12 := ⟨⟩
  m : PhantomData A13 := ⟨⟩
  res : PhantomData ρ := ⟨⟩

def Function13.new (f : A1 → A2 → A3 → A4 → A5 → A6 → A7 → A8 → A9 → A10 → A11 → A12 → A13 → PanicM ρ) : Function13 A1 A2 A3 A4 A5 A6 A7 A8 A9 A10 A11 A12 A13 ρ :=
  { func := f }

def Function13.call_convert_value (tc1 : TryConv A1) (tc2 : TryConv A2) (tc3 : TryConv A3) (tc4 : TryConv A4) (tc5 : TryConv A5) (tc6 : TryConv A6) (tc7 : TryConv A7) (tc8 : TryConv A8) (tc9 : TryConv A9) (tc10 : TryConv A10) (tc11 : TryConv A11) (tc12 : TryConv A12) (tc13 : TryConv A13) (rv : RV ρ) (meth : Function13 A1 A2 A3 A4 A5 A6 A7 A8 A9 A10 A11 A12 A13 ρ) (a b c d e f g h i j k l m : Value) :
    M Value :=
  M.bind (tc1.try_convert a) fun x1 =>
  M.bind (tc2.try_convert b) fun x2 =>
  M.bind (tc3.try_convert c) fun x3 =>
  M.bind (tc4.try_convert d) fun x4 =>
  M.bind (tc5.try_convert e) fun x5 =>
  M.bind (tc6.try_convert f) fun x6 =>
  M.bind (tc7.try_convert g) fun x7 =>
  M.bind (tc8.try_convert h) fun x8 =>
  M.bind (tc9.try_convert i) fun x9 =>
  M.bind (tc10.try_convert j) fun x10 =>
  M.bind (tc11.try_convert k) fun x11 =>
  M.bind (tc12.try_convert l) fun x12 =>
  M.bind (tc13.try_convert m) fun x13 =>
  M.bind (toM (meth.func x1 x2 x3 x4 x5 x6 x7 x8 x9 x10 x11 x12 x13)) rv.into_return_value

def Function13.call_handle_error (tc1 : TryConv A1) (tc2 : TryConv A2) (tc3 : TryConv A3) (tc4 : TryConv A4) (tc5 : TryConv A5) (tc6 : TryConv A6) (tc7 : TryConv A7) (tc8 : TryConv A8) (tc9 : TryConv A9) (tc10 : TryConv A10) (tc11 : TryConv A11) (tc12 : TryConv A12) (tc13 : TryConv A13) (rv : RV ρ) (meth : Function13 A1 A2 A3 A4 A5 A6 A7 A8 A9 A10 A11 A12 A13 ρ) (a b c d e f g h i j k l m : Value) :
    List Ev × BRes :=
  boundary (Function13.call_convert_value tc1 tc2 tc3 tc4 tc5 tc6 tc7 tc8 tc9 tc10 tc11 tc12 tc13 rv meth a b c d e f g h i j k l m)

/-- Helper type wrapping a function as a method ignoring self and
taking 14 arguments (method.rs Function14). -/
structure Function14 (A1 A2 A3 A4 A5 A6 A7 A8 A9 A10 A11 A12 A13 A14 ρ : Type) where
  func : A1 → A2 → A3 → A4 → A5 → A6 → A7 → A8 → A9 → A10 → A11 → A12 → A13 → A14 → PanicM ρ
  a : PhantomData A1 := ⟨⟩
  b : PhantomData A2 := ⟨⟩
  c : PhantomData A3 := ⟨⟩
  d : PhantomData A4 := ⟨⟩
  e : PhantomData A5 := ⟨⟩
  f : PhantomData A6 := ⟨⟩
  g : PhantomData A7 := ⟨⟩
  h : PhantomData A8 := ⟨⟩
  i : PhantomData A9 := ⟨⟩
  j : PhantomData A10 := ⟨⟩
  k : PhantomData A11 := ⟨⟩
  l : PhantomData A12 := ⟨⟩
  m : PhantomData A13 := ⟨⟩
  n : PhantomData A14 := ⟨⟩
  res : PhantomData ρ := ⟨⟩

def Function14.new (f : A1 → A2 → A3 → A4 → A5 → A6 → A7 → A8 → A9 → A10 → A11 → A12 → A13 → A14 → PanicM ρ) : Function14 A1 A2 A3 A4 A5 A6 A7 A8 A9 A10 A11 A12 A13 A14 ρ :=
  { func := f }

def Function14.call_convert_value (tc1 : TryConv A1) (tc2 : TryConv A2) (tc3 : TryConv A3) (tc4 : TryConv A4) (tc5 : TryConv A5) (tc6 : TryConv A6) (tc7 : TryConv A7) (tc8 : TryConv A8) (tc9 : TryConv A9) (tc10 : TryConv A10) (tc11 : TryConv A11) (tc12 : TryConv A12) (tc13 : TryConv A13) (tc14 : TryConv A14) (rv : RV ρ) (meth : Function14 A1 A2 A3 A4 A5 A6 A7 A8 A9 A10 A11 A12 A13 A14 ρ) (a b c d e f g h i j k l m n : Value) :
    M Value :=
  M.bind (tc1.try_convert a) fun x1 =>
  M.bind (tc2.try_convert b) fun x2 =>
  M.bind (tc3.try_convert c) fun x3 =>
  M.bind (tc4.try_convert d) fun x4 =>
  M.bind (tc5.try_convert e) fun x5 =>
  M.bind (tc6.try_convert f) fun x6 =>
  M.bind (tc7.try_convert g) fun x7 =>
  M.bind (tc8.try_convert h) fun x8 =>
  M.bind (tc9.try_convert i) fun x9 =>
  M.bind (tc10.try_convert j) fun x10 =>
  M.bind (tc11.try_convert k) fun x11 =>
  M.bind (tc12.try_convert l) fun x12 =>
  M.bind (tc13.try_convert m) fun x13 =>
  M.bind (tc14.try_convert n) fun x14 =>
  M.bind (toM (meth.func x1 x2 x3 x4 x5 x6 x7 x8 x9 x10 x11 x12 x13 x14)) rv.into_return_value

def Function14.call_handle_error (tc1 : TryConv A1) (tc2 : TryConv A2) (tc3 : TryConv A3) (tc4 : TryConv A4) (tc5 : TryConv A5) (tc6 : TryConv A6) (tc7 : TryConv A7) (tc8 : TryConv A8) (tc9 : TryConv A9) (tc10 : TryConv A10) (tc11 : TryConv A11) (tc12 : TryConv A12) (tc13 : TryConv A13) (tc14 : TryConv A14) (rv : RV ρ) (meth : Function14 A1 A2 A3 A4 A5 A6 A7 A8 A9 A10 A11 A12 A13 A14 ρ) (a b c d e f g h i j k l m n : Value) :
    List Ev × BRes :=
  boundary (Function14.call_convert_value tc1 tc2 tc3 tc4 tc5 tc6 tc7 tc8 tc9 tc10 tc11 tc12 tc13 tc14 rv meth a b c d e f g h i j k l m n)

/-- Helper type wrapping a function as a method ignoring self and
taking 15 arguments (method.rs Function15). -/
structure Function15 (A1 A2 A3 A4 A5 A6 A7 A8 A9 A10 A11 A12 A13 A14 A15 ρ : Type) where
  func : A1 → A2 → A3 → A4 → A5 → A6 → A7 → A8 → A9 → A10 → A11 → A12 → A13 → A14 → A15 → PanicM ρ
  a : PhantomData A1 := ⟨⟩
  b : PhantomData A2 := ⟨⟩
  c : PhantomData A3 := ⟨⟩
  d : PhantomData A4 := ⟨⟩
  e : PhantomData A5 := ⟨⟩
  f : PhantomData A6 := ⟨⟩
  g : PhantomData A7 := ⟨⟩
  h : PhantomData A8 := ⟨⟩
  i : PhantomData A9 := ⟨⟩
  j : PhantomData A10 := ⟨⟩
  k : PhantomData A11 := ⟨⟩
  l : PhantomData A12 := ⟨⟩
  m : PhantomData A13 := ⟨⟩
  n : PhantomData A14 := ⟨⟩
  o : PhantomData A15 := ⟨⟩
  res : PhantomData ρ := ⟨⟩

def Function15.new (f : A1 → A2 → A3 → A4 → A5 → A6 → A7 → A8 → A9 → A10 → A11 → A12 → A13 → A14 → A15 → PanicM ρ) : Function15 A1 A2 A3 A4 A5 A6 A7 A8 A9 A10 A11 A12 A13 A14 A15 ρ :=
  { func := f }

def Function15.call_convert_value (tc1 : TryConv A1) (tc2 : TryConv A2) (tc3 : TryConv A3) (tc4 : TryConv A4) (tc5 : TryConv A5) (tc6 : TryConv A6) (tc7 : TryConv A7) (tc8 : TryConv A8) (tc9 : TryConv A9) (tc10 : TryConv A10) (tc11 : TryConv A11) (tc12 : TryConv A12) (tc13 : TryConv A13) (tc14 : TryConv A14) (tc15 : TryConv A15) (rv : RV ρ) (meth : Function15 A1 A2 A3 A4 A5 A6 A7 A8 A9 A10 A11 A12 A13 A14 A15 ρ) (a b c d e f g h i j k l m n o : Value) :
    M Value :=
  M.bind (tc1.try_convert a) fun x1 =>
  M.bind (tc2.try_convert b) fun x2 =>
  M.bind (tc3.try_convert c) fun x3 =>
  M.bind (tc4.try_convert d) fun x4 =>
  M.bind (tc5.try_convert e) fun x5 =>
  M.bind (tc6.try_convert f) fun x6 =>
  M.bind (tc7.try_convert g) fun x7 =>
  M.bind (tc8.try_convert h) fun x8 =>
  M.bind (tc9.try_convert i) fun x9 =>
  M.bind (tc10.try_convert j) fun x10 =>
  M.bind (tc11.try_convert k) fun x11 =>
  M.bind (tc12.try_convert l) fun x12 =>
  M.bind (tc13.try_convert m) fun x13 =>
  M.bind (tc14.try_convert n) fun x14 =>
  M.bind (tc15.try_convert o) fun x15 =>
  M.bind (toM (meth.func x1 x2 x3 x4 x5 x6 x7 x8 x9 x10 x11 x12 x13 x14 x15)) rv.into_return_value

def Function15.call_handle_error (tc1 : TryConv A1) (tc2 : TryConv A2) (tc3 : TryConv A3) (tc4 : TryConv A4) (tc5 : TryConv A5) (tc6 : TryConv A6) (tc7 : TryConv A7) (tc8 : TryConv A8) (tc9 : TryConv A9) (tc10 : TryConv A10) (tc11 : TryConv A11) (tc12 : TryConv A12) (tc13 : TryConv A13) (tc14 : TryConv A14) (tc15 : TryConv A15) (rv : RV ρ) (meth : Function15 A1 A2 A3 A4 A5 A6 A7 A8 A9 A10 A11 A12 A13 A14 A15 ρ) (a b c d e f g h i j k l m n o : Value) :
    List Ev × BRes :=
  boundary (Function15.call_convert_value tc1 tc2 tc3 tc4 tc5 tc6 tc7 tc8 tc9 tc10 tc11 tc12 tc13 tc14 tc15 rv meth a b c d e f g h i j k l m n o)

/-- Helper type wrapping a function as a method ignoring self and
taking 16 arguments (method.rs Function16). -/
structure Function16 (A1 A2 A3 A4 A5 A6 A7 A8 A9 A10 A11 A12 A13 A14 A15 A16 ρ : Type) where
  func : A1 → A2 → A3 → A4 → A5 → A6 → A7 → A8 → A9 → A10 → A11 → A12 → A13 → A14 → A15 → A16 → PanicM ρ
  a : PhantomData A1 := ⟨⟩
  b : PhantomData A2 := ⟨⟩
  c : PhantomData A3 := ⟨⟩
  d : PhantomData A4 := ⟨⟩
  e : PhantomData A5 := ⟨⟩
  f : PhantomData A6 := ⟨⟩
  g : PhantomData A7 := ⟨⟩
  h : PhantomData A8 := ⟨⟩
  i : PhantomData A9 := ⟨⟩
  j : PhantomData A10 := ⟨⟩
  k : PhantomData A11 := ⟨⟩
  l : PhantomData A12 := ⟨⟩
  m : PhantomData A13 := ⟨⟩
  n : PhantomData A14 := ⟨⟩
  o : PhantomData A15 := ⟨⟩
  p : PhantomData A16 := ⟨⟩
  res : PhantomData ρ := ⟨⟩

def Function16.new (f : A1 → A2 → A3 → A4 → A5 → A6 → A7 → A8 → A9 → A10 → A11 → A12 → A13 → A14 → A15 → A16 → PanicM ρ) : Function16 A1 A2 A3 A4 A5 A6 A7 A8 A9 A10 A11 A12 A13 A14 A15 A16 ρ :=
  { func := f }

def Function16.call_convert_value (tc1 : TryConv A1) (tc2 : TryConv A2) (tc3 : TryConv A3) (tc4 : TryConv A4) (tc5 : TryConv A5) (tc6 : TryConv A6) (tc7 : TryConv A7) (tc8 : TryConv A8) (tc9 : TryConv A9) (tc10 : TryConv A10) (tc11 : TryConv A11) (tc12 : TryConv A12) (tc13 : TryConv A13) (tc14 : TryConv A14) (tc15 : TryConv A15) (tc16 : TryConv A16) (rv : RV ρ) (meth : Function16 A1 A2 A3 A4 A5 A6 A7 A8 A9 A10 A11 A12 A13 A14 A15 A16 ρ) (a b c d e f g h i j k l m n o p : Value) :
    M Value :=
  M.bind (tc1.try_convert a) fun x1 =>
  M.bind (tc2.try_convert b) fun x2 =>
  M.bind (tc3.try_convert c) fun x3 =>
  M.bind (tc4.try_convert d) fun x4 =>
  M.bind (tc5.try_convert e) fun x5 =>
  M.bind (tc6.try_convert f) fun x6 =>
  M.bind (tc7.try_convert g) fun x7 =>
  M.bind (tc8.try_convert h) fun x8 =>
  M.bind (tc9.try_convert i) fun x9 =>
  M.bind (tc10.try_convert j) fun x10 =>
  M.bind (tc11.try_convert k) fun x11 =>
  M.bind (tc12.try_convert l) fun x12 =>
  M.bind (tc13.try_convert m) fun x13 =>
  M.bind (tc14.try_convert n) fun x14 =>
  M.bind (tc15.try_convert o) fun x15 =>
  M.bind (tc16.try_convert p) fun x16 =>
  M.bind (toM (meth.func x1 x2 x3 x4 x5 x6 x7 x8 x9 x10 x11 x12 x13 x14 x15 x16)) rv.into_return_value

def Function16.call_handle_error (tc1 : TryConv A1) (tc2 : TryConv A2) (tc3 : TryConv A3) (tc4 : TryConv A4) (tc5 : TryConv A5) (tc6 : TryConv A6) (tc7 : TryConv A7) (tc8 : TryConv A8) (tc9 : TryConv A9) (tc10 : TryConv A10) (tc11 : TryConv A11) (tc12 : TryConv A12) (tc13 : TryConv A13) (tc14 : TryConv A14) (tc15 : TryConv A15) (tc16 : TryConv A16) (rv : RV ρ) (meth : Function16 A1 A2 A3 A4 A5 A6 A7 A8 A9 A10 A11 A12 A13 A14 A15 A16 ρ) (a b c d e f g h i j k l m n o p : Value) :
    List Ev × BRes :=
  boundary (Function16.call_convert_value tc1 tc2 tc3 tc4 tc5 tc6 tc7 tc8 tc9 tc10 tc11 tc12 tc13 tc14 tc15 tc16 rv meth a b c d e f g h i j k l m n o p)

/-- Raw trampoline produced by the function macro for arity -2: the self
slot is received and discarded (method.rs lines 4809..4814). -/
def function_tramp_rb_ary (tcArgs : TryConv Args) (rv : RV ρ)
    (meth : FunctionRbAry Args ρ) (rb_self : Value) (args : RArray) :
    List Ev × BRes :=
  FunctionRbAry.call_handle_error tcArgs rv meth args

/-- Raw trampoline produced by the function macro for arity -1: the self
slot is received and discarded (method.rs lines 4815..4828). -/
def function_tramp_c_ary (rv : RV ρ) (meth : FunctionCAry ρ)
    (argc : Nat) (argv : Nat → Value) (rb_self : Value) : List Ev × BRes :=
  FunctionCAry.call_handle_error rv meth argc argv

/-- Raw trampoline produced by the function macro for arity 0: the
self slot is received and discarded. -/
def function_tramp0 (rv : RV ρ) (meth : Function0 ρ) (rb_self : Value) :
    List Ev × BRes :=
  Function0.call_handle_error rv meth

/-- Raw trampoline produced by the function macro for arity 1: the
self slot is received and discarded. -/
def function_tramp1 (tc1 : TryConv A1) (rv : RV ρ) (meth : Function1 A1 ρ) (rb_self a : Value) :
    List Ev × BRes :=
  Function1.call_handle_error tc1 rv meth a

/-- Raw trampoline produced by the function macro for arity 2: the
self slot is received and discarded. -/
def function_tramp2 (tc1 : TryConv A1) (tc2 : TryConv A2) (rv : RV ρ) (meth : Function2 A1 A2 ρ) (rb_self a b : Value) :
    List Ev × BRes :=
  Function2.call_handle_error tc1 tc2 rv meth a b

/-- Raw trampoline produced by the function macro for arity 3: the
self slot is received and discarded. -/
def function_tramp3 (tc1 : TryConv A1) (tc2 : TryConv A2) (tc3 : TryConv A3) (rv : RV ρ) (meth : Function3 A1 A2 A3 ρ) (rb_self a b c : Value) :
    List Ev × BRes :=
  Function3.call_handle_error tc1 tc2 tc3 rv meth a b c

/-- Raw trampoline produced by the function macro for arity 4: the
self slot is received and discarded. -/
def function_tramp4 (tc1 : TryConv A1) (tc2 : TryConv A2) (tc3 : TryConv A3) (tc4 : TryConv A4) (rv : RV ρ) (meth : Function4 A1 A2 A3 A4 ρ) (rb_self a b c d : Value) :
    List Ev × BRes :=
  Function4.call_handle_error tc1 tc2 tc3 tc4 rv meth a b c d

/-- Raw trampoline produced by the function macro for arity 5: the
self slot is received and discarded. -/
def function_tramp5 (tc1 : TryConv A1) (tc2 : TryConv A2) (tc3 : TryConv A3) (tc4 : TryConv A4) (tc5 : TryConv A5) (rv : RV ρ) (meth : Function5 A1 A2 A3 A4 A5 ρ) (rb_self a b c d e : Value) :
    List Ev × BRes :=
  Function5.call_handle_error tc1 tc2 tc3 tc4 tc5 rv meth a b c d e

/-- Raw trampoline produced by the function macro for arity 6: the
self slot is received and discarded. -/
def function_tramp6 (tc1 : TryConv A1) (tc2 : TryConv A2) (tc3 : TryConv A3) (tc4 : TryConv A4) (tc5 : TryConv A5) (tc6 : TryConv A6) (rv : RV ρ) (meth : Function6 A1 A2 A3 A4 A5 A6 ρ) (rb_self a b c d e f : Value) :
    List Ev × BRes :=
  Function6.call_handle_error tc1 tc2 tc3 tc4 tc5 tc6 rv meth a b c d e f

/-- Raw trampoline produced by the function macro for arity 7: the
self slot is received and discarded. -/
def function_tramp7 (tc1 : TryConv A1) (tc2 : TryConv A2) (tc3 : TryConv A3) (tc4 : TryConv A4) (tc5 : TryConv A5) (tc6 : TryConv A6) (tc7 : TryConv A7) (rv : RV ρ) (meth : Function7 A1 A2 A3 A4 A5 A6 A7 ρ) (rb_self a b c d e f g : Value) :
    List Ev × BRes :=
  Function7.call_handle_error tc1 tc2 tc3 tc4 tc5 tc6 tc7 rv meth a b c d e f g

/-- Raw trampoline produced by the function macro for arity 8: the
self slot is received and discarded. -/
def function_tramp8 (tc1 : TryConv A1) (tc2 : TryConv A2) (tc3 : TryConv A3) (tc4 : TryConv A4) (tc5 : TryConv A5) (tc6 : TryConv A6) (tc7 : TryConv A7) (tc8 : TryConv A8) (rv : RV ρ) (meth : Function8 A1 A2 A3 A4 A5 A6 A7 A8 ρ) (rb_self a b c d e f g h : Value) :
    List Ev × BRes :=
  Function8.call_handle_error tc1 tc2 tc3 tc4 tc5 tc6 tc7 tc8 rv meth a b c d e f g h

/-- Raw trampoline produced by the function macro for arity 9: the
self slot is received and discarded. -/
def function_tramp9 (tc1 : TryConv A1) (tc2 : TryConv A2) (tc3 : TryConv A3) (tc4 : TryConv A4) (tc5 : TryConv A5) (tc6 : TryConv A6) (tc7 : TryConv A7) (tc8 : TryConv A8) (tc9 : TryConv A9) (rv : RV ρ) (meth : Function9 A1 A2 A3 A4 A5 A6 A7 A8 A9 ρ) (rb_self a b c d e f g h i : Value) :
    List Ev × BRes :=
  Function9.call_handle_error tc1 tc2 tc3 tc4 tc5 tc6 tc7 tc8 tc9 rv meth a b c d e f g h i

/-- Raw trampoline produced by the function macro for arity 10: the
self slot is received and discarded. -/
def function_tramp10 (tc1 : TryConv A1) (tc2 : TryConv A2) (tc3 : TryConv A3) (tc4 : TryConv A4) (tc5 : TryConv A5) (tc6 : TryConv A6) (tc7 : TryConv A7) (tc8 : TryConv A8) (tc9 : TryConv A9) (tc10 : TryConv A10) (rv : RV ρ) (meth : Function10 A1 A2 A3 A4 A5 A6 A7 A8 A9 A10 ρ) (rb_self a b c d e f g h i j : Value) :
    List Ev × BRes :=
  Function10.call_handle_error tc1 tc2 tc3 tc4 tc5 tc6 tc7 tc8 tc9 tc10 rv meth a b c d e f g h i j

/-- Raw trampoline produced by the function macro for arity 11: the
self slot is received and discarded. -/
def function_tramp11 (tc1 : TryConv A1) (tc2 : TryConv A2) (tc3 : TryConv A3) (tc4 : TryConv A4) (tc5 : TryConv A5) (tc6 : TryConv A6) (tc7 : TryConv A7) (tc8 : TryConv A8) (tc9 : TryConv A9) (tc10 : TryConv A10) (tc11 : TryConv A11) (rv : RV ρ) (meth : Function11 A1 A2 A3 A4 A5 A6 A7 A8 A9 A10 A11 ρ) (rb_self a b c d e f g h i j k : Value) :
    List Ev × BRes :=
  Function11.call_handle_error tc1 tc2 tc3 tc4 tc5 tc6 tc7 tc8 tc9 tc10 tc11 rv meth a b c d e f g h i j k

/-- Raw trampoline produced by the function macro for arity 12: the
self slot is received and discarded. -/
def function_tramp12 (tc1 : TryConv A1) (tc2 : TryConv A2) (tc3 : TryConv A3) (tc4 : TryConv A4) (tc5 : TryConv A5) (tc6 : TryConv A6) (tc7 : TryConv A7) (tc8 : TryConv A8) (tc9 : TryConv A9) (tc10 : TryConv A10) (tc11 : TryConv A11) (tc12 : TryConv A12) (rv : RV ρ) (meth : Function12 A1 A2 A3 A4 A5 A6 A7 A8 A9 A10 A11 A12 ρ) (rb_self a b c d e f g h i j k l : Value) :
    List Ev × BRes :=
  Function12.call_handle_error tc1 tc2 tc3 tc4 tc5 tc6 tc7 tc8 tc9 tc10 tc11 tc12 rv meth a b c d e f g h i j k l

/-- Raw trampoline produced by the function macro for arity 13: the
self slot is received and discarded. -/
def function_tramp13 (tc1 : TryConv A1) (tc2 : TryConv A2) (tc3 : TryConv A3) (tc4 : TryConv A4) (tc5 : TryConv A5) (tc6 : TryConv A6) (tc7 : TryConv A7) (tc8 : TryConv A8) (tc9 : TryConv A9) (tc10 : TryConv A10) (tc11 : TryConv A11) (tc12 : TryConv A12) (tc13 : TryConv A13) (rv : RV ρ) (meth : Function13 A1 A2 A3 A4 A5 A6 A7 A8 A9 A10 A11 A12 A13 ρ) (rb_self a b c d e f g h i j k l m : Value) :
    List Ev × BRes :=
  Function13.call_handle_error tc1 tc2 tc3 tc4 tc5 tc6 tc7 tc8 tc9 tc10 tc11 tc12 tc13 rv meth a b c d e f g h i j k l m

/-- Raw trampoline produced by the function macro for arity 14: the
self slot is received and discarded. -/
def function_tramp14 (tc1 : TryConv A1) (tc2 : TryConv A2) (tc3 : TryConv A3) (tc4 : TryConv A4) (tc5 : TryConv A5) (tc6 : TryConv A6) (tc7 : TryConv A7) (tc8 : TryConv A8) (tc9 : TryConv A9) (tc10 : TryConv A10) (tc11 : TryConv A11) (tc12 : TryConv A12) (tc13 : TryConv A13) (tc14 : TryConv A14) (rv : RV ρ) (meth : Function14 A1 A2 A3 A4 A5 A6 A7 A8 A9 A10 A11 A12 A13 A14 ρ) (rb_self a b c d e f g h i j k l m n : Value) :
    List Ev × BRes :=
  Function14.call_handle_error tc1 tc2 tc3 tc4 tc5 tc6 tc7 tc8 tc9 tc10 tc11 tc12 tc13 tc14 rv meth a b c d e f g h i j k l m n

/-- Raw trampoline produced by the function macro for arity 15: the
self slot is received and discarded. -/
def function_tramp15 (tc1 : TryConv A1) (tc2 : TryConv A2) (tc3 : TryConv A3) (tc4 : TryConv A4) (tc5 : TryConv A5) (tc6 : TryConv A6) (tc7 : TryConv A7) (tc8 : TryConv A8) (tc9 : TryConv A9) (tc10 : TryConv A10) (tc11 : TryConv A11) (tc12 : TryConv A12) (tc13 : TryConv A13) (tc14 : TryConv A14) (tc15 : TryConv A15) (rv : RV ρ) (meth : Function15 A1 A2 A3 A4 A5 A6 A7 A8 A9 A10 A11 A12 A13 A14 A15 ρ) (rb_self a b c d e f g h i j k l m n o : Value) :
    List Ev × BRes :=
  Function15.call_handle_error tc1 tc2 tc3 tc4 tc5 tc6 tc7 tc8 tc9 tc10 tc11 tc12 tc13 tc14 tc15 rv meth a b c d e f g h i j k l m n o

/-- Raw trampoline produced by the function macro for arity 16: the
self slot is received and discarded. -/
def function_tramp16 (tc1 : TryConv A1) (tc2 : TryConv A2) (tc3 : TryConv A3) (tc4 : TryConv A4) (tc5 : TryConv A5) (tc6 : TryConv A6) (tc7 : TryConv A7) (tc8 : TryConv A8) (tc9 : TryConv A9) (tc10 : TryConv A10) (tc11 : TryConv A11) (tc12 : TryConv A12) (tc13 : TryConv A13) (tc14 : TryConv A14) (tc15 : TryConv A15) (tc16 : TryConv A16) (rv : RV ρ) (meth : Function16 A1 A2 A3 A4 A5 A6 A7 A8 A9 A10 A11 A12 A13 A14 A15 A16 ρ) (rb_self a b c d e f g h i j k l m n o p : Value) :
    List Ev × BRes :=
  Function16.call_handle_error tc1 tc2 tc3 tc4 tc5 tc6 tc7 tc8 tc9 tc10 tc11 tc12 tc13 tc14 tc15 tc16 rv meth a b c d e f g h i j k l m n o p

/-- Modelled from the spec: the operation invoke_checked of the generic
arity chain — convert each handle via its contract, left-to-right,
short-circuiting on the first failure, then invoke the user function with
the fully converted tuple and convert the result via the return adapter.
Each fixed-arity adapter is compared with this specification. -/
def spec_invoke_checked (rv : RV ρ) (f : List Value → PanicM ρ) :
    List (TryConv Value) → List Value → List Value → M Value
  | [], _, acc => M.bind (toM (f acc)) rv.into_return_value
  | _ :: _, [], acc => M.bind (toM (f acc)) rv.into_return_value
  | tc :: tcs, v :: vs, acc =>
    M.bind (tc.try_convert v) fun x =>
      spec_invoke_checked rv f tcs vs (acc ++ [x])

/-- Each converter in the list succeeds on its handle, producing the given
traces and converted values, position by position. -/
inductive Converts : List (TryConv Value) → List Value → List Ev → List Value → Prop
  | nil : Converts [] [] [] []
  | cons {tc : TryConv Value} {v : Value} {t ts : List Ev} {x : Value}
      {tcs : List (TryConv Value)} {vs xs : List Value} :
      tc.try_convert v = (t, Outcome.ok x) →
      Converts tcs vs ts xs →
      Converts (tc :: tcs) (v :: vs) (t ++ ts) (x :: xs)

/-- Property of the unwind/error bridge at a single trampoline: the
boundary result is never an escaping unwind; a native unwind inside the
checked call becomes a raise of the corresponding caught-panic typed
error; a typed error becomes a raise of that same error; a normal result
is returned as-is. -/
def C1prop (o : M Value) (r : List Ev × BRes) : Prop :=
  (∀ p, r.2 ≠ BRes.unwound p) ∧
  (∀ p, o.2 = Outcome.panicked p → r = (o.1, raise (Error.from_panic p))) ∧
  (∀ e, o.2 = Outcome.err e → r = (o.1, raise e)) ∧
  (∀ v, o.2 = Outcome.ok v → r = (o.1, BRes.returned v))

/-- A successful identity converter with instance id n, recording its
invocation. -/
def tcIdOk (n : Nat) : TryConv Value :=
  ⟨fun v => ([Ev.convert n v], Outcome.ok v)⟩

/-- Message of the concrete conversion error used in the examples. -/
def errMsgW : String := "no implicit conversion into Integer"

/-- A concrete conversion error, as a converter for a concrete target type
would produce it: it describes the expected type, independent of the
argument position it is invoked at. -/
def errNoConv : Error := Error.new ⟨3⟩ errMsgW

/-- A converter with instance id n that always fails with errNoConv,
recording its invocation. -/
def tcFail (n : Nat) : TryConv Value :=
  ⟨fun v => ([Ev.convert n v], Outcome.err errNoConv)⟩

/-- Concrete panic message. -/
def boomMsg : String := "boom"

/-- A converter that unwinds, recording its invocation. -/
def tcPanicW : TryConv Value :=
  ⟨fun v => ([Ev.convert 9 v], Outcome.panicked (PanicPayload.message boomMsg))⟩

/-- Identity IntoValue instance. -/
def ivId : IV Value := ⟨fun v => v⟩

/-- Plain return adapter over the identity IntoValue instance. -/
def rvPlain : RV Value := RV.ofValue ivId

/-- A concrete non-nil handle. -/
def hv (n : Nat) : Value := ⟨n, false⟩

/-- Concrete instrumented user function of two arguments plus self. -/
def methW2 : Method2 Value Value Value Value :=
  Method2.new (fun s a b => ([Ev.invoke [s, a, b]], PanicOr.ok s))

/-- Concrete instrumented user function of self only. -/
def methW0 : Method0 Value Value :=
  Method0.new (fun s => ([], PanicOr.ok s))

/-- Concrete instrumented list-argument user function. -/
def fInvW : List Value → PanicM Value :=
  fun l => ([Ev.invoke l], PanicOr.ok (hv 5))

/-- Concrete instrumented user function for the aggregate-array adapter. -/
def methRbW : MethodRbAry Value Value Value :=
  MethodRbAry.new (fun s a => ([Ev.invoke [s, a]], PanicOr.ok s))

/-- Concrete instrumented user function for the slice adapter. -/
def methCW : MethodCAry Value Value :=
  MethodCAry.new (fun s l => ([Ev.invoke (s :: l)], PanicOr.ok s))

theorem spec_chain_ok {ρ : Type} (rv : RV ρ) (f : List Value → PanicM ρ)
    {tcs : List (TryConv Value)} {vs : List Value} {ts : List Ev} {xs : List Value}
    (h : Converts tcs vs ts xs) (acc : List Value) :
    spec_invoke_checked rv f tcs vs acc
      = tracePre ts (M.bind (toM (f (acc ++ xs))) rv.into_return_value) := by
  induction h generalizing acc with
  | nil => simp [spec_invoke_checked, tracePre]
  | cons hc _ ih =>
    simp only [spec_invoke_checked, hc, M.bind, List.append_eq]
    rw [ih]
    simp [tracePre, M.bind, List.append_assoc]

theorem spec_chain_fail {ρ : Type} (rv : RV ρ) (f : List Value → PanicM ρ)
    {tcs : List (TryConv Value)} {vs : List Value} {ts : List Ev} {xs : List Value}
    (h : Converts tcs vs ts xs) {tc : TryConv Value} {v : Value} {tb : List Ev}
    {e : Error} (hb : tc.try_convert v = (tb, Outcome.err e))
    (rest : List (TryConv Value)) (vrest : List Value) (acc : List Value) :
    spec_invoke_checked rv f (tcs ++ tc :: rest) (vs ++ v :: vrest) acc
      = (ts ++ tb, Outcome.err e) := by
  induction h generalizing acc with
  | nil => simp [spec_invoke_checked, hb, M.bind]
  | cons hc _ ih =>
    simp only [List.cons_append, spec_invoke_checked, hc, M.bind, List.append_eq]
    rw [ih]
    simp [List.append_assoc]

theorem boundary_bridge (o : M Value) : C1prop o (boundary o) := by
  obtain ⟨t, oc⟩ := o
  cases oc <;>
    simp [C1prop, boundary, catch_unwind, raise]

/-- C1: For every trampoline invocation (every arity, both the method and
function families), if a native unwind escapes the user function or
argument conversion, call_handle_error catches it, converts it into a
typed error via Error.from_panic, and raises it via the host raise
primitive; the unwind never propagates past the trampoline boundary, and
raise is the last codepath executed, never returning normally. -/
theorem trampoline_unwind_bridge :
  (∀ (S ρ : Type) (tcS : TryConv S) (rv : RV ρ)
      (meth : Method0 S ρ) (rb_self : Value),
    C1prop (Method0.call_convert_value tcS rv meth rb_self)
      (Method0.call_handle_error tcS rv meth rb_self)) ∧
  (∀ (S A1 ρ : Type) (tcS : TryConv S) (tc1 : TryConv A1) (rv : RV ρ)
      (meth : Method1 S A1 ρ) (rb_self a : Value),
    C1prop (Method1.call_convert_value tcS tc1 rv meth rb_self a)
      (Method1.call_handle_error tcS tc1 rv meth rb_self a)) ∧
  (∀ (S A1 A2 ρ : Type) (tcS : TryConv S) (tc1 : TryConv A1) (tc2 : TryConv A2) (rv : RV ρ)
      (meth : Method2 S A1 A2 ρ) (rb_self a b : Value),
    C1prop (Method2.call_convert_value tcS tc1 tc2 rv meth rb_self a b)
      (Method2.call_handle_error tcS tc1 tc2 rv meth rb_self a b)) ∧
  (∀ (S A1 A2 A3 ρ : Type) (tcS : TryConv S) (tc1 : TryConv A1) (tc2 : TryConv A2) (tc3 : TryConv A3) (rv : RV ρ)
      (meth : Method3 S A1 A2 A3 ρ) (rb_self a b c : Value),
    C1prop (Method3.call_convert_value tcS tc1 tc2 tc3 rv meth rb_self a b c)
      (Method3.call_handle_error tcS tc1 tc2 tc3 rv meth rb_self a b c)) ∧
  (∀ (S A1 A2 A3 A4 ρ : Type) (tcS : TryConv S) (tc1 : TryConv A1) (tc2 : TryConv A2) (tc3 : TryConv A3) (tc4 : TryConv A4) (rv : RV ρ)
      (meth : Method4 S A1 A2 A3 A4 ρ) (rb_self a b c d : Value),
    C1prop (Method4.call_convert_value tcS tc1 tc2 tc3 tc4 rv meth rb_self a b c d)
      (Method4.call_handle_error tcS tc1 tc2 tc3 tc4 rv meth rb_self a b c d)) ∧
  (∀ (S A1 A2 A3 A4 A5 ρ : Type) (tcS : TryConv S) (tc1 : TryConv A1) (tc2 : TryConv A2) (tc3 : TryConv A3) (tc4 : TryConv A4) (tc5 : TryConv A5) (rv : RV ρ)
      (meth : Method5 S A1 A2 A3 A4 A5 ρ) (rb_self a b c d e : Value),
    C1prop (Method5.call_convert_value tcS tc1 tc2 tc3 tc4 tc5 rv meth rb_self a b c d e)
      (Method5.call_handle_error tcS tc1 tc2 tc3 tc4 tc5 rv meth rb_self a b c d e)) ∧
  (∀ (S A1 A2 A3 A4 A5 A6 ρ : Type) (tcS : TryConv S) (tc1 : TryConv A1) (tc2 : TryConv A2) (tc3 : TryConv A3) (tc4 : TryConv A4) (tc5 : TryConv A5) (tc6 : TryConv A6) (rv : RV ρ)
      (meth : Method6 S A1 A2 A3 A4 A5 A6 ρ) (rb_self a b c d e f : Value),
    C1prop (Method6.call_convert_value tcS tc1 tc2 tc3 tc4 tc5 tc6 rv meth rb_self a b c d e f)
      (Method6.call_handle_error tcS tc1 tc2 tc3 tc4 tc5 tc6 rv meth rb_self a b c d e f)) ∧
  (∀ (S A1 A2 A3 A4 A5 A6 A7 ρ : Type) (tcS : TryConv S) (tc1 : TryConv A1) (tc2 : TryConv A2) (tc3 : TryConv A3) (tc4 : TryConv A4) (tc5 : TryConv A5) (tc6 : TryConv A6) (tc7 : TryConv A7) (rv : RV ρ)
      (meth : Method7 S A1 A2 A3 A4 A5 A6 A7 ρ) (rb_self a b c d e f g : Value),
    C1prop (Method7.call_convert_value tcS tc1 tc2 tc3 tc4 tc5 tc6 tc7 rv meth rb_self a b c d e f g)
      (Method7.call_handle_error tcS tc1 tc2 tc3 tc4 tc5 tc6 tc7 rv meth rb_self a b c d e f g)) ∧
  (∀ (S A1 A2 A3 A4 A5 A6 A7 A8 ρ : Type) (tcS : TryConv S) (tc1 : TryConv A1) (tc2 : TryConv A2) (tc3 : TryConv A3) (tc4 : TryConv A4) (tc5 : TryConv A5) (tc6 : TryConv A6) (tc7 : TryConv A7) (tc8 : TryConv A8) (rv : RV ρ)
      (meth : Method8 S A1 A2 A3 A4 A5 A6 A7 A8 ρ) (rb_self a b c d e f g h : Value),
    C1prop (Method8.call_convert_value tcS tc1 tc2 tc3 tc4 tc5 tc6 tc7 tc8 rv meth rb_self a b c d e f g h)
      (Method8.call_handle_error tcS tc1 tc2 tc3 tc4 tc5 tc6 tc7 tc8 rv meth rb_self a b c d e f g h)) ∧
  (∀ (S A1 A2 A3 A4 A5 A6 A7 A8 A9 ρ : Type) (tcS : TryConv S) (tc1 : TryConv A1) (tc2 : TryConv A2) (tc3 : TryConv A3) (tc4 : TryConv A4) (tc5 : TryConv A5) (tc6 : TryConv A6) (tc7 : TryConv A7) (tc8 : TryConv A8) (tc9 : TryConv A9) (rv : RV ρ)
      (meth : Method9 S A1 A2 A3 A4 A5 A6 A7 A8 A9 ρ) (rb_self a b c d e f g h i : Value),
    C1prop (Method9.call_convert_value tcS tc1 tc2 tc3 tc4 tc5 tc6 tc7 tc8 tc9 rv meth rb_self a b c d e f g h i)
      (Method9.call_handle_error tcS tc1 tc2 tc3 tc4 tc5 tc6 tc7 tc8 tc9 rv meth rb_self a b c d e f g h i)) ∧
  (∀ (S A1 A2 A3 A4 A5 A6 A7 A8 A9 A10 ρ : Type) (tcS : TryConv S) (tc1 : TryConv A1) (tc2 : TryConv A2) (tc3 : TryConv A3) (tc4 : TryConv A4) (tc5 : TryConv A5) (tc6 : TryConv A6) (tc7 : TryConv A7) (tc8 : TryConv A8) (tc9 : TryConv A9) (tc10 : TryConv A10) (rv : RV ρ)
      (meth : Method10 S A1 A2 A3 A4 A5 A6 A7 A8 A9 A10 ρ) (rb_self a b c d e f g h i j : Value),
    C1prop (Method10.call_convert_value tcS tc1 tc2 tc3 tc4 tc5 tc6 tc7 tc8 tc9 tc10 rv meth rb_self a b c d e f g h i j)
      (Method10.call_handle_error tcS tc1 tc2 tc3 tc4 tc5 tc6 tc7 tc8 tc9 tc10 rv meth rb_self a b c d e f g h i j)) ∧
  (∀ (S A1 A2 A3 A4 A5 A6 A7 A8 A9 A10 A11 ρ : Type) (tcS : TryConv S) (tc1 : TryConv A1) (tc2 : TryConv A2) (tc3 : TryConv A3) (tc4 : TryConv A4) (tc5 : TryConv A5) (tc6 : TryConv A6) (tc7 : TryConv A7) (tc8 : TryConv A8) (tc9 : TryConv A9) (tc10 : TryConv A10) (tc11 : TryConv A11) (rv : RV ρ)
      (meth : Method11 S A1 A2 A3 A4 A5 A6 A7 A8 A9 A10 A11 ρ) (rb_self a b c d e f g h i j k : Value),
    C1prop (Method11.call_convert_value tcS tc1 tc2 tc3 tc4 tc5 tc6 tc7 tc8 tc9 tc10 tc11 rv meth rb_self a b c d e f g h i j k)
      (Method11.call_handle_error tcS tc1 tc2 tc3 tc4 tc5 tc6 tc7 tc8 tc9 tc10 tc11 rv meth rb_self a b c d e f g h i j k)) ∧
  (∀ (S A1 A2 A3 A4 A5 A6 A7 A8 A9 A10 A11 A12 ρ : Type) (tcS : TryConv S) (tc1 : TryConv A1) (tc2 : TryConv A2) (tc3 : TryConv A3) (tc4 : TryConv A4) (tc5 : TryConv A5) (tc6 : TryConv A6) (tc7 : TryConv A7) (tc8 : TryConv A8) (tc9 : TryConv A9) (tc10 : TryConv A10) (tc11 : TryConv A11) (tc12 : TryConv A12) (rv : RV ρ)
      (meth : Method12 S A1 A2 A3 A4 A5 A6 A7 A8 A9 A10 A11 A12 ρ) (rb_self a b c d e f g h i j k l : Value),
    C1prop (Method12.call_convert_value tcS tc1 tc2 tc3 tc4 tc5 tc6 tc7 tc8 tc9 tc10 tc11 tc12 rv meth rb_self a b c d e f g h i j k l)
      (Method12.call_handle_error tcS tc1 tc2 tc3 tc4 tc5 tc6 tc7 tc8 tc9 tc10 tc11 tc12 rv meth rb_self a b c d e f g h i j k l)) ∧
  (∀ (S A1 A2 A3 A4 A5 A6 A7 A8 A9 A10 A11 A12 A13 ρ : Type) (tcS : TryConv S) (tc1 : TryConv A1) (tc2 : TryConv A2) (tc3 : TryConv A3) (tc4 : TryConv A4) (tc5 : TryConv A5) (tc6 : TryConv A6) (tc7 : TryConv A7) (tc8 : TryConv A8) (tc9 : TryConv A9) (tc10 : TryConv A10) (tc11 : TryConv A11) (tc12 : TryConv A12) (tc13 : TryConv A13) (rv : RV ρ)
      (meth : Method13 S A1 A2 A3 A4 A5 A6 A7 A8 A9 A10 A11 A12 A13 ρ) (rb_self a b c d e f g h i j k l m : Value),
    C1prop (Method13.call_convert_value tcS tc1 tc2 tc3 tc4 tc5 tc6 tc7 tc8 tc9 tc10 tc11 tc12 tc13 rv meth rb_self a b c d e f g h i j k l m)
      (Method13.call_handle_error tcS tc1 tc2 tc3 tc4 tc5 tc6 tc7 tc8 tc9 tc10 tc11 tc12 tc13 rv meth rb_self a b c d e f g h i j k l m)) ∧
  (∀ (S A1 A2 A3 A4 A5 A6 A7 A8 A9 A10 A11 A12 A13 A14 ρ : Type) (tcS : TryConv S) (tc1 : TryConv A1) (tc2 : TryConv A2) (tc3 : TryConv A3) (tc4 : TryConv A4) (tc5 : TryConv A5) (tc6 : TryConv A6) (tc7 : TryConv A7) (tc8 : TryConv A8) (tc9 : TryConv A9) (tc10 : TryConv A10) (tc11 : TryConv A11) (tc12 : TryConv A12) (tc13 : TryConv A13) (tc14 : TryConv A14) (rv : RV ρ)
      (meth : Method14 S A1 A2 A3 A4 A5 A6 A7 A8 A9 A10 A11 A12 A13 A14 ρ) (rb_self a b c d e f g h i j k l m n : Value),
    C1prop (Method14.call_convert_value tcS tc1 tc2 tc3 tc4 tc5 tc6 tc7 tc8 tc9 tc10 tc11 tc12 tc13 tc14 rv meth rb_self a b c d e f g h i j k l m n)
      (Method14.call_handle_error tcS tc1 tc2 tc3 tc4 tc5 tc6 tc7 tc8 tc9 tc10 tc11 tc12 tc13 tc14 rv meth rb_self a b c d e f g h i j k l m n)) ∧
  (∀ (S A1 A2 A3 A4 A5 A6 A7 A8 A9 A10 A11 A12 A13 A14 A15 ρ : Type) (tcS : TryConv S) (tc1 : TryConv A1) (tc2 : TryConv A2) (tc3 : TryConv A3) (tc4 : TryConv A4) (tc5 : TryConv A5) (tc6 : TryConv A6) (tc7 : TryConv A7) (tc8 : TryConv A8) (tc9 : TryConv A9) (tc10 : TryConv A10) (tc11 : TryConv A11) (tc12 : TryConv A12) (tc13 : TryConv A13) (tc14 : TryConv A14) (tc15 : TryConv A15) (rv : RV ρ)
      (meth : Method15 S A1 A2 A3 A4 A5 A6 A7 A8 A9 A10 A11 A12 A13 A14 A15 ρ) (rb_self a b c d e f g h i j k l m n o : Value),
    C1prop (Method15.call_convert_value tcS tc1 tc2 tc3 tc4 tc5 tc6 tc7 tc8 tc9 tc10 tc11 tc12 tc13 tc14 tc15 rv meth rb_self a b c d e f g h i j k l m n o)
      (Method15.call_handle_error tcS tc1 tc2 tc3 tc4 tc5 tc6 tc7 tc8 tc9 tc10 tc11 tc12 tc13 tc14 tc15 rv meth rb_self a b c d e f g h i j k l m n o)) ∧
  (∀ (S A1 A2 A3 A4 A5 A6 A7 A8 A9 A10 A11 A12 A13 A14 A15 A16 ρ : Type) (tcS : TryConv S) (tc1 : TryConv A1) (tc2 : TryConv A2) (tc3 : TryConv A3) (tc4 : TryConv A4) (tc5 : TryConv A5) (tc6 : TryConv A6) (tc7 : TryConv A7) (tc8 : TryConv A8) (tc9 : TryConv A9) (tc10 : TryConv A10) (tc11 : TryConv A11) (tc12 : TryConv A12) (tc13 : TryConv A13) (tc14 : TryConv A14) (tc15 : TryConv A15) (tc16 : TryConv A16) (rv : RV ρ)
      (meth : Method16 S A1 A2 A3 A4 A5 A6 A7 A8 A9 A10 A11 A12 A13 A14 A15 A16 ρ) (rb_self a b c d e f g h i j k l m n o p : Value),
    C1prop (Method16.call_convert_value tcS tc1 tc2 tc3 tc4 tc5 tc6 tc7 tc8 tc9 tc10 tc11 tc12 tc13 tc14 tc15 tc16 rv meth rb_self a b c d e f g h i j k l m n o p)
      (Method16.call_handle_error tcS tc1 tc2 tc3 tc4 tc5 tc6 tc7 tc8 tc9 tc10 tc11 tc12 tc13 tc14 tc15 tc16 rv meth rb_self a b c d e f g h i j k l m n o p)) ∧
  (∀ (S Args ρ : Type) (tcS : TryConv S) (tcArgs : TryConv Args) (rv : RV ρ)
      (meth : MethodRbAry S Args ρ) (rb_self : Value) (args : RArray),
    C1prop (MethodRbAry.call_convert_value tcS tcArgs rv meth rb_self args)
      (MethodRbAry.call_handle_error tcS tcArgs rv meth rb_self args)) ∧
  (∀ (S ρ : Type) (tcS : TryConv S) (rv : RV ρ) (meth : MethodCAry S ρ)
      (argc : Nat) (argv : Nat → Value) (rb_self : Value),
    C1prop (MethodCAry.call_convert_value tcS rv meth argc argv rb_self)
      (MethodCAry.call_handle_error tcS rv meth argc argv rb_self)) ∧
  (∀ (ρ : Type) (rv : RV ρ) (meth : Function0 ρ),
    C1prop (Function0.call_convert_value rv meth)
      (Function0.call_handle_error rv meth)) ∧
  (∀ (A1 ρ : Type) (tc1 : TryConv A1) (rv : RV ρ) (meth : Function1 A1 ρ) (a : Value),
    C1prop (Function1.call_convert_value tc1 rv meth a)
      (Function1.call_handle_error tc1 rv meth a)) ∧
  (∀ (A1 A2 ρ : Type) (tc1 : TryConv A1) (tc2 : TryConv A2) (rv : RV ρ) (meth : Function2 A1 A2 ρ) (a b : Value),
    C1prop (Function2.call_convert_value tc1 tc2 rv meth a b)
      (Function2.call_handle_error tc1 tc2 rv meth a b)) ∧
  (∀ (A1 A2 A3 ρ : Type) (tc1 : TryConv A1) (tc2 : TryConv A2) (tc3 : TryConv A3) (rv : RV ρ) (meth : Function3 A1 A2 A3 ρ) (a b c : Value),
    C1prop (Function3.call_convert_value tc1 tc2 tc3 rv meth a b c)
      (Function3.call_handle_error tc1 tc2 tc3 rv meth a b c)) ∧
  (∀ (A1 A2 A3 A4 ρ : Type) (tc1 : TryConv A1) (tc2 : TryConv A2) (tc3 : TryConv A3) (tc4 : TryConv A4) (rv : RV ρ) (meth : Function4 A1 A2 A3 A4 ρ) (a b c d : Value),
    C1prop (Function4.call_convert_value tc1 tc2 tc3 tc4 rv meth a b c d)
      (Function4.call_handle_error tc1 tc2 tc3 tc4 rv meth a b c d)) ∧
  (∀ (A1 A2 A3 A4 A5 ρ : Type) (tc1 : TryConv A1) (tc2 : TryConv A2) (tc3 : TryConv A3) (tc4 : TryConv A4) (tc5 : TryConv A5) (rv : RV ρ) (meth : Function5 A1 A2 A3 A4 A5 ρ) (a b c d e : Value),
    C1prop (Function5.call_convert_value tc1 tc2 tc3 tc4 tc5 rv meth a b c d e)
      (Function5.call_handle_error tc1 tc2 tc3 tc4 tc5 rv meth a b c d e)) ∧
  (∀ (A1 A2 A3 A4 A5 A6 ρ : Type) (tc1 : TryConv A1) (tc2 : TryConv A2) (tc3 : TryConv A3) (tc4 : TryConv A4) (tc5 : TryConv A5) (tc6 : TryConv A6) (rv : RV ρ) (meth : Function6 A1 A2 A3 A4 A5 A6 ρ) (a b c d e f : Value),
    C1prop (Function6.call_convert_value tc1 tc2 tc3 tc4 tc5 tc6 rv meth a b c d e f)
      (Function6.call_handle_error tc1 tc2 tc3 tc4 tc5 tc6 rv meth a b c d e f)) ∧
  (∀ (A1 A2 A3 A4 A5 A6 A7 ρ : Type) (tc1 : TryConv A1) (tc2 : TryConv A2) (tc3 : TryConv A3) (tc4 : TryConv A4) (tc5 : TryConv A5) (tc6 : TryConv A6) (tc7 : TryConv A7) (rv : RV ρ) (meth : Function7 A1 A2 A3 A4 A5 A6 A7 ρ) (a b c d e f g : Value),
    C1prop (Function7.call_convert_value tc1 tc2 tc3 tc4 tc5 tc6 tc7 rv meth a b c d e f g)
      (Function7.call_handle_error tc1 tc2 tc3 tc4 tc5 tc6 tc7 rv meth a b c d e f g)) ∧
  (∀ (A1 A2 A3 A4 A5 A6 A7 A8 ρ : Type) (tc1 : TryConv A1) (tc2 : TryConv A2) (tc3 : TryConv A3) (tc4 : TryConv A4) (tc5 : TryConv A5) (tc6 : TryConv A6) (tc7 : TryConv A7) (tc8 : TryConv A8) (rv : RV ρ) (meth : Function8 A1 A2 A3 A4 A5 A6 A7 A8 ρ) (a b c d e f g h : Value),
    C1prop (Function8.call_convert_value tc1 tc2 tc3 tc4 tc5 tc6 tc7 tc8 rv meth a b c d e f g h)
      (Function8.call_handle_error tc1 tc2 tc3 tc4 tc5 tc6 tc7 tc8 rv meth a b c d e f g h)) ∧
  (∀ (A1 A2 A3 A4 A5 A6 A7 A8 A9 ρ : Type) (tc1 : TryConv A1) (tc2 : TryConv A2) (tc3 : TryConv A3) (tc4 : TryConv A4) (tc5 : TryConv A5) (tc6 : TryConv A6) (tc7 : TryConv A7) (tc8 : TryConv A8) (tc9 : TryConv A9) (rv : RV ρ) (meth : Function9 A1 A2 A3 A4 A5 A6 A7 A8 A9 ρ) (a b c d e f g h i : Value),
    C1prop (Function9.call_convert_value tc1 tc2 tc3 tc4 tc5 tc6 tc7 tc8 tc9 rv meth a b c d e f g h i)
      (Function9.call_handle_error tc1 tc2 tc3 tc4 tc5 tc6 tc7 tc8 tc9 rv meth a b c d e f g h i)) ∧
  (∀ (A1 A2 A3 A4 A5 A6 A7 A8 A9 A10 ρ : Type) (tc1 : TryConv A1) (tc2 : TryConv A2) (tc3 : TryConv A3) (tc4 : TryConv A4) (tc5 : TryConv A5) (tc6 : TryConv A6) (tc7 : TryConv A7) (tc8 : TryConv A8) (tc9 : TryConv A9) (tc10 : TryConv A10) (rv : RV ρ) (meth : Function10 A1 A2 A3 A4 A5 A6 A7 A8 A9 A10 ρ) (a b c d e f g h i j : Value),
    C1prop (Function10.call_convert_value tc1 tc2 tc3 tc4 tc5 tc6 tc7 tc8 tc9 tc10 rv meth a b c d e f g h i j)
      (Function10.call_handle_error tc1 tc2 tc3 tc4 tc5 tc6 tc7 tc8 tc9 tc10 rv meth a b c d e f g h i j)) ∧
  (∀ (A1 A2 A3 A4 A5 A6 A7 A8 A9 A10 A11 ρ : Type) (tc1 : TryConv A1) (tc2 : TryConv A2) (tc3 : TryConv A3) (tc4 : TryConv A4) (tc5 : TryConv A5) (tc6 : TryConv A6) (tc7 : TryConv A7) (tc8 : TryConv A8) (tc9 : TryConv A9) (tc10 : TryConv A10) (tc11 : TryConv A11) (rv : RV ρ) (meth : Function11 A1 A2 A3 A4 A5 A6 A7 A8 A9 A10 A11 ρ) (a b c d e f g h i j k : Value),
    C1prop (Function11.call_convert_value tc1 tc2 tc3 tc4 tc5 tc6 tc7 tc8 tc9 tc10 tc11 rv meth a b c d e f g h i j k)
      (Function11.call_handle_error tc1 tc2 tc3 tc4 tc5 tc6 tc7 tc8 tc9 tc10 tc11 rv meth a b c d e f g h i j k)) ∧
  (∀ (A1 A2 A3 A4 A5 A6 A7 A8 A9 A10 A11 A12 ρ : Type) (tc1 : TryConv A1) (tc2 : TryConv A2) (tc3 : TryConv A3) (tc4 : TryConv A4) (tc5 : TryConv A5) (tc6 : TryConv A6) (tc7 : TryConv A7) (tc8 : TryConv A8) (tc9 : TryConv A9) (tc10 : TryConv A10) (tc11 : TryConv A11) (tc12 : TryConv A12) (rv : RV ρ) (meth : Function12 A1 A2 A3 A4 A5 A6 A7 A8 A9 A10 A11 A12 ρ) (a b c d e f g h i j k l : Value),
    C1prop (Function12.call_convert_value tc1 tc2 tc3 tc4 tc5 tc6 tc7 tc8 tc9 tc10 tc11 tc12 rv meth a b c d e f g h i j k l)
      (Function12.call_handle_error tc1 tc2 tc3 tc4 tc5 tc6 tc7 tc8 tc9 tc10 tc11 tc12 rv meth a b c d e f g h i j k l)) ∧
  (∀ (A1 A2 A3 A4 A5 A6 A7 A8 A9 A10 A11 A12 A13 ρ : Type) (tc1 : TryConv A1) (tc2 : TryConv A2) (tc3 : TryConv A3) (tc4 : TryConv A4) (tc5 : TryConv A5) (tc6 : TryConv A6) (tc7 : TryConv A7) (tc8 : TryConv A8) (tc9 : TryConv A9) (tc10 : TryConv A10) (tc11 : TryConv A11) (tc12 : TryConv A12) (tc13 : TryConv A13) (rv : RV ρ) (meth : Function13 A1 A2 A3 A4 A5 A6 A7 A8 A9 A10 A11 A12 A13 ρ) (a b c d e f g h i j k l m : Value),
    C1prop (Function13.call_convert_value tc1 tc2 tc3 tc4 tc5 tc6 tc7 tc8 tc9 tc10 tc11 tc12 tc13 rv meth a b c d e f g h i j k l m)
      (Function13.call_handle_error tc1 tc2 tc3 tc4 tc5 tc6 tc7 tc8 tc9 tc10 tc11 tc12 tc13 rv meth a b c d e f g h i j k l m)) ∧
  (∀ (A1 A2 A3 A4 A5 A6 A7 A8 A9 A10 A11 A12 A13 A14 ρ : Type) (tc1 : TryConv A1) (tc2 : TryConv A2) (tc3 : TryConv A3) (tc4 : TryConv A4) (tc5 : TryConv A5) (tc6 : TryConv A6) (tc7 : TryConv A7) (tc8 : TryConv A8) (tc9 : TryConv A9) (tc10 : TryConv A10) (tc11 : TryConv A11) (tc12 : TryConv A12) (tc13 : TryConv A13) (tc14 : TryConv A14) (rv : RV ρ) (meth : Function14 A1 A2 A3 A4 A5 A6 A7 A8 A9 A10 A11 A12 A13 A14 ρ) (a b c d e f g h i j k l m n : Value),
    C1prop (Function14.call_convert_value tc1 tc2 tc3 tc4 tc5 tc6 tc7 tc8 tc9 tc10 tc11 tc12 tc13 tc14 rv meth a b c d e f g h i j k l m n)
      (Function14.call_handle_error tc1 tc2 tc3 tc4 tc5 tc6 tc7 tc8 tc9 tc10 tc11 tc12 tc13 tc14 rv meth a b c d e f g h i j k l m n)) ∧
  (∀ (A1 A2 A3 A4 A5 A6 A7 A8 A9 A10 A11 A12 A13 A14 A15 ρ : Type) (tc1 : TryConv A1) (tc2 : TryConv A2) (tc3 : TryConv A3) (tc4 : TryConv A4) (tc5 : TryConv A5) (tc6 : TryConv A6) (tc7 : TryConv A7) (tc8 : TryConv A8) (tc9 : TryConv A9) (tc10 : TryConv A10) (tc11 : TryConv A11) (tc12 : TryConv A12) (tc13 : TryConv A13) (tc14 : TryConv A14) (tc15 : TryConv A15) (rv : RV ρ) (meth : Function15 A1 A2 A3 A4 A5 A6 A7 A8 A9 A10 A11 A12 A13 A14 A15 ρ) (a b c d e f g h i j k l m n o : Value),
    C1prop (Function15.call_convert_value tc1 tc2 tc3 tc4 tc5 tc6 tc7 tc8 tc9 tc10 tc11 tc12 tc13 tc14 tc15 rv meth a b c d e f g h i j k l m n o)
      (Function15.call_handle_error tc1 tc2 tc3 tc4 tc5 tc6 tc7 tc8 tc9 tc10 tc11 tc12 tc13 tc14 tc15 rv meth a b c d e f g h i j k l m n o)) ∧
  (∀ (A1 A2 A3 A4 A5 A6 A7 A8 A9 A10 A11 A12 A13 A14 A15 A16 ρ : Type) (tc1 : TryConv A1) (tc2 : TryConv A2) (tc3 : TryConv A3) (tc4 : TryConv A4) (tc5 : TryConv A5) (tc6 : TryConv A6) (tc7 : TryConv A7) (tc8 : TryConv A8) (tc9 : TryConv A9) (tc10 : TryConv A10) (tc11 : TryConv A11) (tc12 : TryConv A12) (tc13 : TryConv A13) (tc14 : TryConv A14) (tc15 : TryConv A15) (tc16 : TryConv A16) (rv : RV ρ) (meth : Function16 A1 A2 A3 A4 A5 A6 A7 A8 A9 A10 A11 A12 A13 A14 A15 A16 ρ) (a b c d e f g h i j k l m n o p : Value),
    C1prop (Function16.call_convert_value tc1 tc2 tc3 tc4 tc5 tc6 tc7 tc8 tc9 tc10 tc11 tc12 tc13 tc14 tc15 tc16 rv meth a b c d e f g h i j k l m n o p)
      (Function16.call_handle_error tc1 tc2 tc3 tc4 tc5 tc6 tc7 tc8 tc9 tc10 tc11 tc12 tc13 tc14 tc15 tc16 rv meth a b c d e f g h i j k l m n o p)) ∧
  (∀ (Args ρ : Type) (tcArgs : TryConv Args) (rv : RV ρ)
      (meth : FunctionRbAry Args ρ) (args : RArray),
    C1prop (FunctionRbAry.call_convert_value tcArgs rv meth args)
      (FunctionRbAry.call_handle_error tcArgs rv meth args)) ∧
  (∀ (ρ : Type) (rv : RV ρ) (meth : FunctionCAry ρ) (argc : Nat)
      (argv : Nat → Value),
    C1prop (FunctionCAry.call_convert_value rv meth argc argv)
      (FunctionCAry.call_handle_error rv meth argc argv)) ∧
  (∀ (e : Error) (v : Value), raise e ≠ BRes.returned v) :=
  ⟨by intros; exact boundary_bridge _,
   by intros; exact boundary_bridge _,
   by intros; exact boundary_bridge _,
   by intros; exact boundary_bridge _,
   by intros; exact boundary_bridge _,
   by intros; exact boundary_bridge _,
   by intros; exact boundary_bridge _,
   by intros; exact boundary_bridge _,
   by intros; exact boundary_bridge _,
   by intros; exact boundary_bridge _,
   by intros; exact boundary_bridge _,
   by intros; exact boundary_bridge _,
   by intros; exact boundary_bridge _,
   by intros; exact boundary_bridge _,
   by intros; exact boundary_bridge _,
   by intros; exact boundary_bridge _,
   by intros; exact boundary_bridge _,
   by intros; exact boundary_bridge _,
   by intros; exact boundary_bridge _,
   by intros; exact boundary_bridge _,
   by intros; exact boundary_bridge _,
   by intros; exact boundary_bridge _,
   by intros; exact boundary_bridge _,
   by intros; exact boundary_bridge _,
   by intros; exact boundary_bridge _,
   by intros; exact boundary_bridge _,
   by intros; exact boundary_bridge _,
   by intros; exact boundary_bridge _,
   by intros; exact boundary_bridge _,
   by intros; exact boundary_bridge _,
   by intros; exact boundary_bridge _,
   by intros; exact boundary_bridge _,
   by intros; exact boundary_bridge _,
   by intros; exact boundary_bridge _,
   by intros; exact boundary_bridge _,
   by intros; exact boundary_bridge _,
   by intros; exact boundary_bridge _,
   by intros; exact boundary_bridge _,
   by intro e v h; simp [raise] at h⟩

/-- Witness for C1: a concrete invocation whose self conversion unwinds is
turned into a raise of the caught-panic error. -/
theorem trampoline_unwind_bridge_witness :
    Method0.call_handle_error tcPanicW rvPlain methW0 (hv 1)
      = ([Ev.convert 9 (hv 1)], raise (Error.from_panic (PanicPayload.message boomMsg))) :=
  (trampoline_unwind_bridge.1 Value Value tcPanicW rvPlain methW0 (hv 1)).2.1
    (PanicPayload.message boomMsg) rfl

/-- C2: For every arity N in the supported range, if all N argument
handles (and, for the method family, the self handle) convert
successfully, the wrapped user function is invoked exactly once with the
converted values in positional order, and the trampoline returns
into_value applied to the function result. -/
theorem all_convert_success_invokes_once :
  (∀ (tcS : TryConv Value) (iv : IV Value)
      (r vs s : Value) (ts : List Ev),
    tcS.try_convert vs = (ts, Outcome.ok s) →
    Method0.call_handle_error tcS (RV.ofValue iv)
      (Method0.new (fun s0 => ([Ev.invoke [s0]], PanicOr.ok r)))
      vs
     = (ts ++ [Ev.invoke [s]],
        BRes.returned (iv.into_value r))) ∧
  (∀ (tcS : TryConv Value) (tc1 : TryConv Value) (iv : IV Value)
      (r vs v1 s x1 : Value) (ts t1 : List Ev),
    tcS.try_convert vs = (ts, Outcome.ok s) →
    tc1.try_convert v1 = (t1, Outcome.ok x1) →
    Method1.call_handle_error tcS tc1 (RV.ofValue iv)
      (Method1.new (fun s0 y1 => ([Ev.invoke [s0, y1]], PanicOr.ok r)))
      vs v1
     = (ts ++ t1 ++ [Ev.invoke [s, x1]],
        BRes.returned (iv.into_value r))) ∧
  (∀ (tcS : TryConv Value) (tc1 : TryConv Value) (tc2 : TryConv Value) (iv : IV Value)
      (r vs v1 v2 s x1 x2 : Value) (ts t1 t2 : List Ev),
    tcS.try_convert vs = (ts, Outcome.ok s) →
    tc1.try_convert v1 = (t1, Outcome.ok x1) →
    tc2.try_convert v2 = (t2, Outcome.ok x2) →
    Method2.call_handle_error tcS tc1 tc2 (RV.ofValue iv)
      (Method2.new (fun s0 y1 y2 => ([Ev.invoke [s0, y1, y2]], PanicOr.ok r)))
      vs v1 v2
     = (ts ++ t1 ++ t2 ++ [Ev.invoke [s, x1, x2]],
        BRes.returned (iv.into_value r))) ∧
  (∀ (tcS : TryConv Value) (tc1 : TryConv Value) (tc2 : TryConv Value) (tc3 : TryConv Value) (iv : IV Value)
      (r vs v1 v2 v3 s x1 x2 x3 : Value) (ts t1 t2 t3 : List Ev),
    tcS.try_convert vs = (ts, Outcome.ok s) →
    tc1.try_convert v1 = (t1, Outcome.ok x1) →
    tc2.try_convert v2 = (t2, Outcome.ok x2) →
    tc3.try_convert v3 = (t3, Outcome.ok x3) →
    Method3.call_handle_error tcS tc1 tc2 tc3 (RV.ofValue iv)
      (Method3.new (fun s0 y1 y2 y3 => ([Ev.invoke [s0, y1, y2, y3]], PanicOr.ok r)))
      vs v1 v2 v3
     = (ts ++ t1 ++ t2 ++ t3 ++ [Ev.invoke [s, x1, x2, x3]],
        BRes.returned (iv.into_value r))) ∧
  (∀ (tcS : TryConv Value) (tc1 : TryConv Value) (tc2 : TryConv Value) (tc3 : TryConv Value) (tc4 : TryConv Value) (iv : IV Value)
      (r vs v1 v2 v3 v4 s x1 x2 x3 x4 : Value) (ts t1 t2 t3 t4 : List Ev),
    tcS.try_convert vs = (ts, Outcome.ok s) →
    tc1.try_convert v1 = (t1, Outcome.ok x1) →
    tc2.try_convert v2 = (t2, Outcome.ok x2) →
    tc3.try_convert v3 = (t3, Outcome.ok x3) →
    tc4.try_convert v4 = (t4, Outcome.ok x4) →
    Method4.call_handle_error tcS tc1 tc2 tc3 tc4 (RV.ofValue iv)
      (Method4.new (fun s0 y1 y2 y3 y4 => ([Ev.invoke [s0, y1, y2, y3, y4]], PanicOr.ok r)))
      vs v1 v2 v3 v4
     = (ts ++ t1 ++ t2 ++ t3 ++ t4 ++ [Ev.invoke [s, x1, x2, x3, x4]],
        BRes.returned (iv.into_value r))) ∧
  (∀ (tcS : TryConv Value) (tc1 : TryConv Value) (tc2 : TryConv Value) (tc3 : TryConv Value) (tc4 : TryConv Value) (tc5 : TryConv Value) (iv : IV Value)
      (r vs v1 v2 v3 v4 v5 s x1 x2 x3 x4 x5 : Value) (ts t1 t2 t3 t4 t5 : List Ev),
    tcS.try_convert vs = (ts, Outcome.ok s) →
    tc1.try_convert v1 = (t1, Outcome.ok x1) →
    tc2.try_convert v2 = (t2, Outcome.ok x2) →
    tc3.try_convert v3 = (t3, Outcome.ok x3) →
    tc4.try_convert v4 = (t4, Outcome.ok x4) →
    tc5.try_convert v5 = (t5, Outcome.ok x5) →
    Method5.call_handle_error tcS tc1 tc2 tc3 tc4 tc5 (RV.ofValue iv)
      (Method5.new (fun s0 y1 y2 y3 y4 y5 => ([Ev.invoke [s0, y1, y2, y3, y4, y5]], PanicOr.ok r)))
      vs v1 v2 v3 v4 v5
     = (ts ++ t1 ++ t2 ++ t3 ++ t4 ++ t5 ++ [Ev.invoke [s, x1, x2, x3, x4, x5]],
        BRes.returned (iv.into_value r))) ∧
  (∀ (tcS : TryConv Value) (tc1 : TryConv Value) (tc2 : TryConv Value) (tc3 : TryConv Value) (tc4 : TryConv Value) (tc5 : TryConv Value) (tc6 : TryConv Value) (iv : IV Value)
      (r vs v1 v2 v3 v4 v5 v6 s x1 x2 x3 x4 x5 x6 : Value) (ts t1 t2 t3 t4 t5 t6 : List Ev),
    tcS.try_convert vs = (ts, Outcome.ok s) →
    tc1.try_convert v1 = (t1, Outcome.ok x1) →
    tc2.try_convert v2 = (t2, Outcome.ok x2) →
    tc3.try_convert v3 = (t3, Outcome.ok x3) →
    tc4.try_convert v4 = (t4, Outcome.ok x4) →
    tc5.try_convert v5 = (t5, Outcome.ok x5) →
    tc6.try_convert v6 = (t6, Outcome.ok x6) →
    Method6.call_handle_error tcS tc1 tc2 tc3 tc4 tc5 tc6 (RV.ofValue iv)
      (Method6.new (fun s0 y1 y2 y3 y4 y5 y6 => ([Ev.invoke [s0, y1, y2, y3, y4, y5, y6]], PanicOr.ok r)))
      vs v1 v2 v3 v4 v5 v6
     = (ts ++ t1 ++ t2 ++ t3 ++ t4 ++ t5 ++ t6 ++ [Ev.invoke [s, x1, x2, x3, x4, x5, x6]],
        BRes.returned (iv.into_value r))) ∧
  (∀ (tcS : TryConv Value) (tc1 : TryConv Value) (tc2 : TryConv Value) (tc3 : TryConv Value) (tc4 : TryConv Value) (tc5 : TryConv Value) (tc6 : TryConv Value) (tc7 : TryConv Value) (iv : IV Value)
      (r vs v1 v2 v3 v4 v5 v6 v7 s x1 x2 x3 x4 x5 x6 x7 : Value) (ts t1 t2 t3 t4 t5 t6 t7 : List Ev),
    tcS.try_convert vs = (ts, Outcome.ok s) →
    tc1.try_convert v1 = (t1, Outcome.ok x1) →
    tc2.try_convert v2 = (t2, Outcome.ok x2) →
    tc3.try_convert v3 = (t3, Outcome.ok x3) →
    tc4.try_convert v4 = (t4, Outcome.ok x4) →
    tc5.try_convert v5 = (t5, Outcome.ok x5) →
    tc6.try_convert v6 = (t6, Outcome.ok x6) →
    tc7.try_convert v7 = (t7, Outcome.ok x7) →
    Method7.call_handle_error tcS tc1 tc2 tc3 tc4 tc5 tc6 tc7 (RV.ofValue iv)
      (Method7.new (fun s0 y1 y2 y3 y4 y5 y6 y7 => ([Ev.invoke [s0, y1, y2, y3, y4, y5, y6, y7]], PanicOr.ok r)))
      vs v1 v2 v3 v4 v5 v6 v7
     = (ts ++ t1 ++ t2 ++ t3 ++ t4 ++ t5 ++ t6 ++ t7 ++ [Ev.invoke [s, x1, x2, x3, x4, x5, x6, x7]],
        BRes.returned (iv.into_value r))) ∧
  (∀ (tcS : TryConv Value) (tc1 : TryConv Value) (tc2 : TryConv Value) (tc3 : TryConv Value) (tc4 : TryConv Value) (tc5 : TryConv Value) (tc6 : TryConv Value) (tc7 : TryConv Value) (tc8 : TryConv Value) (iv : IV Value)
      (r vs v1 v2 v3 v4 v5 v6 v7 v8 s x1 x2 x3 x4 x5 x6 x7 x8 : Value) (ts t1 t2 t3 t4 t5 t6 t7 t8 : List Ev),
    tcS.try_convert vs = (ts, Outcome.ok s) →
    tc1.try_convert v1 = (t1, Outcome.ok x1) →
    tc2.try_convert v2 = (t2, Outcome.ok x2) →
    tc3.try_convert v3 = (t3, Outcome.ok x3) →
    tc4.try_convert v4 = (t4, Outcome.ok x4) →
    tc5.try_convert v5 = (t5, Outcome.ok x5) →
    tc6.try_convert v6 = (t6, Outcome.ok x6) →
    tc7.try_convert v7 = (t7, Outcome.ok x7) →
    tc8.try_convert v8 = (t8, Outcome.ok x8) →
    Method8.call_handle_error tcS tc1 tc2 tc3 tc4 tc5 tc6 tc7 tc8 (RV.ofValue iv)
      (Method8.new (fun s0 y1 y2 y3 y4 y5 y6 y7 y8 => ([Ev.invoke [s0, y1, y2, y3, y4, y5, y6, y7, y8]], PanicOr.ok r)))
      vs v1 v2 v3 v4 v5 v6 v7 v8
     = (ts ++ t1 ++ t2 ++ t3 ++ t4 ++ t5 ++ t6 ++ t7 ++ t8 ++ [Ev.invoke [s, x1, x2, x3, x4, x5, x6, x7, x8]],
        BRes.returned (iv.into_value r))) ∧
  (∀ (tcS : TryConv Value) (tc1 : TryConv Value) (tc2 : TryConv Value) (tc3 : TryConv Value) (tc4 : TryConv Value) (tc5 : TryConv Value) (tc6 : TryConv Value) (tc7 : TryConv Value) (tc8 : TryConv Value) (tc9 : TryConv Value) (iv : IV Value)
      (r vs v1 v2 v3 v4 v5 v6 v7 v8 v9 s x1 x2 x3 x4 x5 x6 x7 x8 x9 : Value) (ts t1 t2 t3 t4 t5 t6 t7 t8 t9 : List Ev),
    tcS.try_convert vs = (ts, Outcome.ok s) →
    tc1.try_convert v1 = (t1, Outcome.ok x1) →
    tc2.try_convert v2 = (t2, Outcome.ok x2) →
    tc3.try_convert v3 = (t3, Outcome.ok x3) →
    tc4.try_convert v4 = (t4, Outcome.ok x4) →
    tc5.try_convert v5 = (t5, Outcome.ok x5) →
    tc6.try_convert v6 = (t6, Outcome.ok x6) →
    tc7.try_convert v7 = (t7, Outcome.ok x7) →
    tc8.try_convert v8 = (t8, Outcome.ok x8) →
    tc9.try_convert v9 = (t9, Outcome.ok x9) →
    Method9.call_handle_error tcS tc1 tc2 tc3 tc4 tc5 tc6 tc7 tc8 tc9 (RV.ofValue iv)
      (Method9.new (fun s0 y1 y2 y3 y4 y5 y6 y7 y8 y9 => ([Ev.invoke [s0, y1, y2, y3, y4, y5, y6, y7, y8, y9]], PanicOr.ok r)))
      vs v1 v2 v3 v4 v5 v6 v7 v8 v9
     = (ts ++ t1 ++ t2 ++ t3 ++ t4 ++ t5 ++ t6 ++ t7 ++ t8 ++ t9 ++ [Ev.invoke [s, x1, x2, x3, x4, x5, x6, x7, x8, x9]],
        BRes.returned (iv.into_value r))) ∧
  (∀ (tcS : TryConv Value) (tc1 : TryConv Value) (tc2 : TryConv Value) (tc3 : TryConv Value) (tc4 : TryConv Value) (tc5 : TryConv Value) (tc6 : TryConv Value) (tc7 : TryConv Value) (tc8 : TryConv Value) (tc9 : TryConv Value) (tc10 : TryConv Value) (iv : IV Value)
      (r vs v1 v2 v3 v4 v5 v6 v7 v8 v9 v10 s x1 x2 x3 x4 x5 x6 x7 x8 x9 x10 : Value) (ts t1 t2 t3 t4 t5 t6 t7 t8 t9 t10 : List Ev),
    tcS.try_convert vs = (ts, Outcome.ok s) →
    tc1.try_convert v1 = (t1, Outcome.ok x1) →
    tc2.try_convert v2 = (t2, Outcome.ok x2) →
    tc3.try_convert v3 = (t3, Outcome.ok x3) →
    tc4.try_convert v4 = (t4, Outcome.ok x4) →
    tc5.try_convert v5 = (t5, Outcome.ok x5) →
    tc6.try_convert v6 = (t6, Outcome.ok x6) →
    tc7.try_convert v7 = (t7, Outcome.ok x7) →
    tc8.try_convert v8 = (t8, Outcome.ok x8) →
    tc9.try_convert v9 = (t9, Outcome.ok x9) →
    tc10.try_convert v10 = (t10, Outcome.ok x10) →
    Method10.call_handle_error tcS tc1 tc2 tc3 tc4 tc5 tc6 tc7 tc8 tc9 tc10 (RV.ofValue iv)
      (Method10.new (fun s0 y1 y2 y3 y4 y5 y6 y7 y8 y9 y10 => ([Ev.invoke [s0, y1, y2, y3, y4, y5, y6, y7, y8, y9, y10]], PanicOr.ok r)))
      vs v1 v2 v3 v4 v5 v6 v7 v8 v9 v10
     = (ts ++ t1 ++ t2 ++ t3 ++ t4 ++ t5 ++ t6 ++ t7 ++ t8 ++ t9 ++ t10 ++ [Ev.invoke [s, x1, x2, x3, x4, x5, x6, x7, x8, x9, x10]],
        BRes.returned (iv.into_value r))) ∧
  (∀ (tcS : TryConv Value) (tc1 : TryConv Value) (tc2 : TryConv Value) (tc3 : TryConv Value) (tc4 : TryConv Value) (tc5 : TryConv Value) (tc6 : TryConv Value) (tc7 : TryConv Value) (tc8 : TryConv Value) (tc9 : TryConv Value) (tc10 : TryConv Value) (tc11 : TryConv Value) (iv : IV Value)
      (r vs v1 v2 v3 v4 v5 v6 v7 v8 v9 v10 v11 s x1 x2 x3 x4 x5 x6 x7 x8 x9 x10 x11 : Value) (ts t1 t2 t3 t4 t5 t6 t7 t8 t9 t10 t11 : List Ev),
    tcS.try_convert vs = (ts, Outcome.ok s) →
    tc1.try_convert v1 = (t1, Outcome.ok x1) →
    tc2.try_convert v2 = (t2, Outcome.ok x2) →
    tc3.try_convert v3 = (t3, Outcome.ok x3) →
    tc4.try_convert v4 = (t4, Outcome.ok x4) →
    tc5.try_convert v5 = (t5, Outcome.ok x5) →
    tc6.try_convert v6 = (t6, Outcome.ok x6) →
    tc7.try_convert v7 = (t7, Outcome.ok x7) →
    tc8.try_convert v8 = (t8, Outcome.ok x8) →
    tc9.try_convert v9 = (t9, Outcome.ok x9) →
    tc10.try_convert v10 = (t10, Outcome.ok x10) →
    tc11.try_convert v11 = (t11, Outcome.ok x11) →
    Method11.call_handle_error tcS tc1 tc2 tc3 tc4 tc5 tc6 tc7 tc8 tc9 tc10 tc11 (RV.ofValue iv)
      (Method11.new (fun s0 y1 y2 y3 y4 y5 y6 y7 y8 y9 y10 y11 => ([Ev.invoke [s0, y1, y2, y3, y4, y5, y6, y7, y8, y9, y10, y11]], PanicOr.ok r)))
      vs v1 v2 v3 v4 v5 v6 v7 v8 v9 v10 v11
     = (ts ++ t1 ++ t2 ++ t3 ++ t4 ++ t5 ++ t6 ++ t7 ++ t8 ++ t9 ++ t10 ++ t11 ++ [Ev.invoke [s, x1, x2, x3, x4, x5, x6, x7, x8, x9, x10, x11]],
        BRes.returned (iv.into_value r))) ∧
  (∀ (tcS : TryConv Value) (tc1 : TryConv Value) (tc2 : TryConv Value) (tc3 : TryConv Value) (tc4 : TryConv Value) (tc5 : TryConv Value) (tc6 : TryConv Value) (tc7 : TryConv Value) (tc8 : TryConv Value) (tc9 : TryConv Value) (tc10 : TryConv Value) (tc11 : TryConv Value) (tc12 : TryConv Value) (iv : IV Value)
      (r vs v1 v2 v3 v4 v5 v6 v7 v8 v9 v10 v11 v12 s x1 x2 x3 x4 x5 x6 x7 x8 x9 x10 x11 x12 : Value) (ts t1 t2 t3 t4 t5 t6 t7 t8 t9 t10 t11 t12 : List Ev),
    tcS.try_convert vs = (ts, Outcome.ok s) →
    tc1.try_convert v1 = (t1, Outcome.ok x1) →
    tc2.try_convert v2 = (t2, Outcome.ok x2) →
    tc3.try_convert v3 = (t3, Outcome.ok x3) →
    tc4.try_convert v4 = (t4, Outcome.ok x4) →
    tc5.try_convert v5 = (t5, Outcome.ok x5) →
    tc6.try_convert v6 = (t6, Outcome.ok x6) →
    tc7.try_convert v7 = (t7, Outcome.ok x7) →
    tc8.try_convert v8 = (t8, Outcome.ok x8) →
    tc9.try_convert v9 = (t9, Outcome.ok x9) →
    tc10.try_convert v10 = (t10, Outcome.ok x10) →
    tc11.try_convert v11 = (t11, Outcome.ok x11) →
    tc12.try_convert v12 = (t12, Outcome.ok x12) →
    Method12.call_handle_error tcS tc1 tc2 tc3 tc4 tc5 tc6 tc7 tc8 tc9 tc10 tc11 tc12 (RV.ofValue iv)
      (Method12.new (fun s0 y1 y2 y3 y4 y5 y6 y7 y8 y9 y10 y11 y12 => ([Ev.invoke [s0, y1, y2, y3, y4, y5, y6, y7, y8, y9, y10, y11, y12]], PanicOr.ok r)))
      vs v1 v2 v3 v4 v5 v6 v7 v8 v9 v10 v11 v12
     = (ts ++ t1 ++ t2 ++ t3 ++ t4 ++ t5 ++ t6 ++ t7 ++ t8 ++ t9 ++ t10 ++ t11 ++ t12 ++ [Ev.invoke [s, x1, x2, x3, x4, x5, x6, x7, x8, x9, x10, x11, x12]],
        BRes.returned (iv.into_value r))) ∧
  (∀ (tcS : TryConv Value) (tc1 : TryConv Value) (tc2 : TryConv Value) (tc3 : TryConv Value) (tc4 : TryConv Value) (tc5 : TryConv Value) (tc6 : TryConv Value) (tc7 : TryConv Value) (tc8 : TryConv Value) (tc9 : TryConv Value) (tc10 : TryConv Value) (tc11 : TryConv Value) (tc12 : TryConv Value) (tc13 : TryConv Value) (iv : IV Value)
      (r vs v1 v2 v3 v4 v5 v6 v7 v8 v9 v10 v11 v12 v13 s x1 x2 x3 x4 x5 x6 x7 x8 x9 x10 x11 x12 x13 : Value) (ts t1 t2 t3 t4 t5 t6 t7 t8 t9 t10 t11 t12 t13 : List Ev),
    tcS.try_convert vs = (ts, Outcome.ok s) →
    tc1.try_convert v1 = (t1, Outcome.ok x1) →
    tc2.try_convert v2 = (t2, Outcome.ok x2) →
    tc3.try_convert v3 = (t3, Outcome.ok x3) →
    tc4.try_convert v4 = (t4, Outcome.ok x4) →
    tc5.try_convert v5 = (t5, Outcome.ok x5) →
    tc6.try_convert v6 = (t6, Outcome.ok x6) →
    tc7.try_convert v7 = (t7, Outcome.ok x7) →
    tc8.try_convert v8 = (t8, Outcome.ok x8) →
    tc9.try_convert v9 = (t9, Outcome.ok x9) →
    tc10.try_convert v10 = (t10, Outcome.ok x10) →
    tc11.try_convert v11 = (t11, Outcome.ok x11) →
    tc12.try_convert v12 = (t12, Outcome.ok x12) →
    tc13.try_convert v13 = (t13, Outcome.ok x13) →
    Method13.call_handle_error tcS tc1 tc2 tc3 tc4 tc5 tc6 tc7 tc8 tc9 tc10 tc11 tc12 tc13 (RV.ofValue iv)
      (Method13.new (fun s0 y1 y2 y3 y4 y5 y6 y7 y8 y9 y10 y11 y12 y13 => ([Ev.invoke [s0, y1, y2, y3, y4, y5, y6, y7, y8, y9, y10, y11, y12, y13]], PanicOr.ok r)))
      vs v1 v2 v3 v4 v5 v6 v7 v8 v9 v10 v11 v12 v13
     = (ts ++ t1 ++ t2 ++ t3 ++ t4 ++ t5 ++ t6 ++ t7 ++ t8 ++ t9 ++ t10 ++ t11 ++ t12 ++ t13 ++ [Ev.invoke [s, x1, x2, x3, x4, x5, x6, x7, x8, x9, x10, x11, x12, x13]],
        BRes.returned (iv.into_value r))) ∧
  (∀ (tcS : TryConv Value) (tc1 : TryConv Value) (tc2 : TryConv Value) (tc3 : TryConv Value) (tc4 : TryConv Value) (tc5 : TryConv Value) (tc6 : TryConv Value) (tc7 : TryConv Value) (tc8 : TryConv Value) (tc9 : TryConv Value) (tc10 : TryConv Value) (tc11 : TryConv Value) (tc12 : TryConv Value) (tc13 : TryConv Value) (tc14 : TryConv Value) (iv : IV Value)
      (r vs v1 v2 v3 v4 v5 v6 v7 v8 v9 v10 v11 v12 v13 v14 s x1 x2 x3 x4 x5 x6 x7 x8 x9 x10 x11 x12 x13 x14 : Value) (ts t1 t2 t3 t4 t5 t6 t7 t8 t9 t10 t11 t12 t13 t14 : List Ev),
    tcS.try_convert vs = (ts, Outcome.ok s) →
    tc1.try_convert v1 = (t1, Outcome.ok x1) →
    tc2.try_convert v2 = (t2, Outcome.ok x2) →
    tc3.try_convert v3 = (t3, Outcome.ok x3) →
    tc4.try_convert v4 = (t4, Outcome.ok x4) →
    tc5.try_convert v5 = (t5, Outcome.ok x5) →
    tc6.try_convert v6 = (t6, Outcome.ok x6) →
    tc7.try_convert v7 = (t7, Outcome.ok x7) →
    tc8.try_convert v8 = (t8, Outcome.ok x8) →
    tc9.try_convert v9 = (t9, Outcome.ok x9) →
    tc10.try_convert v10 = (t10, Outcome.ok x10) →
    tc11.try_convert v11 = (t11, Outcome.ok x11) →
    tc12.try_convert v12 = (t12, Outcome.ok x12) →
    tc13.try_convert v13 = (t13, Outcome.ok x13) →
    tc14.try_convert v14 = (t14, Outcome.ok x14) →
    Method14.call_handle_error tcS tc1 tc2 tc3 tc4 tc5 tc6 tc7 tc8 tc9 tc10 tc11 tc12 tc13 tc14 (RV.ofValue iv)
      (Method14.new (fun s0 y1 y2 y3 y4 y5 y6 y7 y8 y9 y10 y11 y12 y13 y14 => ([Ev.invoke [s0, y1, y2, y3, y4, y5, y6, y7, y8, y9, y10, y11, y12, y13, y14]], PanicOr.ok r)))
      vs v1 v2 v3 v4 v5 v6 v7 v8 v9 v10 v11 v12 v13 v14
     = (ts ++ t1 ++ t2 ++ t3 ++ t4 ++ t5 ++ t6 ++ t7 ++ t8 ++ t9 ++ t10 ++ t11 ++ t12 ++ t13 ++ t14 ++ [Ev.invoke [s, x1, x2, x3, x4, x5, x6, x7, x8, x9, x10, x11, x12, x13, x14]],
        BRes.returned (iv.into_value r))) ∧
  (∀ (tcS : TryConv Value) (tc1 : TryConv Value) (tc2 : TryConv Value) (tc3 : TryConv Value) (tc4 : TryConv Value) (tc5 : TryConv Value) (tc6 : TryConv Value) (tc7 : TryConv Value) (tc8 : TryConv Value) (tc9 : TryConv Value) (tc10 : TryConv Value) (tc11 : TryConv Value) (tc12 : TryConv Value) (tc13 : TryConv Value) (tc14 : TryConv Value) (tc15 : TryConv Value) (iv : IV Value)
      (r vs v1 v2 v3 v4 v5 v6 v7 v8 v9 v10 v11 v12 v13 v14 v15 s x1 x2 x3 x4 x5 x6 x7 x8 x9 x10 x11 x12 x13 x14 x15 : Value) (ts t1 t2 t3 t4 t5 t6 t7 t8 t9 t10 t11 t12 t13 t14 t15 : List Ev),
    tcS.try_convert vs = (ts, Outcome.ok s) →
    tc1.try_convert v1 = (t1, Outcome.ok x1) →
    tc2.try_convert v2 = (t2, Outcome.ok x2) →
    tc3.try_convert v3 = (t3, Outcome.ok x3) →
    tc4.try_convert v4 = (t4, Outcome.ok x4) →
    tc5.try_convert v5 = (t5, Outcome.ok x5) →
    tc6.try_convert v6 = (t6, Outcome.ok x6) →
    tc7.try_convert v7 = (t7, Outcome.ok x7) →
    tc8.try_convert v8 = (t8, Outcome.ok x8) →
    tc9.try_convert v9 = (t9, Outcome.ok x9) →
    tc10.try_convert v10 = (t10, Outcome.ok x10) →
    tc11.try_convert v11 = (t11, Outcome.ok x11) →
    tc12.try_convert v12 = (t12, Outcome.ok x12) →
    tc13.try_convert v13 = (t13, Outcome.ok x13) →
    tc14.try_convert v14 = (t14, Outcome.ok x14) →
    tc15.try_convert v15 = (t15, Outcome.ok x15) →
    Method15.call_handle_error tcS tc1 tc2 tc3 tc4 tc5 tc6 tc7 tc8 tc9 tc10 tc11 tc12 tc13 tc14 tc15 (RV.ofValue iv)
      (Method15.new (fun s0 y1 y2 y3 y4 y5 y6 y7 y8 y9 y10 y11 y12 y13 y14 y15 => ([Ev.invoke [s0, y1, y2, y3, y4, y5, y6, y7, y8, y9, y10, y11, y12, y13, y14, y15]], PanicOr.ok r)))
      vs v1 v2 v3 v4 v5 v6 v7 v8 v9 v10 v11 v12 v13 v14 v15
     = (ts ++ t1 ++ t2 ++ t3 ++ t4 ++ t5 ++ t6 ++ t7 ++ t8 ++ t9 ++ t10 ++ t11 ++ t12 ++ t13 ++ t14 ++ t15 ++ [Ev.invoke [s, x1, x2, x3, x4, x5, x6, x7, x8, x9, x10, x11, x12, x13, x14, x15]],
        BRes.returned (iv.into_value r))) ∧
  (∀ (tcS : TryConv Value) (tc1 : TryConv Value) (tc2 : TryConv Value) (tc3 : TryConv Value) (tc4 : TryConv Value) (tc5 : TryConv Value) (tc6 : TryConv Value) (tc7 : TryConv Value) (tc8 : TryConv Value) (tc9 : TryConv Value) (tc10 : TryConv Value) (tc11 : TryConv Value) (tc12 : TryConv Value) (tc13 : TryConv Value) (tc14 : TryConv Value) (tc15 : TryConv Value) (tc16 : TryConv Value) (iv : IV Value)
      (r vs v1 v2 v3 v4 v5 v6 v7 v8 v9 v10 v11 v12 v13 v14 v15 v16 s x1 x2 x3 x4 x5 x6 x7 x8 x9 x10 x11 x12 x13 x14 x15 x16 : Value) (ts t1 t2 t3 t4 t5 t6 t7 t8 t9 t10 t11 t12 t13 t14 t15 t16 : List Ev),
    tcS.try_convert vs = (ts, Outcome.ok s) →
    tc1.try_convert v1 = (t1, Outcome.ok x1) →
    tc2.try_convert v2 = (t2, Outcome.ok x2) →
    tc3.try_convert v3 = (t3, Outcome.ok x3) →
    tc4.try_convert v4 = (t4, Outcome.ok x4) →
    tc5.try_convert v5 = (t5, Outcome.ok x5) →
    tc6.try_convert v6 = (t6, Outcome.ok x6) →
    tc7.try_convert v7 = (t7, Outcome.ok x7) →
    tc8.try_convert v8 = (t8, Outcome.ok x8) →
    tc9.try_convert v9 = (t9, Outcome.ok x9) →
    tc10.try_convert v10 = (t10, Outcome.ok x10) →
    tc11.try_convert v11 = (t11, Outcome.ok x11) →
    tc12.try_convert v12 = (t12, Outcome.ok x12) →
    tc13.try_convert v13 = (t13, Outcome.ok x13) →
    tc14.try_convert v14 = (t14, Outcome.ok x14) →
    tc15.try_convert v15 = (t15, Outcome.ok x15) →
    tc16.try_convert v16 = (t16, Outcome.ok x16) →
    Method16.call_handle_error tcS tc1 tc2 tc3 tc4 tc5 tc6 tc7 tc8 tc9 tc10 tc11 tc12 tc13 tc14 tc15 tc16 (RV.ofValue iv)
      (Method16.new (fun s0 y1 y2 y3 y4 y5 y6 y7 y8 y9 y10 y11 y12 y13 y14 y15 y16 => ([Ev.invoke [s0, y1, y2, y3, y4, y5, y6, y7, y8, y9, y10, y11, y12, y13, y14, y15, y16]], PanicOr.ok r)))
      vs v1 v2 v3 v4 v5 v6 v7 v8 v9 v10 v11 v12 v13 v14 v15 v16
     = (ts ++ t1 ++ t2 ++ t3 ++ t4 ++ t5 ++ t6 ++ t7 ++ t8 ++ t9 ++ t10 ++ t11 ++ t12 ++ t13 ++ t14 ++ t15 ++ t16 ++ [Ev.invoke [s, x1, x2, x3, x4, x5, x6, x7, x8, x9, x10, x11, x12, x13, x14, x15, x16]],
        BRes.returned (iv.into_value r))) ∧
  (∀ (iv : IV Value)
      (r : Value),
    Function0.call_handle_error (RV.ofValue iv)
      (Function0.new (fun _ => ([Ev.invoke []], PanicOr.ok r)))
     = ([Ev.invoke []],
        BRes.returned (iv.into_value r))) ∧
  (∀ (tc1 : TryConv Value) (iv : IV Value)
      (r v1 x1 : Value) (t1 : List Ev),
    tc1.try_convert v1 = (t1, Outcome.ok x1) →
    Function1.call_handle_error tc1 (RV.ofValue iv)
      (Function1.new (fun y1 => ([Ev.invoke [y1]], PanicOr.ok r))) v1
     = (t1 ++ [Ev.invoke [x1]],
        BRes.returned (iv.into_value r))) ∧
  (∀ (tc1 : TryConv Value) (tc2 : TryConv Value) (iv : IV Value)
      (r v1 v2 x1 x2 : Value) (t1 t2 : List Ev),
    tc1.try_convert v1 = (t1, Outcome.ok x1) →
    tc2.try_convert v2 = (t2, Outcome.ok x2) →
    Function2.call_handle_error tc1 tc2 (RV.ofValue iv)
      (Function2.new (fun y1 y2 => ([Ev.invoke [y1, y2]], PanicOr.ok r))) v1 v2
     = (t1 ++ t2 ++ [Ev.invoke [x1, x2]],
        BRes.returned (iv.into_value r))) ∧
  (∀ (tc1 : TryConv Value) (tc2 : TryConv Value) (tc3 : TryConv Value) (iv : IV Value)
      (r v1 v2 v3 x1 x2 x3 : Value) (t1 t2 t3 : List Ev),
    tc1.try_convert v1 = (t1, Outcome.ok x1) →
    tc2.try_convert v2 = (t2, Outcome.ok x2) →
    tc3.try_convert v3 = (t3, Outcome.ok x3) →
    Function3.call_handle_error tc1 tc2 tc3 (RV.ofValue iv)
      (Function3.new (fun y1 y2 y3 => ([Ev.invoke [y1, y2, y3]], PanicOr.ok r))) v1 v2 v3
     = (t1 ++ t2 ++ t3 ++ [Ev.invoke [x1, x2, x3]],
        BRes.returned (iv.into_value r))) ∧
  (∀ (tc1 : TryConv Value) (tc2 : TryConv Value) (tc3 : TryConv Value) (tc4 : TryConv Value) (iv : IV Value)
      (r v1 v2 v3 v4 x1 x2 x3 x4 : Value) (t1 t2 t3 t4 : List Ev),
    tc1.try_convert v1 = (t1, Outcome.ok x1) →
    tc2.try_convert v2 = (t2, Outcome.ok x2) →
    tc3.try_convert v3 = (t3, Outcome.ok x3) →
    tc4.try_convert v4 = (t4, Outcome.ok x4) →
    Function4.call_handle_error tc1 tc2 tc3 tc4 (RV.ofValue iv)
      (Function4.new (fun y1 y2 y3 y4 => ([Ev.invoke [y1, y2, y3, y4]], PanicOr.ok r))) v1 v2 v3 v4
     = (t1 ++ t2 ++ t3 ++ t4 ++ [Ev.invoke [x1, x2, x3, x4]],
        BRes.returned (iv.into_value r))) ∧
  (∀ (tc1 : TryConv Value) (tc2 : TryConv Value) (tc3 : TryConv Value) (tc4 : TryConv Value) (tc5 : TryConv Value) (iv : IV Value)
      (r v1 v2 v3 v4 v5 x1 x2 x3 x4 x5 : Value) (t1 t2 t3 t4 t5 : List Ev),
    tc1.try_convert v1 = (t1, Outcome.ok x1) →
    tc2.try_convert v2 = (t2, Outcome.ok x2) →
    tc3.try_convert v3 = (t3, Outcome.ok x3) →
    tc4.try_convert v4 = (t4, Outcome.ok x4) →
    tc5.try_convert v5 = (t5, Outcome.ok x5) →
    Function5.call_handle_error tc1 tc2 tc3 tc4 tc5 (RV.ofValue iv)
      (Function5.new (fun y1 y2 y3 y4 y5 => ([Ev.invoke [y1, y2, y3, y4, y5]], PanicOr.ok r))) v1 v2 v3 v4 v5
     = (t1 ++ t2 ++ t3 ++ t4 ++ t5 ++ [Ev.invoke [x1, x2, x3, x4, x5]],
        BRes.returned (iv.into_value r))) ∧
  (∀ (tc1 : TryConv Value) (tc2 : TryConv Value) (tc3 : TryConv Value) (tc4 : TryConv Value) (tc5 : TryConv Value) (tc6 : TryConv Value) (iv : IV Value)
      (r v1 v2 v3 v4 v5 v6 x1 x2 x3 x4 x5 x6 : Value) (t1 t2 t3 t4 t5 t6 : List Ev),
    tc1.try_convert v1 = (t1, Outcome.ok x1) →
    tc2.try_convert v2 = (t2, Outcome.ok x2) →
    tc3.try_convert v3 = (t3, Outcome.ok x3) →
    tc4.try_convert v4 = (t4, Outcome.ok x4) →
    tc5.try_convert v5 = (t5, Outcome.ok x5) →
    tc6.try_convert v6 = (t6, Outcome.ok x6) →
    Function6.call_handle_error tc1 tc2 tc3 tc4 tc5 tc6 (RV.ofValue iv)
      (Function6.new (fun y1 y2 y3 y4 y5 y6 => ([Ev.invoke [y1, y2, y3, y4, y5, y6]], PanicOr.ok r))) v1 v2 v3 v4 v5 v6
     = (t1 ++ t2 ++ t3 ++ t4 ++ t5 ++ t6 ++ [Ev.invoke [x1, x2, x3, x4, x5, x6]],
        BRes.returned (iv.into_value r))) ∧
  (∀ (tc1 : TryConv Value) (tc2 : TryConv Value) (tc3 : TryConv Value) (tc4 : TryConv Value) (tc5 : TryConv Value) (tc6 : TryConv Value) (tc7 : TryConv Value) (iv : IV Value)
      (r v1 v2 v3 v4 v5 v6 v7 x1 x2 x3 x4 x5 x6 x7 : Value) (t1 t2 t3 t4 t5 t6 t7 : List Ev),
    tc1.try_convert v1 = (t1, Outcome.ok x1) →
    tc2.try_convert v2 = (t2, Outcome.ok x2) →
    tc3.try_convert v3 = (t3, Outcome.ok x3) →
    tc4.try_convert v4 = (t4, Outcome.ok x4) →
    tc5.try_convert v5 = (t5, Outcome.ok x5) →
    tc6.try_convert v6 = (t6, Outcome.ok x6) →
    tc7.try_convert v7 = (t7, Outcome.ok x7) →
    Function7.call_handle_error tc1 tc2 tc3 tc4 tc5 tc6 tc7 (RV.ofValue iv)
      (Function7.new (fun y1 y2 y3 y4 y5 y6 y7 => ([Ev.invoke [y1, y2, y3, y4, y5, y6, y7]], PanicOr.ok r))) v1 v2 v3 v4 v5 v6 v7
     = (t1 ++ t2 ++ t3 ++ t4 ++ t5 ++ t6 ++ t7 ++ [Ev.invoke [x1, x2, x3, x4, x5, x6, x7]],
        BRes.returned (iv.into_value r))) ∧
  (∀ (tc1 : TryConv Value) (tc2 : TryConv Value) (tc3 : TryConv Value) (tc4 : TryConv Value) (tc5 : TryConv Value) (tc6 : TryConv Value) (tc7 : TryConv Value) (tc8 : TryConv Value) (iv : IV Value)
      (r v1 v2 v3 v4 v5 v6 v7 v8 x1 x2 x3 x4 x5 x6 x7 x8 : Value) (t1 t2 t3 t4 t5 t6 t7 t8 : List Ev),
    tc1.try_convert v1 = (t1, Outcome.ok x1) →
    tc2.try_convert v2 = (t2, Outcome.ok x2) →
    tc3.try_convert v3 = (t3, Outcome.ok x3) →
    tc4.try_convert v4 = (t4, Outcome.ok x4) →
    tc5.try_convert v5 = (t5, Outcome.ok x5) →
    tc6.try_convert v6 = (t6, Outcome.ok x6) →
    tc7.try_convert v7 = (t7, Outcome.ok x7) →
    tc8.try_convert v8 = (t8, Outcome.ok x8) →
    Function8.call_handle_error tc1 tc2 tc3 tc4 tc5 tc6 tc7 tc8 (RV.ofValue iv)
      (Function8.new (fun y1 y2 y3 y4 y5 y6 y7 y8 => ([Ev.invoke [y1, y2, y3, y4, y5, y6, y7, y8]], PanicOr.ok r))) v1 v2 v3 v4 v5 v6 v7 v8
     = (t1 ++ t2 ++ t3 ++ t4 ++ t5 ++ t6 ++ t7 ++ t8 ++ [Ev.invoke [x1, x2, x3, x4, x5, x6, x7, x8]],
        BRes.returned (iv.into_value r))) ∧
  (∀ (tc1 : TryConv Value) (tc2 : TryConv Value) (tc3 : TryConv Value) (tc4 : TryConv Value) (tc5 : TryConv Value) (tc6 : TryConv Value) (tc7 : TryConv Value) (tc8 : TryConv Value) (tc9 : TryConv Value) (iv : IV Value)
      (r v1 v2 v3 v4 v5 v6 v7 v8 v9 x1 x2 x3 x4 x5 x6 x7 x8 x9 : Value) (t1 t2 t3 t4 t5 t6 t7 t8 t9 : List Ev),
    tc1.try_convert v1 = (t1, Outcome.ok x1) →
    tc2.try_convert v2 = (t2, Outcome.ok x2) →
    tc3.try_convert v3 = (t3, Outcome.ok x3) →
    tc4.try_convert v4 = (t4, Outcome.ok x4) →
    tc5.try_convert v5 = (t5, Outcome.ok x5) →
    tc6.try_convert v6 = (t6, Outcome.ok x6) →
    tc7.try_convert v7 = (t7, Outcome.ok x7) →
    tc8.try_convert v8 = (t8, Outcome.ok x8) →
    tc9.try_convert v9 = (t9, Outcome.ok x9) →
    Function9.call_handle_error tc1 tc2 tc3 tc4 tc5 tc6 tc7 tc8 tc9 (RV.ofValue iv)
      (Function9.new (fun y1 y2 y3 y4 y5 y6 y7 y8 y9 => ([Ev.invoke [y1, y2, y3, y4, y5, y6, y7, y8, y9]], PanicOr.ok r))) v1 v2 v3 v4 v5 v6 v7 v8 v9
     = (t1 ++ t2 ++ t3 ++ t4 ++ t5 ++ t6 ++ t7 ++ t8 ++ t9 ++ [Ev.invoke [x1, x2, x3, x4, x5, x6, x7, x8, x9]],
        BRes.returned (iv.into_value r))) ∧
  (∀ (tc1 : TryConv Value) (tc2 : TryConv Value) (tc3 : TryConv Value) (tc4 : TryConv Value) (tc5 : TryConv Value) (tc6 : TryConv Value) (tc7 : TryConv Value) (tc8 : TryConv Value) (tc9 : TryConv Value) (tc10 : TryConv Value) (iv : IV Value)
      (r v1 v2 v3 v4 v5 v6 v7 v8 v9 v10 x1 x2 x3 x4 x5 x6 x7 x8 x9 x10 : Value) (t1 t2 t3 t4 t5 t6 t7 t8 t9 t10 : List Ev),
    tc1.try_convert v1 = (t1, Outcome.ok x1) →
    tc2.try_convert v2 = (t2, Outcome.ok x2) →
    tc3.try_convert v3 = (t3, Outcome.ok x3) →
    tc4.try_convert v4 = (t4, Outcome.ok x4) →
    tc5.try_convert v5 = (t5, Outcome.ok x5) →
    tc6.try_convert v6 = (t6, Outcome.ok x6) →
    tc7.try_convert v7 = (t7, Outcome.ok x7) →
    tc8.try_convert v8 = (t8, Outcome.ok x8) →
    tc9.try_convert v9 = (t9, Outcome.ok x9) →
    tc10.try_convert v10 = (t10, Outcome.ok x10) →
    Function10.call_handle_error tc1 tc2 tc3 tc4 tc5 tc6 tc7 tc8 tc9 tc10 (RV.ofValue iv)
      (Function10.new (fun y1 y2 y3 y4 y5 y6 y7 y8 y9 y10 => ([Ev.invoke [y1, y2, y3, y4, y5, y6, y7, y8, y9, y10]], PanicOr.ok r))) v1 v2 v3 v4 v5 v6 v7 v8 v9 v10
     = (t1 ++ t2 ++ t3 ++ t4 ++ t5 ++ t6 ++ t7 ++ t8 ++ t9 ++ t10 ++ [Ev.invoke [x1, x2, x3, x4, x5, x6, x7, x8, x9, x10]],
        BRes.returned (iv.into_value r))) ∧
  (∀ (tc1 : TryConv Value) (tc2 : TryConv Value) (tc3 : TryConv Value) (tc4 : TryConv Value) (tc5 : TryConv Value) (tc6 : TryConv Value) (tc7 : TryConv Value) (tc8 : TryConv Value) (tc9 : TryConv Value) (tc10 : TryConv Value) (tc11 : TryConv Value) (iv : IV Value)
      (r v1 v2 v3 v4 v5 v6 v7 v8 v9 v10 v11 x1 x2 x3 x4 x5 x6 x7 x8 x9 x10 x11 : Value) (t1 t2 t3 t4 t5 t6 t7 t8 t9 t10 t11 : List Ev),
    tc1.try_convert v1 = (t1, Outcome.ok x1) →
    tc2.try_convert v2 = (t2, Outcome.ok x2) →
    tc3.try_convert v3 = (t3, Outcome.ok x3) →
    tc4.try_convert v4 = (t4, Outcome.ok x4) →
    tc5.try_convert v5 = (t5, Outcome.ok x5) →
    tc6.try_convert v6 = (t6, Outcome.ok x6) →
    tc7.try_convert v7 = (t7, Outcome.ok x7) →
    tc8.try_convert v8 = (t8, Outcome.ok x8) →
    tc9.try_convert v9 = (t9, Outcome.ok x9) →
    tc10.try_convert v10 = (t10, Outcome.ok x10) →
    tc11.try_convert v11 = (t11, Outcome.ok x11) →
    Function11.call_handle_error tc1 tc2 tc3 tc4 tc5 tc6 tc7 tc8 tc9 tc10 tc11 (RV.ofValue iv)
      (Function11.new (fun y1 y2 y3 y4 y5 y6 y7 y8 y9 y10 y11 => ([Ev.invoke [y1, y2, y3, y4, y5, y6, y7, y8, y9, y10, y11]], PanicOr.ok r))) v1 v2 v3 v4 v5 v6 v7 v8 v9 v10 v11
     = (t1 ++ t2 ++ t3 ++ t4 ++ t5 ++ t6 ++ t7 ++ t8 ++ t9 ++ t10 ++ t11 ++ [Ev.invoke [x1, x2, x3, x4, x5, x6, x7, x8, x9, x10, x11]],
        BRes.returned (iv.into_value r))) ∧
  (∀ (tc1 : TryConv Value) (tc2 : TryConv Value) (tc3 : TryConv Value) (tc4 : TryConv Value) (tc5 : TryConv Value) (tc6 : TryConv Value) (tc7 : TryConv Value) (tc8 : TryConv Value) (tc9 : TryConv Value) (tc10 : TryConv Value) (tc11 : TryConv Value) (tc12 : TryConv Value) (iv : IV Value)
      (r v1 v2 v3 v4 v5 v6 v7 v8 v9 v10 v11 v12 x1 x2 x3 x4 x5 x6 x7 x8 x9 x10 x11 x12 : Value) (t1 t2 t3 t4 t5 t6 t7 t8 t9 t10 t11 t12 : List Ev),
    tc1.try_convert v1 = (t1, Outcome.ok x1) →
    tc2.try_convert v2 = (t2, Outcome.ok x2) →
    tc3.try_convert v3 = (t3, Outcome.ok x3) →
    tc4.try_convert v4 = (t4, Outcome.ok x4) →
    tc5.try_convert v5 = (t5, Outcome.ok x5) →
    tc6.try_convert v6 = (t6, Outcome.ok x6) →
    tc7.try_convert v7 = (t7, Outcome.ok x7) →
    tc8.try_convert v8 = (t8, Outcome.ok x8) →
    tc9.try_convert v9 = (t9, Outcome.ok x9) →
    tc10.try_convert v10 = (t10, Outcome.ok x10) →
    tc11.try_convert v11 = (t11, Outcome.ok x11) →
    tc12.try_convert v12 = (t12, Outcome.ok x12) →
    Function12.call_handle_error tc1 tc2 tc3 tc4 tc5 tc6 tc7 tc8 tc9 tc10 tc11 tc12 (RV.ofValue iv)
      (Function12.new (fun y1 y2 y3 y4 y5 y6 y7 y8 y9 y10 y11 y12 => ([Ev.invoke [y1, y2, y3, y4, y5, y6, y7, y8, y9, y10, y11, y12]], PanicOr.ok r))) v1 v2 v3 v4 v5 v6 v7 v8 v9 v10 v11 v12
     = (t1 ++ t2 ++ t3 ++ t4 ++ t5 ++ t6 ++ t7 ++ t8 ++ t9 ++ t10 ++ t11 ++ t12 ++ [Ev.invoke [x1, x2, x3, x4, x5, x6, x7, x8, x9, x10, x11, x12]],
        BRes.returned (iv.into_value r))) ∧
  (∀ (tc1 : TryConv Value) (tc2 : TryConv Value) (tc3 : TryConv Value) (tc4 : TryConv Value) (tc5 : TryConv Value) (tc6 : TryConv Value) (tc7 : TryConv Value) (tc8 : TryConv Value) (tc9 : TryConv Value) (tc10 : TryConv Value) (tc11 : TryConv Value) (tc12 : TryConv Value) (tc13 : TryConv Value) (iv : IV Value)
      (r v1 v2 v3 v4 v5 v6 v7 v8 v9 v10 v11 v12 v13 x1 x2 x3 x4 x5 x6 x7 x8 x9 x10 x11 x12 x13 : Value) (t1 t2 t3 t4 t5 t6 t7 t8 t9 t10 t11 t12 t13 : List Ev),
    tc1.try_convert v1 = (t1, Outcome.ok x1) →
    tc2.try_convert v2 = (t2, Outcome.ok x2) →
    tc3.try_convert v3 = (t3, Outcome.ok x3) →
    tc4.try_convert v4 = (t4, Outcome.ok x4) →
    tc5.try_convert v5 = (t5, Outcome.ok x5) →
    tc6.try_convert v6 = (t6, Outcome.ok x6) →
    tc7.try_convert v7 = (t7, Outcome.ok x7) →
    tc8.try_convert v8 = (t8, Outcome.ok x8) →
    tc9.try_convert v9 = (t9, Outcome.ok x9) →
    tc10.try_convert v10 = (t10, Outcome.ok x10) →
    tc11.try_convert v11 = (t11, Outcome.ok x11) →
    tc12.try_convert v12 = (t12, Outcome.ok x12) →
    tc13.try_convert v13 = (t13, Outcome.ok x13) →
    Function13.call_handle_error tc1 tc2 tc3 tc4 tc5 tc6 tc7 tc8 tc9 tc10 tc11 tc12 tc13 (RV.ofValue iv)
      (Function13.new (fun y1 y2 y3 y4 y5 y6 y7 y8 y9 y10 y11 y12 y13 => ([Ev.invoke [y1, y2, y3, y4, y5, y6, y7, y8, y9, y10, y11, y12, y13]], PanicOr.ok r))) v1 v2 v3 v4 v5 v6 v7 v8 v9 v10 v11 v12 v13
     = (t1 ++ t2 ++ t3 ++ t4 ++ t5 ++ t6 ++ t7 ++ t8 ++ t9 ++ t10 ++ t11 ++ t12 ++ t13 ++ [Ev.invoke [x1, x2, x3, x4, x5, x6, x7, x8, x9, x10, x11, x12, x13]],
        BRes.returned (iv.into_value r))) ∧
  (∀ (tc1 : TryConv Value) (tc2 : TryConv Value) (tc3 : TryConv Value) (tc4 : TryConv Value) (tc5 : TryConv Value) (tc6 : TryConv Value) (tc7 : TryConv Value) (tc8 : TryConv Value) (tc9 : TryConv Value) (tc10 : TryConv Value) (tc11 : TryConv Value) (tc12 : TryConv Value) (tc13 : TryConv Value) (tc14 : TryConv Value) (iv : IV Value)
      (r v1 v2 v3 v4 v5 v6 v7 v8 v9 v10 v11 v12 v13 v14 x1 x2 x3 x4 x5 x6 x7 x8 x9 x10 x11 x12 x13 x14 : Value) (t1 t2 t3 t4 t5 t6 t7 t8 t9 t10 t11 t12 t13 t14 : List Ev),
    tc1.try_convert v1 = (t1, Outcome.ok x1) →
    tc2.try_convert v2 = (t2, Outcome.ok x2) →
    tc3.try_convert v3 = (t3, Outcome.ok x3) →
    tc4.try_convert v4 = (t4, Outcome.ok x4) →
    tc5.try_convert v5 = (t5, Outcome.ok x5) →
    tc6.try_convert v6 = (t6, Outcome.ok x6) →
    tc7.try_convert v7 = (t7, Outcome.ok x7) →
    tc8.try_convert v8 = (t8, Outcome.ok x8) →
    tc9.try_convert v9 = (t9, Outcome.ok x9) →
    tc10.try_convert v10 = (t10, Outcome.ok x10) →
    tc11.try_convert v11 = (t11, Outcome.ok x11) →
    tc12.try_convert v12 = (t12, Outcome.ok x12) →
    tc13.try_convert v13 = (t13, Outcome.ok x13) →
    tc14.try_convert v14 = (t14, Outcome.ok x14) →
    Function14.call_handle_error tc1 tc2 tc3 tc4 tc5 tc6 tc7 tc8 tc9 tc10 tc11 tc12 tc13 tc14 (RV.ofValue iv)
      (Function14.new (fun y1 y2 y3 y4 y5 y6 y7 y8 y9 y10 y11 y12 y13 y14 => ([Ev.invoke [y1, y2, y3, y4, y5, y6, y7, y8, y9, y10, y11, y12, y13, y14]], PanicOr.ok r))) v1 v2 v3 v4 v5 v6 v7 v8 v9 v10 v11 v12 v13 v14
     = (t1 ++ t2 ++ t3 ++ t4 ++ t5 ++ t6 ++ t7 ++ t8 ++ t9 ++ t10 ++ t11 ++ t12 ++ t13 ++ t14 ++ [Ev.invoke [x1, x2, x3, x4, x5, x6, x7, x8, x9, x10, x11, x12, x13, x14]],
        BRes.returned (iv.into_value r))) ∧
  (∀ (tc1 : TryConv Value) (tc2 : TryConv Value) (tc3 : TryConv Value) (tc4 : TryConv Value) (tc5 : TryConv Value) (tc6 : TryConv Value) (tc7 : TryConv Value) (tc8 : TryConv Value) (tc9 : TryConv Value) (tc10 : TryConv Value) (tc11 : TryConv Value) (tc12 : TryConv Value) (tc13 : TryConv Value) (tc14 : TryConv Value) (tc15 : TryConv Value) (iv : IV Value)
      (r v1 v2 v3 v4 v5 v6 v7 v8 v9 v10 v11 v12 v13 v14 v15 x1 x2 x3 x4 x5 x6 x7 x8 x9 x10 x11 x12 x13 x14 x15 : Value) (t1 t2 t3 t4 t5 t6 t7 t8 t9 t10 t11 t12 t13 t14 t15 : List Ev),
    tc1.try_convert v1 = (t1, Outcome.ok x1) →
    tc2.try_convert v2 = (t2, Outcome.ok x2) →
    tc3.try_convert v3 = (t3, Outcome.ok x3) →
    tc4.try_convert v4 = (t4, Outcome.ok x4) →
    tc5.try_convert v5 = (t5, Outcome.ok x5) →
    tc6.try_convert v6 = (t6, Outcome.ok x6) →
    tc7.try_convert v7 = (t7, Outcome.ok x7) →
    tc8.try_convert v8 = (t8, Outcome.ok x8) →
    tc9.try_convert v9 = (t9, Outcome.ok x9) →
    tc10.try_convert v10 = (t10, Outcome.ok x10) →
    tc11.try_convert v11 = (t11, Outcome.ok x11) →
    tc12.try_convert v12 = (t12, Outcome.ok x12) →
    tc13.try_convert v13 = (t13, Outcome.ok x13) →
    tc14.try_convert v14 = (t14, Outcome.ok x14) →
    tc15.try_convert v15 = (t15, Outcome.ok x15) →
    Function15.call_handle_error tc1 tc2 tc3 tc4 tc5 tc6 tc7 tc8 tc9 tc10 tc11 tc12 tc13 tc14 tc15 (RV.ofValue iv)
      (Function15.new (fun y1 y2 y3 y4 y5 y6 y7 y8 y9 y10 y11 y12 y13 y14 y15 => ([Ev.invoke [y1, y2, y3, y4, y5, y6, y7, y8, y9, y10, y11, y12, y13, y14, y15]], PanicOr.ok r))) v1 v2 v3 v4 v5 v6 v7 v8 v9 v10 v11 v12 v13 v14 v15
     = (t1 ++ t2 ++ t3 ++ t4 ++ t5 ++ t6 ++ t7 ++ t8 ++ t9 ++ t10 ++ t11 ++ t12 ++ t13 ++ t14 ++ t15 ++ [Ev.invoke [x1, x2, x3, x4, x5, x6, x7, x8, x9, x10, x11, x12, x13, x14, x15]],
        BRes.returned (iv.into_value r))) ∧
  (∀ (tc1 : TryConv Value) (tc2 : TryConv Value) (tc3 : TryConv Value) (tc4 : TryConv Value) (tc5 : TryConv Value) (tc6 : TryConv Value) (tc7 : TryConv Value) (tc8 : TryConv Value) (tc9 : TryConv Value) (tc10 : TryConv Value) (tc11 : TryConv Value) (tc12 : TryConv Value) (tc13 : TryConv Value) (tc14 : TryConv Value) (tc15 : TryConv Value) (tc16 : TryConv Value) (iv : IV Value)
      (r v1 v2 v3 v4 v5 v6 v7 v8 v9 v10 v11 v12 v13 v14 v15 v16 x1 x2 x3 x4 x5 x6 x7 x8 x9 x10 x11 x12 x13 x14 x15 x16 : Value) (t1 t2 t3 t4 t5 t6 t7 t8 t9 t10 t11 t12 t13 t14 t15 t16 : List Ev),
    tc1.try_convert v1 = (t1, Outcome.ok x1) →
    tc2.try_convert v2 = (t2, Outcome.ok x2) →
    tc3.try_convert v3 = (t3, Outcome.ok x3) →
    tc4.try_convert v4 = (t4, Outcome.ok x4) →
    tc5.try_convert v5 = (t5, Outcome.ok x5) →
    tc6.try_convert v6 = (t6, Outcome.ok x6) →
    tc7.try_convert v7 = (t7, Outcome.ok x7) →
    tc8.try_convert v8 = (t8, Outcome.ok x8) →
    tc9.try_convert v9 = (t9, Outcome.ok x9) →
    tc10.try_convert v10 = (t10, Outcome.ok x10) →
    tc11.try_convert v11 = (t11, Outcome.ok x11) →
    tc12.try_convert v12 = (t12, Outcome.ok x12) →
    tc13.try_convert v13 = (t13, Outcome.ok x13) →
    tc14.try_convert v14 = (t14, Outcome.ok x14) →
    tc15.try_convert v15 = (t15, Outcome.ok x15) →
    tc16.try_convert v16 = (t16, Outcome.ok x16) →
    Function16.call_handle_error tc1 tc2 tc3 tc4 tc5 tc6 tc7 tc8 tc9 tc10 tc11 tc12 tc13 tc14 tc15 tc16 (RV.ofValue iv)
      (Function16.new (fun y1 y2 y3 y4 y5 y6 y7 y8 y9 y10 y11 y12 y13 y14 y15 y16 => ([Ev.invoke [y1, y2, y3, y4, y5, y6, y7, y8, y9, y10, y11, y12, y13, y14, y15, y16]], PanicOr.ok r))) v1 v2 v3 v4 v5 v6 v7 v8 v9 v10 v11 v12 v13 v14 v15 v16
     = (t1 ++ t2 ++ t3 ++ t4 ++ t5 ++ t6 ++ t7 ++ t8 ++ t9 ++ t10 ++ t11 ++ t12 ++ t13 ++ t14 ++ t15 ++ t16 ++ [Ev.invoke [x1, x2, x3, x4, x5, x6, x7, x8, x9, x10, x11, x12, x13, x14, x15, x16]],
        BRes.returned (iv.into_value r))) :=
  ⟨by
    intro tcS iv r vs s ts hs
    simp [Method0.call_handle_error, Method0.call_convert_value, Method0.new,
      boundary, catch_unwind, M.bind, toM, RV.ofValue, RV.ofResult, raise,
      hs, List.append_assoc],
   by
    intro tcS tc1 iv r vs v1 s x1 ts t1 hs h1
    simp [Method1.call_handle_error, Method1.call_convert_value, Method1.new,
      boundary, catch_unwind, M.bind, toM, RV.ofValue, RV.ofResult, raise,
      hs, h1, List.append_assoc],
   by
    intro tcS tc1 tc2 iv r vs v1 v2 s x1 x2 ts t1 t2 hs h1 h2
    simp [Method2.call_handle_error, Method2.call_convert_value, Method2.new,
      boundary, catch_unwind, M.bind, toM, RV.ofValue, RV.ofResult, raise,
      hs, h1, h2, List.append_assoc],
   by
    intro tcS tc1 tc2 tc3 iv r vs v1 v2 v3 s x1 x2 x3 ts t1 t2 t3 hs h1 h2 h3
    simp [Method3.call_handle_error, Method3.call_convert_value, Method3.new,
      boundary, catch_unwind, M.bind, toM, RV.ofValue, RV.ofResult, raise,
      hs, h1, h2, h3, List.append_assoc],
   by
    intro tcS tc1 tc2 tc3 tc4 iv r vs v1 v2 v3 v4 s x1 x2 x3 x4 ts t1 t2 t3 t4 hs h1 h2 h3 h4
    simp [Method4.call_handle_error, Method4.call_convert_value, Method4.new,
      boundary, catch_unwind, M.bind, toM, RV.ofValue, RV.ofResult, raise,
      hs, h1, h2, h3, h4, List.append_assoc],
   by
    intro tcS tc1 tc2 tc3 tc4 tc5 iv r vs v1 v2 v3 v4 v5 s x1 x2 x3 x4 x5 ts t1 t2 t3 t4 t5 hs h1 h2 h3 h4 h5
    simp [Method5.call_handle_error, Method5.call_convert_value, Method5.new,
      boundary, catch_unwind, M.bind, toM, RV.ofValue, RV.ofResult, raise,
      hs, h1, h2, h3, h4, h5, List.append_assoc],
   by
    intro tcS tc1 tc2 tc3 tc4 tc5 tc6 iv r vs v1 v2 v3 v4 v5 v6 s x1 x2 x3 x4 x5 x6 ts t1 t2 t3 t4 t5 t6 hs h1 h2 h3 h4 h5 h6
    simp [Method6.call_handle_error, Method6.call_convert_value, Method6.new,
      boundary, catch_unwind, M.bind, toM, RV.ofValue, RV.ofResult, raise,
      hs, h1, h2, h3, h4, h5, h6, List.append_assoc],
   by
    intro tcS tc1 tc2 tc3 tc4 tc5 tc6 tc7 iv r vs v1 v2 v3 v4 v5 v6 v7 s x1 x2 x3 x4 x5 x6 x7 ts t1 t2 t3 t4 t5 t6 t7 hs h1 h2 h3 h4 h5 h6 h7
    simp [Method7.call_handle_error, Method7.call_convert_value, Method7.new,
      boundary, catch_unwind, M.bind, toM, RV.ofValue, RV.ofResult, raise,
      hs, h1, h2, h3, h4, h5, h6, h7, List.append_assoc],
   by
    intro tcS tc1 tc2 tc3 tc4 tc5 tc6 tc7 tc8 iv r vs v1 v2 v3 v4 v5 v6 v7 v8 s x1 x2 x3 x4 x5 x6 x7 x8 ts t1 t2 t3 t4 t5 t6 t7 t8 hs h1 h2 h3 h4 h5 h6 h7 h8
    simp [Method8.call_handle_error, Method8.call_convert_value, Method8.new,
      boundary, catch_unwind, M.bind, toM, RV.ofValue, RV.ofResult, raise,
      hs, h1, h2, h3, h4, h5, h6, h7, h8, List.append_assoc],
   by
    intro tcS tc1 tc2 tc3 tc4 tc5 tc6 tc7 tc8 tc9 iv r vs v1 v2 v3 v4 v5 v6 v7 v8 v9 s x1 x2 x3 x4 x5 x6 x7 x8 x9 ts t1 t2 t3 t4 t5 t6 t7 t8 t9 hs h1 h2 h3 h4 h5 h6 h7 h8 h9
    simp [Method9.call_handle_error, Method9.call_convert_value, Method9.new,
      boundary, catch_unwind, M.bind, toM, RV.ofValue, RV.ofResult, raise,
      hs, h1, h2, h3, h4, h5, h6, h7, h8, h9, List.append_assoc],
   by
    intro tcS tc1 tc2 tc3 tc4 tc5 tc6 tc7 tc8 tc9 tc10 iv r vs v1 v2 v3 v4 v5 v6 v7 v8 v9 v10 s x1 x2 x3 x4 x5 x6 x7 x8 x9 x10 ts t1 t2 t3 t4 t5 t6 t7 t8 t9 t10 hs h1 h2 h3 h4 h5 h6 h7 h8 h9 h10
    simp [Method10.call_handle_error, Method10.call_convert_value, Method10.new,
      boundary, catch_unwind, M.bind, toM, RV.ofValue, RV.ofResult, raise,
      hs, h1, h2, h3, h4, h5, h6, h7, h8, h9, h10, List.append_assoc],
   by
    intro tcS tc1 tc2 tc3 tc4 tc5 tc6 tc7 tc8 tc9 tc10 tc11 iv r vs v1 v2 v3 v4 v5 v6 v7 v8 v9 v10 v11 s x1 x2 x3 x4 x5 x6 x7 x8 x9 x10 x11 ts t1 t2 t3 t4 t5 t6 t7 t8 t9 t10 t11 hs h1 h2 h3 h4 h5 h6 h7 h8 h9 h10 h11
    simp [Method11.call_handle_error, Method11.call_convert_value, Method11.new,
      boundary, catch_unwind, M.bind, toM, RV.ofValue, RV.ofResult, raise,
      hs, h1, h2, h3, h4, h5, h6, h7, h8, h9, h10, h11, List.append_assoc],
   by
    intro tcS tc1 tc2 tc3 tc4 tc5 tc6 tc7 tc8 tc9 tc10 tc11 tc12 iv r vs v1 v2 v3 v4 v5 v6 v7 v8 v9 v10 v11 v12 s x1 x2 x3 x4 x5 x6 x7 x8 x9 x10 x11 x12 ts t1 t2 t3 t4 t5 t6 t7 t8 t9 t10 t11 t12 hs h1 h2 h3 h4 h5 h6 h7 h8 h9 h10 h11 h12
    simp [Method12.call_handle_error, Method12.call_convert_value, Method12.new,
      boundary, catch_unwind, M.bind, toM, RV.ofValue, RV.ofResult, raise,
      hs, h1, h2, h3, h4, h5, h6, h7, h8, h9, h10, h11, h12, List.append_assoc],
   by
    intro tcS tc1 tc2 tc3 tc4 tc5 tc6 tc7 tc8 tc9 tc10 tc11 tc12 tc13 iv r vs v1 v2 v3 v4 v5 v6 v7 v8 v9 v10 v11 v12 v13 s x1 x2 x3 x4 x5 x6 x7 x8 x9 x10 x11 x12 x13 ts t1 t2 t3 t4 t5 t6 t7 t8 t9 t10 t11 t12 t13 hs h1 h2 h3 h4 h5 h6 h7 h8 h9 h10 h11 h12 h13
    simp [Method13.call_handle_error, Method13.call_convert_value, Method13.new,
      boundary, catch_unwind, M.bind, toM, RV.ofValue, RV.ofResult, raise,
      hs, h1, h2, h3, h4, h5, h6, h7, h8, h9, h10, h11, h12, h13, List.append_assoc],
   by
    intro tcS tc1 tc2 tc3 tc4 tc5 tc6 tc7 tc8 tc9 tc10 tc11 tc12 tc13 tc14 iv r vs v1 v2 v3 v4 v5 v6 v7 v8 v9 v10 v11 v12 v13 v14 s x1 x2 x3 x4 x5 x6 x7 x8 x9 x10 x11 x12 x13 x14 ts t1 t2 t3 t4 t5 t6 t7 t8 t9 t10 t11 t12 t13 t14 hs h1 h2 h3 h4 h5 h6 h7 h8 h9 h10 h11 h12 h13 h14
    simp [Method14.call_handle_error, Method14.call_convert_value, Method14.new,
      boundary, catch_unwind, M.bind, toM, RV.ofValue, RV.ofResult, raise,
      hs, h1, h2, h3, h4, h5, h6, h7, h8, h9, h10, h11, h12, h13, h14, List.append_assoc],
   by
    intro tcS tc1 tc2 tc3 tc4 tc5 tc6 tc7 tc8 tc9 tc10 tc11 tc12 tc13 tc14 tc15 iv r vs v1 v2 v3 v4 v5 v6 v7 v8 v9 v10 v11 v12 v13 v14 v15 s x1 x2 x3 x4 x5 x6 x7 x8 x9 x10 x11 x12 x13 x14 x15 ts t1 t2 t3 t4 t5 t6 t7 t8 t9 t10 t11 t12 t13 t14 t15 hs h1 h2 h3 h4 h5 h6 h7 h8 h9 h10 h11 h12 h13 h14 h15
    simp [Method15.call_handle_error, Method15.call_convert_value, Method15.new,
      boundary, catch_unwind, M.bind, toM, RV.ofValue, RV.ofResult, raise,
      hs, h1, h2, h3, h4, h5, h6, h7, h8, h9, h10, h11, h12, h13, h14, h15, List.append_assoc],
   by
    intro tcS tc1 tc2 tc3 tc4 tc5 tc6 tc7 tc8 tc9 tc10 tc11 tc12 tc13 tc14 tc15 tc16 iv r vs v1 v2 v3 v4 v5 v6 v7 v8 v9 v10 v11 v12 v13 v14 v15 v16 s x1 x2 x3 x4 x5 x6 x7 x8 x9 x10 x11 x12 x13 x14 x15 x16 ts t1 t2 t3 t4 t5 t6 t7 t8 t9 t10 t11 t12 t13 t14 t15 t16 hs h1 h2 h3 h4 h5 h6 h7 h8 h9 h10 h11 h12 h13 h14 h15 h16
    simp [Method16.call_handle_error, Method16.call_convert_value, Method16.new,
      boundary, catch_unwind, M.bind, toM, RV.ofValue, RV.ofResult, raise,
      hs, h1, h2, h3, h4, h5, h6, h7, h8, h9, h10, h11, h12, h13, h14, h15, h16, List.append_assoc],
   by
    intro iv r
    simp [Function0.call_handle_error, Function0.call_convert_value, Function0.new,
      boundary, catch_unwind, M.bind, toM, RV.ofValue, RV.ofResult, raise,
      List.append_assoc],
   by
    intro tc1 iv r v1 x1 t1 h1
    simp [Function1.call_handle_error, Function1.call_convert_value, Function1.new,
      boundary, catch_unwind, M.bind, toM, RV.ofValue, RV.ofResult, raise,
      h1, List.append_assoc],
   by
    intro tc1 tc2 iv r v1 v2 x1 x2 t1 t2 h1 h2
    simp [Function2.call_handle_error, Function2.call_convert_value, Function2.new,
      boundary, catch_unwind, M.bind, toM, RV.ofValue, RV.ofResult, raise,
      h1, h2, List.append_assoc],
   by
    intro tc1 tc2 tc3 iv r v1 v2 v3 x1 x2 x3 t1 t2 t3 h1 h2 h3
    simp [Function3.call_handle_error, Function3.call_convert_value, Function3.new,
      boundary, catch_unwind, M.bind, toM, RV.ofValue, RV.ofResult, raise,
      h1, h2, h3, List.append_assoc],
   by
    intro tc1 tc2 tc3 tc4 iv r v1 v2 v3 v4 x1 x2 x3 x4 t1 t2 t3 t4 h1 h2 h3 h4
    simp [Function4.call_handle_error, Function4.call_convert_value, Function4.new,
      boundary, catch_unwind, M.bind, toM, RV.ofValue, RV.ofResult, raise,
      h1, h2, h3, h4, List.append_assoc],
   by
    intro tc1 tc2 tc3 tc4 tc5 iv r v1 v2 v3 v4 v5 x1 x2 x3 x4 x5 t1 t2 t3 t4 t5 h1 h2 h3 h4 h5
    simp [Function5.call_handle_error, Function5.call_convert_value, Function5.new,
      boundary, catch_unwind, M.bind, toM, RV.ofValue, RV.ofResult, raise,
      h1, h2, h3, h4, h5, List.append_assoc],
   by
    intro tc1 tc2 tc3 tc4 tc5 tc6 iv r v1 v2 v3 v4 v5 v6 x1 x2 x3 x4 x5 x6 t1 t2 t3 t4 t5 t6 h1 h2 h3 h4 h5 h6
    simp [Function6.call_handle_error, Function6.call_convert_value, Function6.new,
      boundary, catch_unwind, M.bind, toM, RV.ofValue, RV.ofResult, raise,
      h1, h2, h3, h4, h5, h6, List.append_assoc],
   by
    intro tc1 tc2 tc3 tc4 tc5 tc6 tc7 iv r v1 v2 v3 v4 v5 v6 v7 x1 x2 x3 x4 x5 x6 x7 t1 t2 t3 t4 t5 t6 t7 h1 h2 h3 h4 h5 h6 h7
    simp [Function7.call_handle_error, Function7.call_convert_value, Function7.new,
      boundary, catch_unwind, M.bind, toM, RV.ofValue, RV.ofResult, raise,
      h1, h2, h3, h4, h5, h6, h7, List.append_assoc],
   by
    intro tc1 tc2 tc3 tc4 tc5 tc6 tc7 tc8 iv r v1 v2 v3 v4 v5 v6 v7 v8 x1 x2 x3 x4 x5 x6 x7 x8 t1 t2 t3 t4 t5 t6 t7 t8 h1 h2 h3 h4 h5 h6 h7 h8
    simp [Function8.call_handle_error, Function8.call_convert_value, Function8.new,
      boundary, catch_unwind, M.bind, toM, RV.ofValue, RV.ofResult, raise,
      h1, h2, h3, h4, h5, h6, h7, h8, List.append_assoc],
   by
    intro tc1 tc2 tc3 tc4 tc5 tc6 tc7 tc8 tc9 iv r v1 v2 v3 v4 v5 v6 v7 v8 v9 x1 x2 x3 x4 x5 x6 x7 x8 x9 t1 t2 t3 t4 t5 t6 t7 t8 t9 h1 h2 h3 h4 h5 h6 h7 h8 h9
    simp [Function9.call_handle_error, Function9.call_convert_value, Function9.new,
      boundary, catch_unwind, M.bind, toM, RV.ofValue, RV.ofResult, raise,
      h1, h2, h3, h4, h5, h6, h7, h8, h9, List.append_assoc],
   by
    intro tc1 tc2 tc3 tc4 tc5 tc6 tc7 tc8 tc9 tc10 iv r v1 v2 v3 v4 v5 v6 v7 v8 v9 v10 x1 x2 x3 x4 x5 x6 x7 x8 x9 x10 t1 t2 t3 t4 t5 t6 t7 t8 t9 t10 h1 h2 h3 h4 h5 h6 h7 h8 h9 h10
    simp [Function10.call_handle_error, Function10.call_convert_value, Function10.new,
      boundary, catch_unwind, M.bind, toM, RV.ofValue, RV.ofResult, raise,
      h1, h2, h3, h4, h5, h6, h7, h8, h9, h10, List.append_assoc],
   by
    intro tc1 tc2 tc3 tc4 tc5 tc6 tc7 tc8 tc9 tc10 tc11 iv r v1 v2 v3 v4 v5 v6 v7 v8 v9 v10 v11 x1 x2 x3 x4 x5 x6 x7 x8 x9 x10 x11 t1 t2 t3 t4 t5 t6 t7 t8 t9 t10 t11 h1 h2 h3 h4 h5 h6 h7 h8 h9 h10 h11
    simp [Function11.call_handle_error, Function11.call_convert_value, Function11.new,
      boundary, catch_unwind, M.bind, toM, RV.ofValue, RV.ofResult, raise,
      h1, h2, h3, h4, h5, h6, h7, h8, h9, h10, h11, List.append_assoc],
   by
    intro tc1 tc2 tc3 tc4 tc5 tc6 tc7 tc8 tc9 tc10 tc11 tc12 iv r v1 v2 v3 v4 v5 v6 v7 v8 v9 v10 v11 v12 x1 x2 x3 x4 x5 x6 x7 x8 x9 x10 x11 x12 t1 t2 t3 t4 t5 t6 t7 t8 t9 t10 t11 t12 h1 h2 h3 h4 h5 h6 h7 h8 h9 h10 h11 h12
    simp [Function12.call_handle_error, Function12.call_convert_value, Function12.new,
      boundary, catch_unwind, M.bind, toM, RV.ofValue, RV.ofResult, raise,
      h1, h2, h3, h4, h5, h6, h7, h8, h9, h10, h11, h12, List.append_assoc],
   by
    intro tc1 tc2 tc3 tc4 tc5 tc6 tc7 tc8 tc9 tc10 tc11 tc12 tc13 iv r v1 v2 v3 v4 v5 v6 v7 v8 v9 v10 v11 v12 v13 x1 x2 x3 x4 x5 x6 x7 x8 x9 x10 x11 x12 x13 t1 t2 t3 t4 t5 t6 t7 t8 t9 t10 t11 t12 t13 h1 h2 h3 h4 h5 h6 h7 h8 h9 h10 h11 h12 h13
    simp [Function13.call_handle_error, Function13.call_convert_value, Function13.new,
      boundary, catch_unwind, M.bind, toM, RV.ofValue, RV.ofResult, raise,
      h1, h2, h3, h4, h5, h6, h7, h8, h9, h10, h11, h12, h13, List.append_assoc],
   by
    intro tc1 tc2 tc3 tc4 tc5 tc6 tc7 tc8 tc9 tc10 tc11 tc12 tc13 tc14 iv r v1 v2 v3 v4 v5 v6 v7 v8 v9 v10 v11 v12 v13 v14 x1 x2 x3 x4 x5 x6 x7 x8 x9 x10 x11 x12 x13 x14 t1 t2 t3 t4 t5 t6 t7 t8 t9 t10 t11 t12 t13 t14 h1 h2 h3 h4 h5 h6 h7 h8 h9 h10 h11 h12 h13 h14
    simp [Function14.call_handle_error, Function14.call_convert_value, Function14.new,
      boundary, catch_unwind, M.bind, toM, RV.ofValue, RV.ofResult, raise,
      h1, h2, h3, h4, h5, h6, h7, h8, h9, h10, h11, h12, h13, h14, List.append_assoc],
   by
    intro tc1 tc2 tc3 tc4 tc5 tc6 tc7 tc8 tc9 tc10 tc11 tc12 tc13 tc14 tc15 iv r v1 v2 v3 v4 v5 v6 v7 v8 v9 v10 v11 v12 v13 v14 v15 x1 x2 x3 x4 x5 x6 x7 x8 x9 x10 x11 x12 x13 x14 x15 t1 t2 t3 t4 t5 t6 t7 t8 t9 t10 t11 t12 t13 t14 t15 h1 h2 h3 h4 h5 h6 h7 h8 h9 h10 h11 h12 h13 h14 h15
    simp [Function15.call_handle_error, Function15.call_convert_value, Function15.new,
      boundary, catch_unwind, M.bind, toM, RV.ofValue, RV.ofResult, raise,
      h1, h2, h3, h4, h5, h6, h7, h8, h9, h10, h11, h12, h13, h14, h15, List.append_assoc],
   by
    intro tc1 tc2 tc3 tc4 tc5 tc6 tc7 tc8 tc9 tc10 tc11 tc12 tc13 tc14 tc15 tc16 iv r v1 v2 v3 v4 v5 v6 v7 v8 v9 v10 v11 v12 v13 v14 v15 v16 x1 x2 x3 x4 x5 x6 x7 x8 x9 x10 x11 x12 x13 x14 x15 x16 t1 t2 t3 t4 t5 t6 t7 t8 t9 t10 t11 t12 t13 t14 t15 t16 h1 h2 h3 h4 h5 h6 h7 h8 h9 h10 h11 h12 h13 h14 h15 h16
    simp [Function16.call_handle_error, Function16.call_convert_value, Function16.new,
      boundary, catch_unwind, M.bind, toM, RV.ofValue, RV.ofResult, raise,
      h1, h2, h3, h4, h5, h6, h7, h8, h9, h10, h11, h12, h13, h14, h15, h16, List.append_assoc]⟩

/-- Witness for C2: a concrete arity-0 method invocation with a successful
self conversion invokes the user function once and returns its converted
result. -/
theorem all_convert_success_invokes_once_witness :
    Method0.call_handle_error (tcIdOk 0) (RV.ofValue ivId)
      (Method0.new (fun s0 => ([Ev.invoke [s0]], PanicOr.ok (hv 5)))) (hv 1)
     = ([Ev.convert 0 (hv 1)] ++ [Ev.invoke [hv 1]],
        BRes.returned (ivId.into_value (hv 5))) :=
  all_convert_success_invokes_once.1 (tcIdOk 0) ivId (hv 5) (hv 1) (hv 1)
    [Ev.convert 0 (hv 1)] rfl

/-- C3: For every fixed arity and every argument position, argument
conversion proceeds left-to-right (self first for the method family) and
short-circuits at the first conversion failure: no argument after the
first failing one is converted, and the user function is never invoked.
Stated as: the generic left-to-right chain short-circuits at the first
failure (its result carries only the traces of the conversions up to and
including the failing one, independent of the later converters and of
the user function), and every fixed-arity adapter equals that chain. -/
theorem conversion_left_to_right_short_circuit :
  (∀ (ρ : Type) (rv : RV ρ) (f : List Value → PanicM ρ)
      (tcs : List (TryConv Value)) (vs : List Value) (ts : List Ev)
      (xs : List Value) (tc : TryConv Value) (v : Value) (tb : List Ev)
      (e : Error) (rest : List (TryConv Value)) (vrest : List Value),
    Converts tcs vs ts xs → tc.try_convert v = (tb, Outcome.err e) →
    spec_invoke_checked rv f (tcs ++ tc :: rest) (vs ++ v :: vrest) []
      = (ts ++ tb, Outcome.err e)) ∧
  (∀ (ρ : Type) (rv : RV ρ) (tcS : TryConv Value)
      (meth : Method0 Value ρ) (rb_self : Value),
    Method0.call_convert_value tcS rv meth rb_self
      = spec_invoke_checked rv (fun lst => meth.func (lst.getD 0 Value.default))
          [tcS] [rb_self] []) ∧
  (∀ (ρ : Type) (rv : RV ρ) (tcS : TryConv Value) (tc1 : TryConv Value)
      (meth : Method1 Value Value ρ) (rb_self a : Value),
    Method1.call_convert_value tcS tc1 rv meth rb_self a
      = spec_invoke_checked rv (fun lst => meth.func (lst.getD 0 Value.default) (lst.getD 1 Value.default))
          [tcS, tc1] [rb_self, a] []) ∧
  (∀ (ρ : Type) (rv : RV ρ) (tcS : TryConv Value) (tc1 : TryConv Value) (tc2 : TryConv Value)
      (meth : Method2 Value Value Value ρ) (rb_self a b : Value),
    Method2.call_convert_value tcS tc1 tc2 rv meth rb_self a b
      = spec_invoke_checked rv (fun lst => meth.func (lst.getD 0 Value.default) (lst.getD 1 Value.default) (lst.getD 2 Value.default))
          [tcS, tc1, tc2] [rb_self, a, b] []) ∧
  (∀ (ρ : Type) (rv : RV ρ) (tcS : TryConv Value) (tc1 : TryConv Value) (tc2 : TryConv Value) (tc3 : TryConv Value)
      (meth : Method3 Value Value Value Value ρ) (rb_self a b c : Value),
    Method3.call_convert_value tcS tc1 tc2 tc3 rv meth rb_self a b c
      = spec_invoke_checked rv (fun lst => meth.func (lst.getD 0 Value.default) (lst.getD 1 Value.default) (lst.getD 2 Value.default) (lst.getD 3 Value.default))
          [tcS, tc1, tc2, tc3] [rb_self, a, b, c] []) ∧
  (∀ (ρ : Type) (rv : RV ρ) (tcS : TryConv Value) (tc1 : TryConv Value) (tc2 : TryConv Value) (tc3 : TryConv Value) (tc4 : TryConv Value)
      (meth : Method4 Value Value Value Value Value ρ) (rb_self a b c d : Value),
    Method4.call_convert_value tcS tc1 tc2 tc3 tc4 rv meth rb_self a b c d
      = spec_invoke_checked rv (fun lst => meth.func (lst.getD 0 Value.default) (lst.getD 1 Value.default) (lst.getD 2 Value.default) (lst.getD 3 Value.default) (lst.getD 4 Value.default))
          [tcS, tc1, tc2, tc3, tc4] [rb_self, a, b, c, d] []) ∧
  (∀ (ρ : Type) (rv : RV ρ) (tcS : TryConv Value) (tc1 : TryConv Value) (tc2 : TryConv Value) (tc3 : TryConv Value) (tc4 : TryConv Value) (tc5 : TryConv Value)
      (meth : Method5 Value Value Value Value Value Value ρ) (rb_self a b c d e : Value),
    Method5.call_convert_value tcS tc1 tc2 tc3 tc4 tc5 rv meth rb_self a b c d e
      = spec_invoke_checked rv (fun lst => meth.func (lst.getD 0 Value.default) (lst.getD 1 Value.default) (lst.getD 2 Value.default) (lst.getD 3 Value.default) (lst.getD 4 Value.default) (lst.getD 5 Value.default))
          [tcS, tc1, tc2, tc3, tc4, tc5] [rb_self, a, b, c, d, e] []) ∧
  (∀ (ρ : Type) (rv : RV ρ) (tcS : TryConv Value) (tc1 : TryConv Value) (tc2 : TryConv Value) (tc3 : TryConv Value) (tc4 : TryConv Value) (tc5 : TryConv Value) (tc6 : TryConv Value)
      (meth : Method6 Value Value Value Value Value Value Value ρ) (rb_self a b c d e f : Value),
    Method6.call_convert_value tcS tc1 tc2 tc3 tc4 tc5 tc6 rv meth rb_self a b c d e f
      = spec_invoke_checked rv (fun lst => meth.func (lst.getD 0 Value.default) (lst.getD 1 Value.default) (lst.getD 2 Value.default) (lst.getD 3 Value.default) (lst.getD 4 Value.default) (lst.getD 5 Value.default) (lst.getD 6 Value.default))
          [tcS, tc1, tc2, tc3, tc4, tc5, tc6] [rb_self, a, b, c, d, e, f] []) ∧
  (∀ (ρ : Type) (rv : RV ρ) (tcS : TryConv Value) (tc1 : TryConv Value) (tc2 : TryConv Value) (tc3 : TryConv Value) (tc4 : TryConv Value) (tc5 : TryConv Value) (tc6 : TryConv Value) (tc7 : TryConv Value)
      (meth : Method7 Value Value Value Value Value Value Value Value ρ) (rb_self a b c d e f g : Value),
    Method7.call_convert_value tcS tc1 tc2 tc3 tc4 tc5 tc6 tc7 rv meth rb_self a b c d e f g
      = spec_invoke_checked rv (fun lst => meth.func (lst.getD 0 Value.default) (lst.getD 1 Value.default) (lst.getD 2 Value.default) (lst.getD 3 Value.default) (lst.getD 4 Value.default) (lst.getD 5 Value.default) (lst.getD 6 Value.default) (lst.getD 7 Value.default))
          [tcS, tc1, tc2, tc3, tc4, tc5, tc6, tc7] [rb_self, a, b, c, d, e, f, g] []) ∧
  (∀ (ρ : Type) (rv : RV ρ) (tcS : TryConv Value) (tc1 : TryConv Value) (tc2 : TryConv Value) (tc3 : TryConv Value) (tc4 : TryConv Value) (tc5 : TryConv Value) (tc6 : TryConv Value) (tc7 : TryConv Value) (tc8 : TryConv Value)
      (meth : Method8 Value Value Value Value Value Value Value Value Value ρ) (rb_self a b c d e f g h : Value),
    Method8.call_convert_value tcS tc1 tc2 tc3 tc4 tc5 tc6 tc7 tc8 rv meth rb_self a b c d e f g h
      = spec_invoke_checked rv (fun lst => meth.func (lst.getD 0 Value.default) (lst.getD 1 Value.default) (lst.getD 2 Value.default) (lst.getD 3 Value.default) (lst.getD 4 Value.default) (lst.getD 5 Value.default) (lst.getD 6 Value.default) (lst.getD 7 Value.default) (lst.getD 8 Value.default))
          [tcS, tc1, tc2, tc3, tc4, tc5, tc6, tc7, tc8] [rb_self, a, b, c, d, e, f, g, h] []) ∧
  (∀ (ρ : Type) (rv : RV ρ) (tcS : TryConv Value) (tc1 : TryConv Value) (tc2 : TryConv Value) (tc3 : TryConv Value) (tc4 : TryConv Value) (tc5 : TryConv Value) (tc6 : TryConv Value) (tc7 : TryConv Value) (tc8 : TryConv Value) (tc9 : TryConv Value)
      (meth : Method9 Value Value Value Value Value Value Value Value Value Value ρ) (rb_self a b c d e f g h i : Value),
    Method9.call_convert_value tcS tc1 tc2 tc3 tc4 tc5 tc6 tc7 tc8 tc9 rv meth rb_self a b c d e f g h i
      = spec_invoke_checked rv (fun lst => meth.func (lst.getD 0 Value.default) (lst.getD 1 Value.default) (lst.getD 2 Value.default) (lst.getD 3 Value.default) (lst.getD 4 Value.default) (lst.getD 5 Value.default) (lst.getD 6 Value.default) (lst.getD 7 Value.default) (lst.getD 8 Value.default) (lst.getD 9 Value.default))
          [tcS, tc1, tc2, tc3, tc4, tc5, tc6, tc7, tc8, tc9] [rb_self, a, b, c, d, e, f, g, h, i] []) ∧
  (∀ (ρ : Type) (rv : RV ρ) (tcS : TryConv Value) (tc1 : TryConv Value) (tc2 : TryConv Value) (tc3 : TryConv Value) (tc4 : TryConv Value) (tc5 : TryConv Value) (tc6 : TryConv Value) (tc7 : TryConv Value) (tc8 : TryConv Value) (tc9 : TryConv Value) (tc10 : TryConv Value)
      (meth : Method10 Value Value Value Value Value Value Value Value Value Value Value ρ) (rb_self a b c d e f g h i j : Value),
    Method10.call_convert_value tcS tc1 tc2 tc3 tc4 tc5 tc6 tc7 tc8 tc9 tc10 rv meth rb_self a b c d e f g h i j
      = spec_invoke_checked rv (fun lst => meth.func (lst.getD 0 Value.default) (lst.getD 1 Value.default) (lst.getD 2 Value.default) (lst.getD 3 Value.default) (lst.getD 4 Value.default) (lst.getD 5 Value.default) (lst.getD 6 Value.default) (lst.getD 7 Value.default) (lst.getD 8 Value.default) (lst.getD 9 Value.default) (lst.getD 10 Value.default))
          [tcS, tc1, tc2, tc3, tc4, tc5, tc6, tc7, tc8, tc9, tc10] [rb_self, a, b, c, d, e, f, g, h, i, j] []) ∧
  (∀ (ρ : Type) (rv : RV ρ) (tcS : TryConv Value) (tc1 : TryConv Value) (tc2 : TryConv Value) (tc3 : TryConv Value) (tc4 : TryConv Value) (tc5 : TryConv Value) (tc6 : TryConv Value) (tc7 : TryConv Value) (tc8 : TryConv Value) (tc9 : TryConv Value) (tc10 : TryConv Value) (tc11 : TryConv Value)
      (meth : Method11 Value Value Value Value Value Value Value Value Value Value Value Value ρ) (rb_self a b c d e f g h i j k : Value),
    Method11.call_convert_value tcS tc1 tc2 tc3 tc4 tc5 tc6 tc7 tc8 tc9 tc10 tc11 rv meth rb_self a b c d e f g h i j k
      = spec_invoke_checked rv (fun lst => meth.func (lst.getD 0 Value.default) (lst.getD 1 Value.default) (lst.getD 2 Value.default) (lst.getD 3 Value.default) (lst.getD 4 Value.default) (lst.getD 5 Value.default) (lst.getD 6 Value.default) (lst.getD 7 Value.default) (lst.getD 8 Value.default) (lst.getD 9 Value.default) (lst.getD 10 Value.default) (lst.getD 11 Value.default))
          [tcS, tc1, tc2, tc3, tc4, tc5, tc6, tc7, tc8, tc9, tc10, tc11] [rb_self, a, b, c, d, e, f, g, h, i, j, k] []) ∧
  (∀ (ρ : Type) (rv : RV ρ) (tcS : TryConv Value) (tc1 : TryConv Value) (tc2 : TryConv Value) (tc3 : TryConv Value) (tc4 : TryConv Value) (tc5 : TryConv Value) (tc6 : TryConv Value) (tc7 : TryConv Value) (tc8 : TryConv Value) (tc9 : TryConv Value) (tc10 : TryConv Value) (tc11 : TryConv Value) (tc12 : TryConv Value)
      (meth : Method12 Value Value Value Value Value Value Value Value Value Value Value Value Value ρ) (rb_self a b c d e f g h i j k l : Value),
    Method12.call_convert_value tcS tc1 tc2 tc3 tc4 tc5 tc6 tc7 tc8 tc9 tc10 tc11 tc12 rv meth rb_self a b c d e f g h i j k l
      = spec_invoke_checked rv (fun lst => meth.func (lst.getD 0 Value.default) (lst.getD 1 Value.default) (lst.getD 2 Value.default) (lst.getD 3 Value.default) (lst.getD 4 Value.default) (lst.getD 5 Value.default) (lst.getD 6 Value.default) (lst.getD 7 Value.default) (lst.getD 8 Value.default) (lst.getD 9 Value.default) (lst.getD 10 Value.default) (lst.getD 11 Value.default) (lst.getD 12 Value.default))
          [tcS, tc1, tc2, tc3, tc4, tc5, tc6, tc7, tc8, tc9, tc10, tc11, tc12] [rb_self, a, b, c, d, e, f, g, h, i, j, k, l] []) ∧
  (∀ (ρ : Type) (rv : RV ρ) (tcS : TryConv Value) (tc1 : TryConv Value) (tc2 : TryConv Value) (tc3 : TryConv Value) (tc4 : TryConv Value) (tc5 : TryConv Value) (tc6 : TryConv Value) (tc7 : TryConv Value) (tc8 : TryConv Value) (tc9 : TryConv Value) (tc10 : TryConv Value) (tc11 : TryConv Value) (tc12 : TryConv Value) (tc13 : TryConv Value)
      (meth : Method13 Value Value Value Value Value Value Value Value Value Value Value Value Value Value ρ) (rb_self a b c d e f g h i j k l m : Value),
    Method13.call_convert_value tcS tc1 tc2 tc3 tc4 tc5 tc6 tc7 tc8 tc9 tc10 tc11 tc12 tc13 rv meth rb_self a b c d e f g h i j k l m
      = spec_invoke_checked rv (fun lst => meth.func (lst.getD 0 Value.default) (lst.getD 1 Value.default) (lst.getD 2 Value.default) (lst.getD 3 Value.default) (lst.getD 4 Value.default) (lst.getD 5 Value.default) (lst.getD 6 Value.default) (lst.getD 7 Value.default) (lst.getD 8 Value.default) (lst.getD 9 Value.default) (lst.getD 10 Value.default) (lst.getD 11 Value.default) (lst.getD 12 Value.default) (lst.getD 13 Value.default))
          [tcS, tc1, tc2, tc3, tc4, tc5, tc6, tc7, tc8, tc9, tc10, tc11, tc12, tc13] [rb_self, a, b, c, d, e, f, g, h, i, j, k, l, m] []) ∧
  (∀ (ρ : Type) (rv : RV ρ) (tcS : TryConv Value) (tc1 : TryConv Value) (tc2 : TryConv Value) (tc3 : TryConv Value) (tc4 : TryConv Value) (tc5 : TryConv Value) (tc6 : TryConv Value) (tc7 : TryConv Value) (tc8 : TryConv Value) (tc9 : TryConv Value) (tc10 : TryConv Value) (tc11 : TryConv Value) (tc12 : TryConv Value) (tc13 : TryConv Value) (tc14 : TryConv Value)
      (meth : Method14 Value Value Value Value Value Value Value Value Value Value Value Value Value Value Value ρ) (rb_self a b c d e f g h i j k l m n : Value),
    Method14.call_convert_value tcS tc1 tc2 tc3 tc4 tc5 tc6 tc7 tc8 tc9 tc10 tc11 tc12 tc13 tc14 rv meth rb_self a b c d e f g h i j k l m n
      = spec_invoke_checked rv (fun lst => meth.func (lst.getD 0 Value.default) (lst.getD 1 Value.default) (lst.getD 2 Value.default) (lst.getD 3 Value.default) (lst.getD 4 Value.default) (lst.getD 5 Value.default) (lst.getD 6 Value.default) (lst.getD 7 Value.default) (lst.getD 8 Value.default) (lst.getD 9 Value.default) (lst.getD 10 Value.default) (lst.getD 11 Value.default) (lst.getD 12 Value.default) (lst.getD 13 Value.default) (lst.getD 14 Value.default))
          [tcS, tc1, tc2, tc3, tc4, tc5, tc6, tc7, tc8, tc9, tc10, tc11, tc12, tc13, tc14] [rb_self, a, b, c, d, e, f, g, h, i, j, k, l, m, n] []) ∧
  (∀ (ρ : Type) (rv : RV ρ) (tcS : TryConv Value) (tc1 : TryConv Value) (tc2 : TryConv Value) (tc3 : TryConv Value) (tc4 : TryConv Value) (tc5 : TryConv Value) (tc6 : TryConv Value) (tc7 : TryConv Value) (tc8 : TryConv Value) (tc9 : TryConv Value) (tc10 : TryConv Value) (tc11 : TryConv Value) (tc12 : TryConv Value) (tc13 : TryConv Value) (tc14 : TryConv Value) (tc15 : TryConv Value)
      (meth : Method15 Value Value Value Value Value Value Value Value Value Value Value Value Value Value Value Value ρ) (rb_self a b c d e f g h i j k l m n o : Value),
    Method15.call_convert_value tcS tc1 tc2 tc3 tc4 tc5 tc6 tc7 tc8 tc9 tc10 tc11 tc12 tc13 tc14 tc15 rv meth rb_self a b c d e f g h i j k l m n o
      = spec_invoke_checked rv (fun lst => meth.func (lst.getD 0 Value.default) (lst.getD 1 Value.default) (lst.getD 2 Value.default) (lst.getD 3 Value.default) (lst.getD 4 Value.default) (lst.getD 5 Value.default) (lst.getD 6 Value.default) (lst.getD 7 Value.default) (lst.getD 8 Value.default) (lst.getD 9 Value.default) (lst.getD 10 Value.default) (lst.getD 11 Value.default) (lst.getD 12 Value.default) (lst.getD 13 Value.default) (lst.getD 14 Value.default) (lst.getD 15 Value.default))
          [tcS, tc1, tc2, tc3, tc4, tc5, tc6, tc7, tc8, tc9, tc10, tc11, tc12, tc13, tc14, tc15] [rb_self, a, b, c, d, e, f, g, h, i, j, k, l, m, n, o] []) ∧
  (∀ (ρ : Type) (rv : RV ρ) (tcS : TryConv Value) (tc1 : TryConv Value) (tc2 : TryConv Value) (tc3 : TryConv Value) (tc4 : TryConv Value) (tc5 : TryConv Value) (tc6 : TryConv Value) (tc7 : TryConv Value) (tc8 : TryConv Value) (tc9 : TryConv Value) (tc10 : TryConv Value) (tc11 : TryConv Value) (tc12 : TryConv Value) (tc13 : TryConv Value) (tc14 : TryConv Value) (tc15 : TryConv Value) (tc16 : TryConv Value)
      (meth : Method16 Value Value Value Value Value Value Value Value Value Value Value Value Value Value Value Value Value ρ) (rb_self a b c d e f g h i j k l m n o p : Value),
    Method16.call_convert_value tcS tc1 tc2 tc3 tc4 tc5 tc6 tc7 tc8 tc9 tc10 tc11 tc12 tc13 tc14 tc15 tc16 rv meth rb_self a b c d e f g h i j k l m n o p
      = spec_invoke_checked rv (fun lst => meth.func (lst.getD 0 Value.default) (lst.getD 1 Value.default) (lst.getD 2 Value.default) (lst.getD 3 Value.default) (lst.getD 4 Value.default) (lst.getD 5 Value.default) (lst.getD 6 Value.default) (lst.getD 7 Value.default) (lst.getD 8 Value.default) (lst.getD 9 Value.default) (lst.getD 10 Value.default) (lst.getD 11 Value.default) (lst.getD 12 Value.default) (lst.getD 13 Value.default) (lst.getD 14 Value.default) (lst.getD 15 Value.default) (lst.getD 16 Value.default))
          [tcS, tc1, tc2, tc3, tc4, tc5, tc6, tc7, tc8, tc9, tc10, tc11, tc12, tc13, tc14, tc15, tc16] [rb_self, a, b, c, d, e, f, g, h, i, j, k, l, m, n, o, p] []) ∧
  (∀ (ρ : Type) (rv : RV ρ)
      (meth : Function0 ρ),
    Function0.call_convert_value rv meth
      = spec_invoke_checked rv (fun _ => meth.func ())
          [] [] []) ∧
  (∀ (ρ : Type) (rv : RV ρ) (tc1 : TryConv Value)
      (meth : Function1 Value ρ) (a : Value),
    Function1.call_convert_value tc1 rv meth a
      = spec_invoke_checked rv (fun lst => meth.func (lst.getD 0 Value.default))
          [tc1] [a] []) ∧
  (∀ (ρ : Type) (rv : RV ρ) (tc1 : TryConv Value) (tc2 : TryConv Value)
      (meth : Function2 Value Value ρ) (a b : Value),
    Function2.call_convert_value tc1 tc2 rv meth a b
      = spec_invoke_checked rv (fun lst => meth.func (lst.getD 0 Value.default) (lst.getD 1 Value.default))
          [tc1, tc2] [a, b] []) ∧
  (∀ (ρ : Type) (rv : RV ρ) (tc1 : TryConv Value) (tc2 : TryConv Value) (tc3 : TryConv Value)
      (meth : Function3 Value Value Value ρ) (a b c : Value),
    Function3.call_convert_value tc1 tc2 tc3 rv meth a b c
      = spec_invoke_checked rv (fun lst => meth.func (lst.getD 0 Value.default) (lst.getD 1 Value.default) (lst.getD 2 Value.default))
          [tc1, tc2, tc3] [a, b, c] []) ∧
  (∀ (ρ : Type) (rv : RV ρ) (tc1 : TryConv Value) (tc2 : TryConv Value) (tc3 : TryConv Value) (tc4 : TryConv Value)
      (meth : Function4 Value Value Value Value ρ) (a b c d : Value),
    Function4.call_convert_value tc1 tc2 tc3 tc4 rv meth a b c d
      = spec_invoke_checked rv (fun lst => meth.func (lst.getD 0 Value.default) (lst.getD 1 Value.default) (lst.getD 2 Value.default) (lst.getD 3 Value.default))
          [tc1, tc2, tc3, tc4] [a, b, c, d] []) ∧
  (∀ (ρ : Type) (rv : RV ρ) (tc1 : TryConv Value) (tc2 : TryConv Value) (tc3 : TryConv Value) (tc4 : TryConv Value) (tc5 : TryConv Value)
      (meth : Function5 Value Value Value Value Value ρ) (a b c d e : Value),
    Function5.call_convert_value tc1 tc2 tc3 tc4 tc5 rv meth a b c d e
      = spec_invoke_checked rv (fun lst => meth.func (lst.getD 0 Value.default) (lst.getD 1 Value.default) (lst.getD 2 Value.default) (lst.getD 3 Value.default) (lst.getD 4 Value.default))
          [tc1, tc2, tc3, tc4, tc5] [a, b, c, d, e] []) ∧
  (∀ (ρ : Type) (rv : RV ρ) (tc1 : TryConv Value) (tc2 : TryConv Value) (tc3 : TryConv Value) (tc4 : TryConv Value) (tc5 : TryConv Value) (tc6 : TryConv Value)
      (meth : Function6 Value Value Value Value Value Value ρ) (a b c d e f : Value),
    Function6.call_convert_value tc1 tc2 tc3 tc4 tc5 tc6 rv meth a b c d e f
      = spec_invoke_checked rv (fun lst => meth.func (lst.getD 0 Value.default) (lst.getD 1 Value.default) (lst.getD 2 Value.default) (lst.getD 3 Value.default) (lst.getD 4 Value.default) (lst.getD 5 Value.default))
          [tc1, tc2, tc3, tc4, tc5, tc6] [a, b, c, d, e, f] []) ∧
  (∀ (ρ : Type) (rv : RV ρ) (tc1 : TryConv Value) (tc2 : TryConv Value) (tc3 : TryConv Value) (tc4 : TryConv Value) (tc5 : TryConv Value) (tc6 : TryConv Value) (tc7 : TryConv Value)
      (meth : Function7 Value Value Value Value Value Value Value ρ) (a b c d e f g : Value),
    Function7.call_convert_value tc1 tc2 tc3 tc4 tc5 tc6 tc7 rv meth a b c d e f g
      = spec_invoke_checked rv (fun lst => meth.func (lst.getD 0 Value.default) (lst.getD 1 Value.default) (lst.getD 2 Value.default) (lst.getD 3 Value.default) (lst.getD 4 Value.default) (lst.getD 5 Value.default) (lst.getD 6 Value.default))
          [tc1, tc2, tc3, tc4, tc5, tc6, tc7] [a, b, c, d, e, f, g] []) ∧
  (∀ (ρ : Type) (rv : RV ρ) (tc1 : TryConv Value) (tc2 : TryConv Value) (tc3 : TryConv Value) (tc4 : TryConv Value) (tc5 : TryConv Value) (tc6 : TryConv Value) (tc7 : TryConv Value) (tc8 : TryConv Value)
      (meth : Function8 Value Value Value Value Value Value Value Value ρ) (a b c d e f g h : Value),
    Function8.call_convert_value tc1 tc2 tc3 tc4 tc5 tc6 tc7 tc8 rv meth a b c d e f g h
      = spec_invoke_checked rv (fun lst => meth.func (lst.getD 0 Value.default) (lst.getD 1 Value.default) (lst.getD 2 Value.default) (lst.getD 3 Value.default) (lst.getD 4 Value.default) (lst.getD 5 Value.default) (lst.getD 6 Value.default) (lst.getD 7 Value.default))
          [tc1, tc2, tc3, tc4, tc5, tc6, tc7, tc8] [a, b, c, d, e, f, g, h] []) ∧
  (∀ (ρ : Type) (rv : RV ρ) (tc1 : TryConv Value) (tc2 : TryConv Value) (tc3 : TryConv Value) (tc4 : TryConv Value) (tc5 : TryConv Value) (tc6 : TryConv Value) (tc7 : TryConv Value) (tc8 : TryConv Value) (tc9 : TryConv Value)
      (meth : Function9 Value Value Value Value Value Value Value Value Value ρ) (a b c d e f g h i : Value),
    Function9.call_convert_value tc1 tc2 tc3 tc4 tc5 tc6 tc7 tc8 tc9 rv meth a b c d e f g h i
      = spec_invoke_checked rv (fun lst => meth.func (lst.getD 0 Value.default) (lst.getD 1 Value.default) (lst.getD 2 Value.default) (lst.getD 3 Value.default) (lst.getD 4 Value.default) (lst.getD 5 Value.default) (lst.getD 6 Value.default) (lst.getD 7 Value.default) (lst.getD 8 Value.default))
          [tc1, tc2, tc3, tc4, tc5, tc6, tc7, tc8, tc9] [a, b, c, d, e, f, g, h, i] []) ∧
  (∀ (ρ : Type) (rv : RV ρ) (tc1 : TryConv Value) (tc2 : TryConv Value) (tc3 : TryConv Value) (tc4 : TryConv Value) (tc5 : TryConv Value) (tc6 : TryConv Value) (tc7 : TryConv Value) (tc8 : TryConv Value) (tc9 : TryConv Value) (tc10 : TryConv Value)
      (meth : Function10 Value Value Value Value Value Value Value Value Value Value ρ) (a b c d e f g h i j : Value),
    Function10.call_convert_value tc1 tc2 tc3 tc4 tc5 tc6 tc7 tc8 tc9 tc10 rv meth a b c d e f g h i j
      = spec_invoke_checked rv (fun lst => meth.func (lst.getD 0 Value.default) (lst.getD 1 Value.default) (lst.getD 2 Value.default) (lst.getD 3 Value.default) (lst.getD 4 Value.default) (lst.getD 5 Value.default) (lst.getD 6 Value.default) (lst.getD 7 Value.default) (lst.getD 8 Value.default) (lst.getD 9 Value.default))
          [tc1, tc2, tc3, tc4, tc5, tc6, tc7, tc8, tc9, tc10] [a, b, c, d, e, f, g, h, i, j] []) ∧
  (∀ (ρ : Type) (rv : RV ρ) (tc1 : TryConv Value) (tc2 : TryConv Value) (tc3 : TryConv Value) (tc4 : TryConv Value) (tc5 : TryConv Value) (tc6 : TryConv Value) (tc7 : TryConv Value) (tc8 : TryConv Value) (tc9 : TryConv Value) (tc10 : TryConv Value) (tc11 : TryConv Value)
      (meth : Function11 Value Value Value Value Value Value Value Value Value Value Value ρ) (a b c d e f g h i j k : Value),
    Function11.call_convert_value tc1 tc2 tc3 tc4 tc5 tc6 tc7 tc8 tc9 tc10 tc11 rv meth a b c d e f g h i j k
      = spec_invoke_checked rv (fun lst => meth.func (lst.getD 0 Value.default) (lst.getD 1 Value.default) (lst.getD 2 Value.default) (lst.getD 3 Value.default) (lst.getD 4 Value.default) (lst.getD 5 Value.default) (lst.getD 6 Value.default) (lst.getD 7 Value.default) (lst.getD 8 Value.default) (lst.getD 9 Value.default) (lst.getD 10 Value.default))
          [tc1, tc2, tc3, tc4, tc5, tc6, tc7, tc8, tc9, tc10, tc11] [a, b, c, d, e, f, g, h, i, j, k] []) ∧
  (∀ (ρ : Type) (rv : RV ρ) (tc1 : TryConv Value) (tc2 : TryConv Value) (tc3 : TryConv Value) (tc4 : TryConv Value) (tc5 : TryConv Value) (tc6 : TryConv Value) (tc7 : TryConv Value) (tc8 : TryConv Value) (tc9 : TryConv Value) (tc10 : TryConv Value) (tc11 : TryConv Value) (tc12 : TryConv Value)
      (meth : Function12 Value Value Value Value Value Value Value Value Value Value Value Value ρ) (a b c d e f g h i j k l : Value),
    Function12.call_convert_value tc1 tc2 tc3 tc4 tc5 tc6 tc7 tc8 tc9 tc10 tc11 tc12 rv meth a b c d e f g h i j k l
      = spec_invoke_checked rv (fun lst => meth.func (lst.getD 0 Value.default) (lst.getD 1 Value.default) (lst.getD 2 Value.default) (lst.getD 3 Value.default) (lst.getD 4 Value.default) (lst.getD 5 Value.default) (lst.getD 6 Value.default) (lst.getD 7 Value.default) (lst.getD 8 Value.default) (lst.getD 9 Value.default) (lst.getD 10 Value.default) (lst.getD 11 Value.default))
          [tc1, tc2, tc3, tc4, tc5, tc6, tc7, tc8, tc9, tc10, tc11, tc12] [a, b, c, d, e, f, g, h, i, j, k, l] []) ∧
  (∀ (ρ : Type) (rv : RV ρ) (tc1 : TryConv Value) (tc2 : TryConv Value) (tc3 : TryConv Value) (tc4 : TryConv Value) (tc5 : TryConv Value) (tc6 : TryConv Value) (tc7 : TryConv Value) (tc8 : TryConv Value) (tc9 : TryConv Value) (tc10 : TryConv Value) (tc11 : TryConv Value) (tc12 : TryConv Value) (tc13 : TryConv Value)
      (meth : Function13 Value Value Value Value Value Value Value Value Value Value Value Value Value ρ) (a b c d e f g h i j k l m : Value),
    Function13.call_convert_value tc1 tc2 tc3 tc4 tc5 tc6 tc7 tc8 tc9 tc10 tc11 tc12 tc13 rv meth a b c d e f g h i j k l m
      = spec_invoke_checked rv (fun lst => meth.func (lst.getD 0 Value.default) (lst.getD 1 Value.default) (lst.getD 2 Value.default) (lst.getD 3 Value.default) (lst.getD 4 Value.default) (lst.getD 5 Value.default) (lst.getD 6 Value.default) (lst.getD 7 Value.default) (lst.getD 8 Value.default) (lst.getD 9 Value.default) (lst.getD 10 Value.default) (lst.getD 11 Value.default) (lst.getD 12 Value.default))
          [tc1, tc2, tc3, tc4, tc5, tc6, tc7, tc8, tc9, tc10, tc11, tc12, tc13] [a, b, c, d, e, f, g, h, i, j, k, l, m] []) ∧
  (∀ (ρ : Type) (rv : RV ρ) (tc1 : TryConv Value) (tc2 : TryConv Value) (tc3 : TryConv Value) (tc4 : TryConv Value) (tc5 : TryConv Value) (tc6 : TryConv Value) (tc7 : TryConv Value) (tc8 : TryConv Value) (tc9 : TryConv Value) (tc10 : TryConv Value) (tc11 : TryConv Value) (tc12 : TryConv Value) (tc13 : TryConv Value) (tc14 : TryConv Value)
      (meth : Function14 Value Value Value Value Value Value Value Value Value Value Value Value Value Value ρ) (a b c d e f g h i j k l m n : Value),
    Function14.call_convert_value tc1 tc2 tc3 tc4 tc5 tc6 tc7 tc8 tc9 tc10 tc11 tc12 tc13 tc14 rv meth a b c d e f g h i j k l m n
      = spec_invoke_checked rv (fun lst => meth.func (lst.getD 0 Value.default) (lst.getD 1 Value.default) (lst.getD 2 Value.default) (lst.getD 3 Value.default) (lst.getD 4 Value.default) (lst.getD 5 Value.default) (lst.getD 6 Value.default) (lst.getD 7 Value.default) (lst.getD 8 Value.default) (lst.getD 9 Value.default) (lst.getD 10 Value.default) (lst.getD 11 Value.default) (lst.getD 12 Value.default) (lst.getD 13 Value.default))
          [tc1, tc2, tc3, tc4, tc5, tc6, tc7, tc8, tc9, tc10, tc11, tc12, tc13, tc14] [a, b, c, d, e, f, g, h, i, j, k, l, m, n] []) ∧
  (∀ (ρ : Type) (rv : RV ρ) (tc1 : TryConv Value) (tc2 : TryConv Value) (tc3 : TryConv Value) (tc4 : TryConv Value) (tc5 : TryConv Value) (tc6 : TryConv Value) (tc7 : TryConv Value) (tc8 : TryConv Value) (tc9 : TryConv Value) (tc10 : TryConv Value) (tc11 : TryConv Value) (tc12 : TryConv Value) (tc13 : TryConv Value) (tc14 : TryConv Value) (tc15 : TryConv Value)
      (meth : Function15 Value Value Value Value Value Value Value Value Value Value Value Value Value Value Value ρ) (a b c d e f g h i j k l m n o : Value),
    Function15.call_convert_value tc1 tc2 tc3 tc4 tc5 tc6 tc7 tc8 tc9 tc10 tc11 tc12 tc13 tc14 tc15 rv meth a b c d e f g h i j k l m n o
      = spec_invoke_checked rv (fun lst => meth.func (lst.getD 0 Value.default) (lst.getD 1 Value.default) (lst.getD 2 Value.default) (lst.getD 3 Value.default) (lst.getD 4 Value.default) (lst.getD 5 Value.default) (lst.getD 6 Value.default) (lst.getD 7 Value.default) (lst.getD 8 Value.default) (lst.getD 9 Value.default) (lst.getD 10 Value.default) (lst.getD 11 Value.default) (lst.getD 12 Value.default) (lst.getD 13 Value.default) (lst.getD 14 Value.default))
          [tc1, tc2, tc3, tc4, tc5, tc6, tc7, tc8, tc9, tc10, tc11, tc12, tc13, tc14, tc15] [a, b, c, d, e, f, g, h, i, j, k, l, m, n, o] []) ∧
  (∀ (ρ : Type) (rv : RV ρ) (tc1 : TryConv Value) (tc2 : TryConv Value) (tc3 : TryConv Value) (tc4 : TryConv Value) (tc5 : TryConv Value) (tc6 : TryConv Value) (tc7 : TryConv Value) (tc8 : TryConv Value) (tc9 : TryConv Value) (tc10 : TryConv Value) (tc11 : TryConv Value) (tc12 : TryConv Value) (tc13 : TryConv Value) (tc14 : TryConv Value) (tc15 : TryConv Value) (tc16 : TryConv Value)
      (meth : Function16 Value Value Value Value Value Value Value Value Value Value Value Value Value Value Value Value ρ) (a b c d e f g h i j k l m n o p : Value),
    Function16.call_convert_value tc1 tc2 tc3 tc4 tc5 tc6 tc7 tc8 tc9 tc10 tc11 tc12 tc13 tc14 tc15 tc16 rv meth a b c d e f g h i j k l m n o p
      = spec_invoke_checked rv (fun lst => meth.func (lst.getD 0 Value.default) (lst.getD 1 Value.default) (lst.getD 2 Value.default) (lst.getD 3 Value.default) (lst.getD 4 Value.default) (lst.getD 5 Value.default) (lst.getD 6 Value.default) (lst.getD 7 Value.default) (lst.getD 8 Value.default) (lst.getD 9 Value.default) (lst.getD 10 Value.default) (lst.getD 11 Value.default) (lst.getD 12 Value.default) (lst.getD 13 Value.default) (lst.getD 14 Value.default) (lst.getD 15 Value.default))
          [tc1, tc2, tc3, tc4, tc5, tc6, tc7, tc8, tc9, tc10, tc11, tc12, tc13, tc14, tc15, tc16] [a, b, c, d, e, f, g, h, i, j, k, l, m, n, o, p] []) :=
  ⟨by
    intro ρ rv f tcs vs ts xs tc v tb e rest vrest h hb
    exact spec_chain_fail rv f h hb rest vrest [],
   by intros; simp [Method0.call_convert_value, spec_invoke_checked, List.getD],
   by intros; simp [Method1.call_convert_value, spec_invoke_checked, List.getD],
   by intros; simp [Method2.call_convert_value, spec_invoke_checked, List.getD],
   by intros; simp [Method3.call_convert_value, spec_invoke_checked, List.getD],
   by intros; simp [Method4.call_convert_value, spec_invoke_checked, List.getD],
   by intros; simp [Method5.call_convert_value, spec_invoke_checked, List.getD],
   by intros; simp [Method6.call_convert_value, spec_invoke_checked, List.getD],
   by intros; simp [Method7.call_convert_value, spec_invoke_checked, List.getD],
   by intros; simp [Method8.call_convert_value, spec_invoke_checked, List.getD],
   by intros; simp [Method9.call_convert_value, spec_invoke_checked, List.getD],
   by intros; simp [Method10.call_convert_value, spec_invoke_checked, List.getD],
   by intros; simp [Method11.call_convert_value, spec_invoke_checked, List.getD],
   by intros; simp [Method12.call_convert_value, spec_invoke_checked, List.getD],
   by intros; simp [Method13.call_convert_value, spec_invoke_checked, List.getD],
   by intros; simp [Method14.call_convert_value, spec_invoke_checked, List.getD],
   by intros; simp [Method15.call_convert_value, spec_invoke_checked, List.getD],
   by intros; simp [Method16.call_convert_value, spec_invoke_checked, List.getD],
   by intros; simp [Function0.call_convert_value, spec_invoke_checked, List.getD],
   by intros; simp [Function1.call_convert_value, spec_invoke_checked, List.getD],
   by intros; simp [Function2.call_convert_value, spec_invoke_checked, List.getD],
   by intros; simp [Function3.call_convert_value, spec_invoke_checked, List.getD],
   by intros; simp [Function4.call_convert_value, spec_invoke_checked, List.getD],
   by intros; simp [Function5.call_convert_value, spec_invoke_checked, List.getD],
   by intros; simp [Function6.call_convert_value, spec_invoke_checked, List.getD],
   by intros; simp [Function7.call_convert_value, spec_invoke_checked, List.getD],
   by intros; simp [Function8.call_convert_value, spec_invoke_checked, List.getD],
   by intros; simp [Function9.call_convert_value, spec_invoke_checked, List.getD],
   by intros; simp [Function10.call_convert_value, spec_invoke_checked, List.getD],
   by intros; simp [Function11.call_convert_value, spec_invoke_checked, List.getD],
   by intros; simp [Function12.call_convert_value, spec_invoke_checked, List.getD],
   by intros; simp [Function13.call_convert_value, spec_invoke_checked, List.getD],
   by intros; simp [Function14.call_convert_value, spec_invoke_checked, List.getD],
   by intros; simp [Function15.call_convert_value, spec_invoke_checked, List.getD],
   by intros; simp [Function16.call_convert_value, spec_invoke_checked, List.getD]⟩

/-- Witness for C3: in a concrete three-position chain whose second
converter fails, only the first two conversions run and the user function
is not invoked. -/
theorem conversion_left_to_right_short_circuit_witness :
    spec_invoke_checked rvPlain fInvW ([tcIdOk 0] ++ tcFail 1 :: [tcIdOk 2])
      ([hv 1] ++ hv 2 :: [hv 3]) []
     = (([Ev.convert 0 (hv 1)] ++ []) ++ [Ev.convert 1 (hv 2)],
        Outcome.err errNoConv) :=
  conversion_left_to_right_short_circuit.1 Value rvPlain fInvW [tcIdOk 0] [hv 1]
    ([Ev.convert 0 (hv 1)] ++ []) [hv 1] (tcFail 1) (hv 2) [Ev.convert 1 (hv 2)]
    errNoConv [tcIdOk 2] [hv 3] (Converts.cons rfl Converts.nil) rfl

/-- C4 (counterexample): the raised error does not identify the position
of the failing argument.  Two concrete invocations of the arity-2 method
adapter, one failing conversion at argument position 0 and one at
position 1 (as the traces show: the first run never converts its second
argument), raise the very same error value, so no reading of the raised
error can recover which parameter failed. -/
theorem raised_error_does_not_identify_position :
    (Method2.call_handle_error (tcIdOk 0) (tcFail 1) (tcIdOk 2) rvPlain methW2
        (hv 1) (hv 2) (hv 3)
      = ([Ev.convert 0 (hv 1), Ev.convert 1 (hv 2)], BRes.raised errNoConv)) ∧
    (Method2.call_handle_error (tcIdOk 0) (tcIdOk 1) (tcFail 2) rvPlain methW2
        (hv 1) (hv 2) (hv 3)
      = ([Ev.convert 0 (hv 1), Ev.convert 1 (hv 2), Ev.convert 2 (hv 3)],
         BRes.raised errNoConv)) ∧
    ¬ ∃ dec : Error → Nat, dec errNoConv = 0 ∧ dec errNoConv = 1 := by
  refine ⟨rfl, rfl, ?_⟩
  rintro ⟨dec, h0, h1⟩
  omega

/-- C4 (amended): for all arities, if the K-th argument fails conversion
first, the raised error is exactly the typed error produced by that
argument's conversion contract (which carries the contract's own
description of the expected type; the adapter adds no position
information), and a typed error returned by the user function itself
propagates unchanged into the same raise path. -/
theorem first_failing_conversion_error_propagates :
  (∀ (ρ : Type) (rv : RV ρ) (f : List Value → PanicM ρ)
      (tcs : List (TryConv Value)) (vs : List Value) (ts : List Ev)
      (xs : List Value) (tc : TryConv Value) (v : Value) (tb : List Ev)
      (e : Error) (rest : List (TryConv Value)) (vrest : List Value),
    Converts tcs vs ts xs → tc.try_convert v = (tb, Outcome.err e) →
    boundary (spec_invoke_checked rv f (tcs ++ tc :: rest) (vs ++ v :: vrest) [])
      = (ts ++ tb, raise e)) ∧
  (∀ (α : Type) (iv : IV α) (tcs : List (TryConv Value)) (vs : List Value)
      (ts : List Ev) (xs : List Value) (e : Error),
    Converts tcs vs ts xs →
    boundary (spec_invoke_checked (RV.ofResult iv)
        (fun _ => ([], PanicOr.ok (Except.error e))) tcs vs [])
      = (ts, raise e)) ∧
  (∀ (ρ : Type) (rv : RV ρ) (tcS : TryConv Value)
      (meth : Method0 Value ρ) (rb_self : Value),
    Method0.call_handle_error tcS rv meth rb_self
      = boundary (spec_invoke_checked rv (fun lst => meth.func (lst.getD 0 Value.default))
          [tcS] [rb_self] [])) ∧
  (∀ (ρ : Type) (rv : RV ρ) (tcS : TryConv Value) (tc1 : TryConv Value)
      (meth : Method1 Value Value ρ) (rb_self a : Value),
    Method1.call_handle_error tcS tc1 rv meth rb_self a
      = boundary (spec_invoke_checked rv (fun lst => meth.func (lst.getD 0 Value.default) (lst.getD 1 Value.default))
          [tcS, tc1] [rb_self, a] [])) ∧
  (∀ (ρ : Type) (rv : RV ρ) (tcS : TryConv Value) (tc1 : TryConv Value) (tc2 : TryConv Value)
      (meth : Method2 Value Value Value ρ) (rb_self a b : Value),
    Method2.call_handle_error tcS tc1 tc2 rv meth rb_self a b
      = boundary (spec_invoke_checked rv (fun lst => meth.func (lst.getD 0 Value.default) (lst.getD 1 Value.default) (lst.getD 2 Value.default))
          [tcS, tc1, tc2] [rb_self, a, b] [])) ∧
  (∀ (ρ : Type) (rv : RV ρ) (tcS : TryConv Value) (tc1 : TryConv Value) (tc2 : TryConv Value) (tc3 : TryConv Value)
      (meth : Method3 Value Value Value Value ρ) (rb_self a b c : Value),
    Method3.call_handle_error tcS tc1 tc2 tc3 rv meth rb_self a b c
      = boundary (spec_invoke_checked rv (fun lst => meth.func (lst.getD 0 Value.default) (lst.getD 1 Value.default) (lst.getD 2 Value.default) (lst.getD 3 Value.default))
          [tcS, tc1, tc2, tc3] [rb_self, a, b, c] [])) ∧
  (∀ (ρ : Type) (rv : RV ρ) (tcS : TryConv Value) (tc1 : TryConv Value) (tc2 : TryConv Value) (tc3 : TryConv Value) (tc4 : TryConv Value)
      (meth : Method4 Value Value Value Value Value ρ) (rb_self a b c d : Value),
    Method4.call_handle_error tcS tc1 tc2 tc3 tc4 rv meth rb_self a b c d
      = boundary (spec_invoke_checked rv (fun lst => meth.func (lst.getD 0 Value.default) (lst.getD 1 Value.default) (lst.getD 2 Value.default) (lst.getD 3 Value.default) (lst.getD 4 Value.default))
          [tcS, tc1, tc2, tc3, tc4] [rb_self, a, b, c, d] [])) ∧
  (∀ (ρ : Type) (rv : RV ρ) (tcS : TryConv Value) (tc1 : TryConv Value) (tc2 : TryConv Value) (tc3 : TryConv Value) (tc4 : TryConv Value) (tc5 : TryConv Value)
      (meth : Method5 Value Value Value Value Value Value ρ) (rb_self a b c d e : Value),
    Method5.call_handle_error tcS tc1 tc2 tc3 tc4 tc5 rv meth rb_self a b c d e
      = boundary (spec_invoke_checked rv (fun lst => meth.func (lst.getD 0 Value.default) (lst.getD 1 Value.default) (lst.getD 2 Value.default) (lst.getD 3 Value.default) (lst.getD 4 Value.default) (lst.getD 5 Value.default))
          [tcS, tc1, tc2, tc3, tc4, tc5] [rb_self, a, b, c, d, e] [])) ∧
  (∀ (ρ : Type) (rv : RV ρ) (tcS : TryConv Value) (tc1 : TryConv Value) (tc2 : TryConv Value) (tc3 : TryConv Value) (tc4 : TryConv Value) (tc5 : TryConv Value) (tc6 : TryConv Value)
      (meth : Method6 Value Value Value Value Value Value Value ρ) (rb_self a b c d e f : Value),
    Method6.call_handle_error tcS tc1 tc2 tc3 tc4 tc5 tc6 rv meth rb_self a b c d e f
      = boundary (spec_invoke_checked rv (fun lst => meth.func (lst.getD 0 Value.default) (lst.getD 1 Value.default) (lst.getD 2 Value.default) (lst.getD 3 Value.default) (lst.getD 4 Value.default) (lst.getD 5 Value.default) (lst.getD 6 Value.default))
          [tcS, tc1, tc2, tc3, tc4, tc5, tc6] [rb_self, a, b, c, d, e, f] [])) ∧
  (∀ (ρ : Type) (rv : RV ρ) (tcS : TryConv Value) (tc1 : TryConv Value) (tc2 : TryConv Value) (tc3 : TryConv Value) (tc4 : TryConv Value) (tc5 : TryConv Value) (tc6 : TryConv Value) (tc7 : TryConv Value)
      (meth : Method7 Value Value Value Value Value Value Value Value ρ) (rb_self a b c d e f g : Value),
    Method7.call_handle_error tcS tc1 tc2 tc3 tc4 tc5 tc6 tc7 rv meth rb_self a b c d e f g
      = boundary (spec_invoke_checked rv (fun lst => meth.func (lst.getD 0 Value.default) (lst.getD 1 Value.default) (lst.getD 2 Value.default) (lst.getD 3 Value.default) (lst.getD 4 Value.default) (lst.getD 5 Value.default) (lst.getD 6 Value.default) (lst.getD 7 Value.default))
          [tcS, tc1, tc2, tc3, tc4, tc5, tc6, tc7] [rb_self, a, b, c, d, e, f, g] [])) ∧
  (∀ (ρ : Type) (rv : RV ρ) (tcS : TryConv Value) (tc1 : TryConv Value) (tc2 : TryConv Value) (tc3 : TryConv Value) (tc4 : TryConv Value) (tc5 : TryConv Value) (tc6 : TryConv Value) (tc7 : TryConv Value) (tc8 : TryConv Value)
      (meth : Method8 Value Value Value Value Value Value Value Value Value ρ) (rb_self a b c d e f g h : Value),
    Method8.call_handle_error tcS tc1 tc2 tc3 tc4 tc5 tc6 tc7 tc8 rv meth rb_self a b c d e f g h
      = boundary (spec_invoke_checked rv (fun lst => meth.func (lst.getD 0 Value.default) (lst.getD 1 Value.default) (lst.getD 2 Value.default) (lst.getD 3 Value.default) (lst.getD 4 Value.default) (lst.getD 5 Value.default) (lst.getD 6 Value.default) (lst.getD 7 Value.default) (lst.getD 8 Value.default))
          [tcS, tc1, tc2, tc3, tc4, tc5, tc6, tc7, tc8] [rb_self, a, b, c, d, e, f, g, h] [])) ∧
  (∀ (ρ : Type) (rv : RV ρ) (tcS : TryConv Value) (tc1 : TryConv Value) (tc2 : TryConv Value) (tc3 : TryConv Value) (tc4 : TryConv Value) (tc5 : TryConv Value) (tc6 : TryConv Value) (tc7 : TryConv Value) (tc8 : TryConv Value) (tc9 : TryConv Value)
      (meth : Method9 Value Value Value Value Value Value Value Value Value Value ρ) (rb_self a b c d e f g h i : Value),
    Method9.call_handle_error tcS tc1 tc2 tc3 tc4 tc5 tc6 tc7 tc8 tc9 rv meth rb_self a b c d e f g h i
      = boundary (spec_invoke_checked rv (fun lst => meth.func (lst.getD 0 Value.default) (lst.getD 1 Value.default) (lst.getD 2 Value.default) (lst.getD 3 Value.default) (lst.getD 4 Value.default) (lst.getD 5 Value.default) (lst.getD 6 Value.default) (lst.getD 7 Value.default) (lst.getD 8 Value.default) (lst.getD 9 Value.default))
          [tcS, tc1, tc2, tc3, tc4, tc5, tc6, tc7, tc8, tc9] [rb_self, a, b, c, d, e, f, g, h, i] [])) ∧
  (∀ (ρ : Type) (rv : RV ρ) (tcS : TryConv Value) (tc1 : TryConv Value) (tc2 : TryConv Value) (tc3 : TryConv Value) (tc4 : TryConv Value) (tc5 : TryConv Value) (tc6 : TryConv Value) (tc7 : TryConv Value) (tc8 : TryConv Value) (tc9 : TryConv Value) (tc10 : TryConv Value)
      (meth : Method10 Value Value Value Value Value Value Value Value Value Value Value ρ) (rb_self a b c d e f g h i j : Value),
    Method10.call_handle_error tcS tc1 tc2 tc3 tc4 tc5 tc6 tc7 tc8 tc9 tc10 rv meth rb_self a b c d e f g h i j
      = boundary (spec_invoke_checked rv (fun lst => meth.func (lst.getD 0 Value.default) (lst.getD 1 Value.default) (lst.getD 2 Value.default) (lst.getD 3 Value.default) (lst.getD 4 Value.default) (lst.getD 5 Value.default) (lst.getD 6 Value.default) (lst.getD 7 Value.default) (lst.getD 8 Value.default) (lst.getD 9 Value.default) (lst.getD 10 Value.default))
          [tcS, tc1, tc2, tc3, tc4, tc5, tc6, tc7, tc8, tc9, tc10] [rb_self, a, b, c, d, e, f, g, h, i, j] [])) ∧
  (∀ (ρ : Type) (rv : RV ρ) (tcS : TryConv Value) (tc1 : TryConv Value) (tc2 : TryConv Value) (tc3 : TryConv Value) (tc4 : TryConv Value) (tc5 : TryConv Value) (tc6 : TryConv Value) (tc7 : TryConv Value) (tc8 : TryConv Value) (tc9 : TryConv Value) (tc10 : TryConv Value) (tc11 : TryConv Value)
      (meth : Method11 Value Value Value Value Value Value Value Value Value Value Value Value ρ) (rb_self a b c d e f g h i j k : Value),
    Method11.call_handle_error tcS tc1 tc2 tc3 tc4 tc5 tc6 tc7 tc8 tc9 tc10 tc11 rv meth rb_self a b c d e f g h i j k
      = boundary (spec_invoke_checked rv (fun lst => meth.func (lst.getD 0 Value.default) (lst.getD 1 Value.default) (lst.getD 2 Value.default) (lst.getD 3 Value.default) (lst.getD 4 Value.default) (lst.getD 5 Value.default) (lst.getD 6 Value.default) (lst.getD 7 Value.default) (lst.getD 8 Value.default) (lst.getD 9 Value.default) (lst.getD 10 Value.default) (lst.getD 11 Value.default))
          [tcS, tc1, tc2, tc3, tc4, tc5, tc6, tc7, tc8, tc9, tc10, tc11] [rb_self, a, b, c, d, e, f, g, h, i, j, k] [])) ∧
  (∀ (ρ : Type) (rv : RV ρ) (tcS : TryConv Value) (tc1 : TryConv Value) (tc2 : TryConv Value) (tc3 : TryConv Value) (tc4 : TryConv Value) (tc5 : TryConv Value) (tc6 : TryConv Value) (tc7 : TryConv Value) (tc8 : TryConv Value) (tc9 : TryConv Value) (tc10 : TryConv Value) (tc11 : TryConv Value) (tc12 : TryConv Value)
      (meth : Method12 Value Value Value Value Value Value Value Value Value Value Value Value Value ρ) (rb_self a b c d e f g h i j k l : Value),
    Method12.call_handle_error tcS tc1 tc2 tc3 tc4 tc5 tc6 tc7 tc8 tc9 tc10 tc11 tc12 rv meth rb_self a b c d e f g h i j k l
      = boundary (spec_invoke_checked rv (fun lst => meth.func (lst.getD 0 Value.default) (lst.getD 1 Value.default) (lst.getD 2 Value.default) (lst.getD 3 Value.default) (lst.getD 4 Value.default) (lst.getD 5 Value.default) (lst.getD 6 Value.default) (lst.getD 7 Value.default) (lst.getD 8 Value.default) (lst.getD 9 Value.default) (lst.getD 10 Value.default) (lst.getD 11 Value.default) (lst.getD 12 Value.default))
          [tcS, tc1, tc2, tc3, tc4, tc5, tc6, tc7, tc8, tc9, tc10, tc11, tc12] [rb_self, a, b, c, d, e, f, g, h, i, j, k, l] [])) ∧
  (∀ (ρ : Type) (rv : RV ρ) (tcS : TryConv Value) (tc1 : TryConv Value) (tc2 : TryConv Value) (tc3 : TryConv Value) (tc4 : TryConv Value) (tc5 : TryConv Value) (tc6 : TryConv Value) (tc7 : TryConv Value) (tc8 : TryConv Value) (tc9 : TryConv Value) (tc10 : TryConv Value) (tc11 : TryConv Value) (tc12 : TryConv Value) (tc13 : TryConv Value)
      (meth : Method13 Value Value Value Value Value Value Value Value Value Value Value Value Value Value ρ) (rb_self a b c d e f g h i j k l m : Value),
    Method13.call_handle_error tcS tc1 tc2 tc3 tc4 tc5 tc6 tc7 tc8 tc9 tc10 tc11 tc12 tc13 rv meth rb_self a b c d e f g h i j k l m
      = boundary (spec_invoke_checked rv (fun lst => meth.func (lst.getD 0 Value.default) (lst.getD 1 Value.default) (lst.getD 2 Value.default) (lst.getD 3 Value.default) (lst.getD 4 Value.default) (lst.getD 5 Value.default) (lst.getD 6 Value.default) (lst.getD 7 Value.default) (lst.getD 8 Value.default) (lst.getD 9 Value.default) (lst.getD 10 Value.default) (lst.getD 11 Value.default) (lst.getD 12 Value.default) (lst.getD 13 Value.default))
          [tcS, tc1, tc2, tc3, tc4, tc5, tc6, tc7, tc8, tc9, tc10, tc11, tc12, tc13] [rb_self, a, b, c, d, e, f, g, h, i, j, k, l, m] [])) ∧
  (∀ (ρ : Type) (rv : RV ρ) (tcS : TryConv Value) (tc1 : TryConv Value) (tc2 : TryConv Value) (tc3 : TryConv Value) (tc4 : TryConv Value) (tc5 : TryConv Value) (tc6 : TryConv Value) (tc7 : TryConv Value) (tc8 : TryConv Value) (tc9 : TryConv Value) (tc10 : TryConv Value) (tc11 : TryConv Value) (tc12 : TryConv Value) (tc13 : TryConv Value) (tc14 : TryConv Value)
      (meth : Method14 Value Value Value Value Value Value Value Value Value Value Value Value Value Value Value ρ) (rb_self a b c d e f g h i j k l m n : Value),
    Method14.call_handle_error tcS tc1 tc2 tc3 tc4 tc5 tc6 tc7 tc8 tc9 tc10 tc11 tc12 tc13 tc14 rv meth rb_self a b c d e f g h i j k l m n
      = boundary (spec_invoke_checked rv (fun lst => meth.func (lst.getD 0 Value.default) (lst.getD 1 Value.default) (lst.getD 2 Value.default) (lst.getD 3 Value.default) (lst.getD 4 Value.default) (lst.getD 5 Value.default) (lst.getD 6 Value.default) (lst.getD 7 Value.default) (lst.getD 8 Value.default) (lst.getD 9 Value.default) (lst.getD 10 Value.default) (lst.getD 11 Value.default) (lst.getD 12 Value.default) (lst.getD 13 Value.default) (lst.getD 14 Value.default))
          [tcS, tc1, tc2, tc3, tc4, tc5, tc6, tc7, tc8, tc9, tc10, tc11, tc12, tc13, tc14] [rb_self, a, b, c, d, e, f, g, h, i, j, k, l, m, n] [])) ∧
  (∀ (ρ : Type) (rv : RV ρ) (tcS : TryConv Value) (tc1 : TryConv Value) (tc2 : TryConv Value) (tc3 : TryConv Value) (tc4 : TryConv Value) (tc5 : TryConv Value) (tc6 : TryConv Value) (tc7 : TryConv Value) (tc8 : TryConv Value) (tc9 : TryConv Value) (tc10 : TryConv Value) (tc11 : TryConv Value) (tc12 : TryConv Value) (tc13 : TryConv Value) (tc14 : TryConv Value) (tc15 : TryConv Value)
      (meth : Method15 Value Value Value Value Value Value Value Value Value Value Value Value Value Value Value Value ρ) (rb_self a b c d e f g h i j k l m n o : Value),
    Method15.call_handle_error tcS tc1 tc2 tc3 tc4 tc5 tc6 tc7 tc8 tc9 tc10 tc11 tc12 tc13 tc14 tc15 rv meth rb_self a b c d e f g h i j k l m n o
      = boundary (spec_invoke_checked rv (fun lst => meth.func (lst.getD 0 Value.default) (lst.getD 1 Value.default) (lst.getD 2 Value.default) (lst.getD 3 Value.default) (lst.getD 4 Value.default) (lst.getD 5 Value.default) (lst.getD 6 Value.default) (lst.getD 7 Value.default) (lst.getD 8 Value.default) (lst.getD 9 Value.default) (lst.getD 10 Value.default) (lst.getD 11 Value.default) (lst.getD 12 Value.default) (lst.getD 13 Value.default) (lst.getD 14 Value.default) (lst.getD 15 Value.default))
          [tcS, tc1, tc2, tc3, tc4, tc5, tc6, tc7, tc8, tc9, tc10, tc11, tc12, tc13, tc14, tc15] [rb_self, a, b, c, d, e, f, g, h, i, j, k, l, m, n, o] [])) ∧
  (∀ (ρ : Type) (rv : RV ρ) (tcS : TryConv Value) (tc1 : TryConv Value) (tc2 : TryConv Value) (tc3 : TryConv Value) (tc4 : TryConv Value) (tc5 : TryConv Value) (tc6 : TryConv Value) (tc7 : TryConv Value) (tc8 : TryConv Value) (tc9 : TryConv Value) (tc10 : TryConv Value) (tc11 : TryConv Value) (tc12 : TryConv Value) (tc13 : TryConv Value) (tc14 : TryConv Value) (tc15 : TryConv Value) (tc16 : TryConv Value)
      (meth : Method16 Value Value Value Value Value Value Value Value Value Value Value Value Value Value Value Value Value ρ) (rb_self a b c d e f g h i j k l m n o p : Value),
    Method16.call_handle_error tcS tc1 tc2 tc3 tc4 tc5 tc6 tc7 tc8 tc9 tc10 tc11 tc12 tc13 tc14 tc15 tc16 rv meth rb_self a b c d e f g h i j k l m n o p
      = boundary (spec_invoke_checked rv (fun lst => meth.func (lst.getD 0 Value.default) (lst.getD 1 Value.default) (lst.getD 2 Value.default) (lst.getD 3 Value.default) (lst.getD 4 Value.default) (lst.getD 5 Value.default) (lst.getD 6 Value.default) (lst.getD 7 Value.default) (lst.getD 8 Value.default) (lst.getD 9 Value.default) (lst.getD 10 Value.default) (lst.getD 11 Value.default) (lst.getD 12 Value.default) (lst.getD 13 Value.default) (lst.getD 14 Value.default) (lst.getD 15 Value.default) (lst.getD 16 Value.default))
          [tcS, tc1, tc2, tc3, tc4, tc5, tc6, tc7, tc8, tc9, tc10, tc11, tc12, tc13, tc14, tc15, tc16] [rb_self, a, b, c, d, e, f, g, h, i, j, k, l, m, n, o, p] [])) ∧
  (∀ (ρ : Type) (rv : RV ρ)
      (meth : Function0 ρ),
    Function0.call_handle_error rv meth
      = boundary (spec_invoke_checked rv (fun _ => meth.func ())
          [] [] [])) ∧
  (∀ (ρ : Type) (rv : RV ρ) (tc1 : TryConv Value)
      (meth : Function1 Value ρ) (a : Value),
    Function1.call_handle_error tc1 rv meth a
      = boundary (spec_invoke_checked rv (fun lst => meth.func (lst.getD 0 Value.default))
          [tc1] [a] [])) ∧
  (∀ (ρ : Type) (rv : RV ρ) (tc1 : TryConv Value) (tc2 : TryConv Value)
      (meth : Function2 Value Value ρ) (a b : Value),
    Function2.call_handle_error tc1 tc2 rv meth a b
      = boundary (spec_invoke_checked rv (fun lst => meth.func (lst.getD 0 Value.default) (lst.getD 1 Value.default))
          [tc1, tc2] [a, b] [])) ∧
  (∀ (ρ : Type) (rv : RV ρ) (tc1 : TryConv Value) (tc2 : TryConv Value) (tc3 : TryConv Value)
      (meth : Function3 Value Value Value ρ) (a b c : Value),
    Function3.call_handle_error tc1 tc2 tc3 rv meth a b c
      = boundary (spec_invoke_checked rv (fun lst => meth.func (lst.getD 0 Value.default) (lst.getD 1 Value.default) (lst.getD 2 Value.default))
          [tc1, tc2, tc3] [a, b, c] [])) ∧
  (∀ (ρ : Type) (rv : RV ρ) (tc1 : TryConv Value) (tc2 : TryConv Value) (tc3 : TryConv Value) (tc4 : TryConv Value)
      (meth : Function4 Value Value Value Value ρ) (a b c d : Value),
    Function4.call_handle_error tc1 tc2 tc3 tc4 rv meth a b c d
      = boundary (spec_invoke_checked rv (fun lst => meth.func (lst.getD 0 Value.default) (lst.getD 1 Value.default) (lst.getD 2 Value.default) (lst.getD 3 Value.default))
          [tc1, tc2, tc3, tc4] [a, b, c, d] [])) ∧
  (∀ (ρ : Type) (rv : RV ρ) (tc1 : TryConv Value) (tc2 : TryConv Value) (tc3 : TryConv Value) (tc4 : TryConv Value) (tc5 : TryConv Value)
      (meth : Function5 Value Value Value Value Value ρ) (a b c d e : Value),
    Function5.call_handle_error tc1 tc2 tc3 tc4 tc5 rv meth a b c d e
      = boundary (spec_invoke_checked rv (fun lst => meth.func (lst.getD 0 Value.default) (lst.getD 1 Value.default) (lst.getD 2 Value.default) (lst.getD 3 Value.default) (lst.getD 4 Value.default))
          [tc1, tc2, tc3, tc4, tc5] [a, b, c, d, e] [])) ∧
  (∀ (ρ : Type) (rv : RV ρ) (tc1 : TryConv Value) (tc2 : TryConv Value) (tc3 : TryConv Value) (tc4 : TryConv Value) (tc5 : TryConv Value) (tc6 : TryConv Value)
      (meth : Function6 Value Value Value Value Value Value ρ) (a b c d e f : Value),
    Function6.call_handle_error tc1 tc2 tc3 tc4 tc5 tc6 rv meth a b c d e f
      = boundary (spec_invoke_checked rv (fun lst => meth.func (lst.getD 0 Value.default) (lst.getD 1 Value.default) (lst.getD 2 Value.default) (lst.getD 3 Value.default) (lst.getD 4 Value.default) (lst.getD 5 Value.default))
          [tc1, tc2, tc3, tc4, tc5, tc6] [a, b, c, d, e, f] [])) ∧
  (∀ (ρ : Type) (rv : RV ρ) (tc1 : TryConv Value) (tc2 : TryConv Value) (tc3 : TryConv Value) (tc4 : TryConv Value) (tc5 : TryConv Value) (tc6 : TryConv Value) (tc7 : TryConv Value)
      (meth : Function7 Value Value Value Value Value Value Value ρ) (a b c d e f g : Value),
    Function7.call_handle_error tc1 tc2 tc3 tc4 tc5 tc6 tc7 rv meth a b c d e f g
      = boundary (spec_invoke_checked rv (fun lst => meth.func (lst.getD 0 Value.default) (lst.getD 1 Value.default) (lst.getD 2 Value.default) (lst.getD 3 Value.default) (lst.getD 4 Value.default) (lst.getD 5 Value.default) (lst.getD 6 Value.default))
          [tc1, tc2, tc3, tc4, tc5, tc6, tc7] [a, b, c, d, e, f, g] [])) ∧
  (∀ (ρ : Type) (rv : RV ρ) (tc1 : TryConv Value) (tc2 : TryConv Value) (tc3 : TryConv Value) (tc4 : TryConv Value) (tc5 : TryConv Value) (tc6 : TryConv Value) (tc7 : TryConv Value) (tc8 : TryConv Value)
      (meth : Function8 Value Value Value Value Value Value Value Value ρ) (a b c d e f g h : Value),
    Function8.call_handle_error tc1 tc2 tc3 tc4 tc5 tc6 tc7 tc8 rv meth a b c d e f g h
      = boundary (spec_invoke_checked rv (fun lst => meth.func (lst.getD 0 Value.default) (lst.getD 1 Value.default) (lst.getD 2 Value.default) (lst.getD 3 Value.default) (lst.getD 4 Value.default) (lst.getD 5 Value.default) (lst.getD 6 Value.default) (lst.getD 7 Value.default))
          [tc1, tc2, tc3, tc4, tc5, tc6, tc7, tc8] [a, b, c, d, e, f, g, h] [])) ∧
  (∀ (ρ : Type) (rv : RV ρ) (tc1 : TryConv Value) (tc2 : TryConv Value) (tc3 : TryConv Value) (tc4 : TryConv Value) (tc5 : TryConv Value) (tc6 : TryConv Value) (tc7 : TryConv Value) (tc8 : TryConv Value) (tc9 : TryConv Value)
      (meth : Function9 Value Value Value Value Value Value Value Value Value ρ) (a b c d e f g h i : Value),
    Function9.call_handle_error tc1 tc2 tc3 tc4 tc5 tc6 tc7 tc8 tc9 rv meth a b c d e f g h i
      = boundary (spec_invoke_checked rv (fun lst => meth.func (lst.getD 0 Value.default) (lst.getD 1 Value.default) (lst.getD 2 Value.default) (lst.getD 3 Value.default) (lst.getD 4 Value.default) (lst.getD 5 Value.default) (lst.getD 6 Value.default) (lst.getD 7 Value.default) (lst.getD 8 Value.default))
          [tc1, tc2, tc3, tc4, tc5, tc6, tc7, tc8, tc9] [a, b, c, d, e, f, g, h, i] [])) ∧
  (∀ (ρ : Type) (rv : RV ρ) (tc1 : TryConv Value) (tc2 : TryConv Value) (tc3 : TryConv Value) (tc4 : TryConv Value) (tc5 : TryConv Value) (tc6 : TryConv Value) (tc7 : TryConv Value) (tc8 : TryConv Value) (tc9 : TryConv Value) (tc10 : TryConv Value)
      (meth : Function10 Value Value Value Value Value Value Value Value Value Value ρ) (a b c d e f g h i j : Value),
    Function10.call_handle_error tc1 tc2 tc3 tc4 tc5 tc6 tc7 tc8 tc9 tc10 rv meth a b c d e f g h i j
      = boundary (spec_invoke_checked rv (fun lst => meth.func (lst.getD 0 Value.default) (lst.getD 1 Value.default) (lst.getD 2 Value.default) (lst.getD 3 Value.default) (lst.getD 4 Value.default) (lst.getD 5 Value.default) (lst.getD 6 Value.default) (lst.getD 7 Value.default) (lst.getD 8 Value.default) (lst.getD 9 Value.default))
          [tc1, tc2, tc3, tc4, tc5, tc6, tc7, tc8, tc9, tc10] [a, b, c, d, e, f, g, h, i, j] [])) ∧
  (∀ (ρ : Type) (rv : RV ρ) (tc1 : TryConv Value) (tc2 : TryConv Value) (tc3 : TryConv Value) (tc4 : TryConv Value) (tc5 : TryConv Value) (tc6 : TryConv Value) (tc7 : TryConv Value) (tc8 : TryConv Value) (tc9 : TryConv Value) (tc10 : TryConv Value) (tc11 : TryConv Value)
      (meth : Function11 Value Value Value Value Value Value Value Value Value Value Value ρ) (a b c d e f g h i j k : Value),
    Function11.call_handle_error tc1 tc2 tc3 tc4 tc5 tc6 tc7 tc8 tc9 tc10 tc11 rv meth a b c d e f g h i j k
      = boundary (spec_invoke_checked rv (fun lst => meth.func (lst.getD 0 Value.default) (lst.getD 1 Value.default) (lst.getD 2 Value.default) (lst.getD 3 Value.default) (lst.getD 4 Value.default) (lst.getD 5 Value.default) (lst.getD 6 Value.default) (lst.getD 7 Value.default) (lst.getD 8 Value.default) (lst.getD 9 Value.default) (lst.getD 10 Value.default))
          [tc1, tc2, tc3, tc4, tc5, tc6, tc7, tc8, tc9, tc10, tc11] [a, b, c, d, e, f, g, h, i, j, k] [])) ∧
  (∀ (ρ : Type) (rv : RV ρ) (tc1 : TryConv Value) (tc2 : TryConv Value) (tc3 : TryConv Value) (tc4 : TryConv Value) (tc5 : TryConv Value) (tc6 : TryConv Value) (tc7 : TryConv Value) (tc8 : TryConv Value) (tc9 : TryConv Value) (tc10 : TryConv Value) (tc11 : TryConv Value) (tc12 : TryConv Value)
      (meth : Function12 Value Value Value Value Value Value Value Value Value Value Value Value ρ) (a b c d e f g h i j k l : Value),
    Function12.call_handle_error tc1 tc2 tc3 tc4 tc5 tc6 tc7 tc8 tc9 tc10 tc11 tc12 rv meth a b c d e f g h i j k l
      = boundary (spec_invoke_checked rv (fun lst => meth.func (lst.getD 0 Value.default) (lst.getD 1 Value.default) (lst.getD 2 Value.default) (lst.getD 3 Value.default) (lst.getD 4 Value.default) (lst.getD 5 Value.default) (lst.getD 6 Value.default) (lst.getD 7 Value.default) (lst.getD 8 Value.default) (lst.getD 9 Value.default) (lst.getD 10 Value.default) (lst.getD 11 Value.default))
          [tc1, tc2, tc3, tc4, tc5, tc6, tc7, tc8, tc9, tc10, tc11, tc12] [a, b, c, d, e, f, g, h, i, j, k, l] [])) ∧
  (∀ (ρ : Type) (rv : RV ρ) (tc1 : TryConv Value) (tc2 : TryConv Value) (tc3 : TryConv Value) (tc4 : TryConv Value) (tc5 : TryConv Value) (tc6 : TryConv Value) (tc7 : TryConv Value) (tc8 : TryConv Value) (tc9 : TryConv Value) (tc10 : TryConv Value) (tc11 : TryConv Value) (tc12 : TryConv Value) (tc13 : TryConv Value)
      (meth : Function13 Value Value Value Value Value Value Value Value Value Value Value Value Value ρ) (a b c d e f g h i j k l m : Value),
    Function13.call_handle_error tc1 tc2 tc3 tc4 tc5 tc6 tc7 tc8 tc9 tc10 tc11 tc12 tc13 rv meth a b c d e f g h i j k l m
      = boundary (spec_invoke_checked rv (fun lst => meth.func (lst.getD 0 Value.default) (lst.getD 1 Value.default) (lst.getD 2 Value.default) (lst.getD 3 Value.default) (lst.getD 4 Value.default) (lst.getD 5 Value.default) (lst.getD 6 Value.default) (lst.getD 7 Value.default) (lst.getD 8 Value.default) (lst.getD 9 Value.default) (lst.getD 10 Value.default) (lst.getD 11 Value.default) (lst.getD 12 Value.default))
          [tc1, tc2, tc3, tc4, tc5, tc6, tc7, tc8, tc9, tc10, tc11, tc12, tc13] [a, b, c, d, e, f, g, h, i, j, k, l, m] [])) ∧
  (∀ (ρ : Type) (rv : RV ρ) (tc1 : TryConv Value) (tc2 : TryConv Value) (tc3 : TryConv Value) (tc4 : TryConv Value) (tc5 : TryConv Value) (tc6 : TryConv Value) (tc7 : TryConv Value) (tc8 : TryConv Value) (tc9 : TryConv Value) (tc10 : TryConv Value) (tc11 : TryConv Value) (tc12 : TryConv Value) (tc13 : TryConv Value) (tc14 : TryConv Value)
      (meth : Function14 Value Value Value Value Value Value Value Value Value Value Value Value Value Value ρ) (a b c d e f g h i j k l m n : Value),
    Function14.call_handle_error tc1 tc2 tc3 tc4 tc5 tc6 tc7 tc8 tc9 tc10 tc11 tc12 tc13 tc14 rv meth a b c d e f g h i j k l m n
      = boundary (spec_invoke_checked rv (fun lst => meth.func (lst.getD 0 Value.default) (lst.getD 1 Value.default) (lst.getD 2 Value.default) (lst.getD 3 Value.default) (lst.getD 4 Value.default) (lst.getD 5 Value.default) (lst.getD 6 Value.default) (lst.getD 7 Value.default) (lst.getD 8 Value.default) (lst.getD 9 Value.default) (lst.getD 10 Value.default) (lst.getD 11 Value.default) (lst.getD 12 Value.default) (lst.getD 13 Value.default))
          [tc1, tc2, tc3, tc4, tc5, tc6, tc7, tc8, tc9, tc10, tc11, tc12, tc13, tc14] [a, b, c, d, e, f, g, h, i, j, k, l, m, n] [])) ∧
  (∀ (ρ : Type) (rv : RV ρ) (tc1 : TryConv Value) (tc2 : TryConv Value) (tc3 : TryConv Value) (tc4 : TryConv Value) (tc5 : TryConv Value) (tc6 : TryConv Value) (tc7 : TryConv Value) (tc8 : TryConv Value) (tc9 : TryConv Value) (tc10 : TryConv Value) (tc11 : TryConv Value) (tc12 : TryConv Value) (tc13 : TryConv Value) (tc14 : TryConv Value) (tc15 : TryConv Value)
      (meth : Function15 Value Value Value Value Value Value Value Value Value Value Value Value Value Value Value ρ) (a b c d e f g h i j k l m n o : Value),
    Function15.call_handle_error tc1 tc2 tc3 tc4 tc5 tc6 tc7 tc8 tc9 tc10 tc11 tc12 tc13 tc14 tc15 rv meth a b c d e f g h i j k l m n o
      = boundary (spec_invoke_checked rv (fun lst => meth.func (lst.getD 0 Value.default) (lst.getD 1 Value.default) (lst.getD 2 Value.default) (lst.getD 3 Value.default) (lst.getD 4 Value.default) (lst.getD 5 Value.default) (lst.getD 6 Value.default) (lst.getD 7 Value.default) (lst.getD 8 Value.default) (lst.getD 9 Value.default) (lst.getD 10 Value.default) (lst.getD 11 Value.default) (lst.getD 12 Value.default) (lst.getD 13 Value.default) (lst.getD 14 Value.default))
          [tc1, tc2, tc3, tc4, tc5, tc6, tc7, tc8, tc9, tc10, tc11, tc12, tc13, tc14, tc15] [a, b, c, d, e, f, g, h, i, j, k, l, m, n, o] [])) ∧
  (∀ (ρ : Type) (rv : RV ρ) (tc1 : TryConv Value) (tc2 : TryConv Value) (tc3 : TryConv Value) (tc4 : TryConv Value) (tc5 : TryConv Value) (tc6 : TryConv Value) (tc7 : TryConv Value) (tc8 : TryConv Value) (tc9 : TryConv Value) (tc10 : TryConv Value) (tc11 : TryConv Value) (tc12 : TryConv Value) (tc13 : TryConv Value) (tc14 : TryConv Value) (tc15 : TryConv Value) (tc16 : TryConv Value)
      (meth : Function16 Value Value Value Value Value Value Value Value Value Value Value Value Value Value Value Value ρ) (a b c d e f g h i j k l m n o p : Value),
    Function16.call_handle_error tc1 tc2 tc3 tc4 tc5 tc6 tc7 tc8 tc9 tc10 tc11 tc12 tc13 tc14 tc15 tc16 rv meth a b c d e f g h i j k l m n o p
      = boundary (spec_invoke_checked rv (fun lst => meth.func (lst.getD 0 Value.default) (lst.getD 1 Value.default) (lst.getD 2 Value.default) (lst.getD 3 Value.default) (lst.getD 4 Value.default) (lst.getD 5 Value.default) (lst.getD 6 Value.default) (lst.getD 7 Value.default) (lst.getD 8 Value.default) (lst.getD 9 Value.default) (lst.getD 10 Value.default) (lst.getD 11 Value.default) (lst.getD 12 Value.default) (lst.getD 13 Value.default) (lst.getD 14 Value.default) (lst.getD 15 Value.default))
          [tc1, tc2, tc3, tc4, tc5, tc6, tc7, tc8, tc9, tc10, tc11, tc12, tc13, tc14, tc15, tc16] [a, b, c, d, e, f, g, h, i, j, k, l, m, n, o, p] [])) :=
  ⟨by
    intro ρ rv f tcs vs ts xs tc v tb e rest vrest h hb
    rw [spec_chain_fail rv f h hb rest vrest []]
    simp [boundary, catch_unwind, raise],
   by
    intro α iv tcs vs ts xs e h
    rw [spec_chain_ok (RV.ofResult iv) _ h []]
    simp [tracePre, toM, M.bind, RV.ofResult, boundary, catch_unwind, raise],
   by intros; simp [Method0.call_handle_error, Method0.call_convert_value,
      spec_invoke_checked, List.getD],
   by intros; simp [Method1.call_handle_error, Method1.call_convert_value,
      spec_invoke_checked, List.getD],
   by intros; simp [Method2.call_handle_error, Method2.call_convert_value,
      spec_invoke_checked, List.getD],
   by intros; simp [Method3.call_handle_error, Method3.call_convert_value,
      spec_invoke_checked, List.getD],
   by intros; simp [Method4.call_handle_error, Method4.call_convert_value,
      spec_invoke_checked, List.getD],
   by intros; simp [Method5.call_handle_error, Method5.call_convert_value,
      spec_invoke_checked, List.getD],
   by intros; simp [Method6.call_handle_error, Method6.call_convert_value,
      spec_invoke_checked, List.getD],
   by intros; simp [Method7.call_handle_error, Method7.call_convert_value,
      spec_invoke_checked, List.getD],
   by intros; simp [Method8.call_handle_error, Method8.call_convert_value,
      spec_invoke_checked, List.getD],
   by intros; simp [Method9.call_handle_error, Method9.call_convert_value,
      spec_invoke_checked, List.getD],
   by intros; simp [Method10.call_handle_error, Method10.call_convert_value,
      spec_invoke_checked, List.getD],
   by intros; simp [Method11.call_handle_error, Method11.call_convert_value,
      spec_invoke_checked, List.getD],
   by intros; simp [Method12.call_handle_error, Method12.call_convert_value,
      spec_invoke_checked, List.getD],
   by intros; simp [Method13.call_handle_error, Method13.call_convert_value,
      spec_invoke_checked, List.getD],
   by intros; simp [Method14.call_handle_error, Method14.call_convert_value,
      spec_invoke_checked, List.getD],
   by intros; simp [Method15.call_handle_error, Method15.call_convert_value,
      spec_invoke_checked, List.getD],
   by intros; simp [Method16.call_handle_error, Method16.call_convert_value,
      spec_invoke_checked, List.getD],
   by intros; simp [Function0.call_handle_error, Function0.call_convert_value,
      spec_invoke_checked, List.getD],
   by intros; simp [Function1.call_handle_error, Function1.call_convert_value,
      spec_invoke_checked, List.getD],
   by intros; simp [Function2.call_handle_error, Function2.call_convert_value,
      spec_invoke_checked, List.getD],
   by intros; simp [Function3.call_handle_error, Function3.call_convert_value,
      spec_invoke_checked, List.getD],
   by intros; simp [Function4.call_handle_error, Function4.call_convert_value,
      spec_invoke_checked, List.getD],
   by intros; simp [Function5.call_handle_error, Function5.call_convert_value,
      spec_invoke_checked, List.getD],
   by intros; simp [Function6.call_handle_error, Function6.call_convert_value,
      spec_invoke_checked, List.getD],
   by intros; simp [Function7.call_handle_error, Function7.call_convert_value,
      spec_invoke_checked, List.getD],
   by intros; simp [Function8.call_handle_error, Function8.call_convert_value,
      spec_invoke_checked, List.getD],
   by intros; simp [Function9.call_handle_error, Function9.call_convert_value,
      spec_invoke_checked, List.getD],
   by intros; simp [Function10.call_handle_error, Function10.call_convert_value,
      spec_invoke_checked, List.getD],
   by intros; simp [Function11.call_handle_error, Function11.call_convert_value,
      spec_invoke_checked, List.getD],
   by intros; simp [Function12.call_handle_error, Function12.call_convert_value,
      spec_invoke_checked, List.getD],
   by intros; simp [Function13.call_handle_error, Function13.call_convert_value,
      spec_invoke_checked, List.getD],
   by intros; simp [Function14.call_handle_error, Function14.call_convert_value,
      spec_invoke_checked, List.getD],
   by intros; simp [Function15.call_handle_error, Function15.call_convert_value,
      spec_invoke_checked, List.getD],
   by intros; simp [Function16.call_handle_error, Function16.call_convert_value,
      spec_invoke_checked, List.getD]⟩

/-- Witness for C4 (amended): the concrete three-position chain whose
second converter fails raises exactly that converter's error. -/
theorem first_failing_conversion_error_propagates_witness :
    boundary (spec_invoke_checked rvPlain fInvW ([tcIdOk 0] ++ tcFail 1 :: [tcIdOk 2])
      ([hv 1] ++ hv 2 :: [hv 3]) [])
     = (([Ev.convert 0 (hv 1)] ++ []) ++ [Ev.convert 1 (hv 2)], raise errNoConv) :=
  first_failing_conversion_error_propagates.1 Value rvPlain fInvW [tcIdOk 0]
    [hv 1] ([Ev.convert 0 (hv 1)] ++ []) [hv 1] (tcFail 1) (hv 2)
    [Ev.convert 1 (hv 2)] errNoConv [tcIdOk 2] [hv 3]
    (Converts.cons rfl Converts.nil) rfl

/-- C5: For every lazy-sequence return shape (Yield, YieldValues,
YieldSplat), into_return_value on the Enumerator variant returns the
enumerator handle without driving the sequence (it emits no block
callback), whereas the Iter variant drives the iteration to exhaustion,
invoking the host block callback once per produced element in production
order, before returning the default handle; the Result forms unwrap and
delegate, propagating an error unchanged. -/
theorem yield_variants_enumerator_or_drive :
    (∀ (α : Type) (iv : IV α) (e : Enumerator),
      (RV.yield iv).into_return_value (Yield.Enumerator e)
        = ([], Outcome.ok e.asValue)) ∧
    (∀ (α : Type) (iv : IV α) (l : List α),
      (RV.yield iv).into_return_value (Yield.Iter l)
        = (l.map fun x => Ev.block_call (iv.into_value x),
           Outcome.ok Value.default)) ∧
    (∀ (α : Type) (al : ArgList α) (e : Enumerator),
      (RV.yieldValues al).into_return_value (YieldValues.Enumerator e)
        = ([], Outcome.ok e.asValue)) ∧
    (∀ (α : Type) (al : ArgList α) (l : List α),
      (RV.yieldValues al).into_return_value (YieldValues.Iter l)
        = (l.map fun x => Ev.block_call_values (al.as_args x),
           Outcome.ok Value.default)) ∧
    (∀ (e : Enumerator),
      RV.yieldSplat.into_return_value (YieldSplat.Enumerator e)
        = ([], Outcome.ok e.asValue)) ∧
    (∀ (l : List RArray),
      RV.yieldSplat.into_return_value (YieldSplat.Iter l)
        = (l.map fun r => Ev.block_call_splat r, Outcome.ok Value.default)) ∧
    (∀ (α : Type) (iv : IV α) (y : Yield α),
      (RV.yieldResult iv).into_return_value (Except.ok y)
        = (RV.yield iv).into_return_value y) ∧
    (∀ (α : Type) (iv : IV α) (e : Error),
      (RV.yieldResult iv).into_return_value (Except.error e)
        = ([], Outcome.err e)) :=
  ⟨by intros; rfl,
   by intros; simp [RV.yield, do_yield_iter, M.bind],
   by intros; rfl,
   by intros; simp [RV.yieldValues, do_yield_values_iter, M.bind],
   by intros; rfl,
   by intros; simp [RV.yieldSplat, do_yield_splat_iter, M.bind],
   by intros; rfl,
   by intros; rfl⟩

/-- C6: For every arity, the self-free (function-family) trampolines
never attempt to convert the self handle: the trampoline receives the
self slot but discards it, delegating to the self-free adapter, so the
result is independent of the self value and no conversion is ever
invoked on it. -/
theorem function_adapters_discard_self :
  (∀ (Args ρ : Type) (tcArgs : TryConv Args) (rv : RV ρ)
      (meth : FunctionRbAry Args ρ) (rb_self : Value) (args : RArray),
    function_tramp_rb_ary tcArgs rv meth rb_self args
      = FunctionRbAry.call_handle_error tcArgs rv meth args) ∧
  (∀ (ρ : Type) (rv : RV ρ) (meth : FunctionCAry ρ) (argc : Nat)
      (argv : Nat → Value) (rb_self : Value),
    function_tramp_c_ary rv meth argc argv rb_self
      = FunctionCAry.call_handle_error rv meth argc argv) ∧
  (∀ (ρ : Type) (rv : RV ρ) (meth : Function0 ρ) (rb_self : Value),
    function_tramp0 rv meth rb_self
      = Function0.call_handle_error rv meth) ∧
  (∀ (A1 ρ : Type) (tc1 : TryConv A1) (rv : RV ρ) (meth : Function1 A1 ρ) (a : Value) (rb_self : Value),
    function_tramp1 tc1 rv meth rb_self a
      = Function1.call_handle_error tc1 rv meth a) ∧
  (∀ (A1 A2 ρ : Type) (tc1 : TryConv A1) (tc2 : TryConv A2) (rv : RV ρ) (meth : Function2 A1 A2 ρ) (a b : Value) (rb_self : Value),
    function_tramp2 tc1 tc2 rv meth rb_self a b
      = Function2.call_handle_error tc1 tc2 rv meth a b) ∧
  (∀ (A1 A2 A3 ρ : Type) (tc1 : TryConv A1) (tc2 : TryConv A2) (tc3 : TryConv A3) (rv : RV ρ) (meth : Function3 A1 A2 A3 ρ) (a b c : Value) (rb_self : Value),
    function_tramp3 tc1 tc2 tc3 rv meth rb_self a b c
      = Function3.call_handle_error tc1 tc2 tc3 rv meth a b c) ∧
  (∀ (A1 A2 A3 A4 ρ : Type) (tc1 : TryConv A1) (tc2 : TryConv A2) (tc3 : TryConv A3) (tc4 : TryConv A4) (rv : RV ρ) (meth : Function4 A1 A2 A3 A4 ρ) (a b c d : Value) (rb_self : Value),
    function_tramp4 tc1 tc2 tc3 tc4 rv meth rb_self a b c d
      = Function4.call_handle_error tc1 tc2 tc3 tc4 rv meth a b c d) ∧
  (∀ (A1 A2 A3 A4 A5 ρ : Type) (tc1 : TryConv A1) (tc2 : TryConv A2) (tc3 : TryConv A3) (tc4 : TryConv A4) (tc5 : TryConv A5) (rv : RV ρ) (meth : Function5 A1 A2 A3 A4 A5 ρ) (a b c d e : Value) (rb_self : Value),
    function_tramp5 tc1 tc2 tc3 tc4 tc5 rv meth rb_self a b c d e
      = Function5.call_handle_error tc1 tc2 tc3 tc4 tc5 rv meth a b c d e) ∧
  (∀ (A1 A2 A3 A4 A5 A6 ρ : Type) (tc1 : TryConv A1) (tc2 : TryConv A2) (tc3 : TryConv A3) (tc4 : TryConv A4) (tc5 : TryConv A5) (tc6 : TryConv A6) (rv : RV ρ) (meth : Function6 A1 A2 A3 A4 A5 A6 ρ) (a b c d e f : Value) (rb_self : Value),
    function_tramp6 tc1 tc2 tc3 tc4 tc5 tc6 rv meth rb_self a b c d e f
      = Function6.call_handle_error tc1 tc2 tc3 tc4 tc5 tc6 rv meth a b c d e f) ∧
  (∀ (A1 A2 A3 A4 A5 A6 A7 ρ : Type) (tc1 : TryConv A1) (tc2 : TryConv A2) (tc3 : TryConv A3) (tc4 : TryConv A4) (tc5 : TryConv A5) (tc6 : TryConv A6) (tc7 : TryConv A7) (rv : RV ρ) (meth : Function7 A1 A2 A3 A4 A5 A6 A7 ρ) (a b c d e f g : Value) (rb_self : Value),
    function_tramp7 tc1 tc2 tc3 tc4 tc5 tc6 tc7 rv meth rb_self a b c d e f g
      = Function7.call_handle_error tc1 tc2 tc3 tc4 tc5 tc6 tc7 rv meth a b c d e f g) ∧
  (∀ (A1 A2 A3 A4 A5 A6 A7 A8 ρ : Type) (tc1 : TryConv A1) (tc2 : TryConv A2) (tc3 : TryConv A3) (tc4 : TryConv A4) (tc5 : TryConv A5) (tc6 : TryConv A6) (tc7 : TryConv A7) (tc8 : TryConv A8) (rv : RV ρ) (meth : Function8 A1 A2 A3 A4 A5 A6 A7 A8 ρ) (a b c d e f g h : Value) (rb_self : Value),
    function_tramp8 tc1 tc2 tc3 tc4 tc5 tc6 tc7 tc8 rv meth rb_self a b c d e f g h
      = Function8.call_handle_error tc1 tc2 tc3 tc4 tc5 tc6 tc7 tc8 rv meth a b c d e f g h) ∧
  (∀ (A1 A2 A3 A4 A5 A6 A7 A8 A9 ρ : Type) (tc1 : TryConv A1) (tc2 : TryConv A2) (tc3 : TryConv A3) (tc4 : TryConv A4) (tc5 : TryConv A5) (tc6 : TryConv A6) (tc7 : TryConv A7) (tc8 : TryConv A8) (tc9 : TryConv A9) (rv : RV ρ) (meth : Function9 A1 A2 A3 A4 A5 A6 A7 A8 A9 ρ) (a b c d e f g h i : Value) (rb_self : Value),
    function_tramp9 tc1 tc2 tc3 tc4 tc5 tc6 tc7 tc8 tc9 rv meth rb_self a b c d e f g h i
      = Function9.call_handle_error tc1 tc2 tc3 tc4 tc5 tc6 tc7 tc8 tc9 rv meth a b c d e f g h i) ∧
  (∀ (A1 A2 A3 A4 A5 A6 A7 A8 A9 A10 ρ : Type) (tc1 : TryConv A1) (tc2 : TryConv A2) (tc3 : TryConv A3) (tc4 : TryConv A4) (tc5 : TryConv A5) (tc6 : TryConv A6) (tc7 : TryConv A7) (tc8 : TryConv A8) (tc9 : TryConv A9) (tc10 : TryConv A10) (rv : RV ρ) (meth : Function10 A1 A2 A3 A4 A5 A6 A7 A8 A9 A10 ρ) (a b c d e f g h i j : Value) (rb_self : Value),
    function_tramp10 tc1 tc2 tc3 tc4 tc5 tc6 tc7 tc8 tc9 tc10 rv meth rb_self a b c d e f g h i j
      = Function10.call_handle_error tc1 tc2 tc3 tc4 tc5 tc6 tc7 tc8 tc9 tc10 rv meth a b c d e f g h i j) ∧
  (∀ (A1 A2 A3 A4 A5 A6 A7 A8 A9 A10 A11 ρ : Type) (tc1 : TryConv A1) (tc2 : TryConv A2) (tc3 : TryConv A3) (tc4 : TryConv A4) (tc5 : TryConv A5) (tc6 : TryConv A6) (tc7 : TryConv A7) (tc8 : TryConv A8) (tc9 : TryConv A9) (tc10 : TryConv A10) (tc11 : TryConv A11) (rv : RV ρ) (meth : Function11 A1 A2 A3 A4 A5 A6 A7 A8 A9 A10 A11 ρ) (a b c d e f g h i j k : Value) (rb_self : Value),
    function_tramp11 tc1 tc2 tc3 tc4 tc5 tc6 tc7 tc8 tc9 tc10 tc11 rv meth rb_self a b c d e f g h i j k
      = Function11.call_handle_error tc1 tc2 tc3 tc4 tc5 tc6 tc7 tc8 tc9 tc10 tc11 rv meth a b c d e f g h i j k) ∧
  (∀ (A1 A2 A3 A4 A5 A6 A7 A8 A9 A10 A11 A12 ρ : Type) (tc1 : TryConv A1) (tc2 : TryConv A2) (tc3 : TryConv A3) (tc4 : TryConv A4) (tc5 : TryConv A5) (tc6 : TryConv A6) (tc7 : TryConv A7) (tc8 : TryConv A8) (tc9 : TryConv A9) (tc10 : TryConv A10) (tc11 : TryConv A11) (tc12 : TryConv A12) (rv : RV ρ) (meth : Function12 A1 A2 A3 A4 A5 A6 A7 A8 A9 A10 A11 A12 ρ) (a b c d e f g h i j k l : Value) (rb_self : Value),
    function_tramp12 tc1 tc2 tc3 tc4 tc5 tc6 tc7 tc8 tc9 tc10 tc11 tc12 rv meth rb_self a b c d e f g h i j k l
      = Function12.call_handle_error tc1 tc2 tc3 tc4 tc5 tc6 tc7 tc8 tc9 tc10 tc11 tc12 rv meth a b c d e f g h i j k l) ∧
  (∀ (A1 A2 A3 A4 A5 A6 A7 A8 A9 A10 A11 A12 A13 ρ : Type) (tc1 : TryConv A1) (tc2 : TryConv A2) (tc3 : TryConv A3) (tc4 : TryConv A4) (tc5 : TryConv A5) (tc6 : TryConv A6) (tc7 : TryConv A7) (tc8 : TryConv A8) (tc9 : TryConv A9) (tc10 : TryConv A10) (tc11 : TryConv A11) (tc12 : TryConv A12) (tc13 : TryConv A13) (rv : RV ρ) (meth : Function13 A1 A2 A3 A4 A5 A6 A7 A8 A9 A10 A11 A12 A13 ρ) (a b c d e f g h i j k l m : Value) (rb_self : Value),
    function_tramp13 tc1 tc2 tc3 tc4 tc5 tc6 tc7 tc8 tc9 tc10 tc11 tc12 tc13 rv meth rb_self a b c d e f g h i j k l m
      = Function13.call_handle_error tc1 tc2 tc3 tc4 tc5 tc6 tc7 tc8 tc9 tc10 tc11 tc12 tc13 rv meth a b c d e f g h i j k l m) ∧
  (∀ (A1 A2 A3 A4 A5 A6 A7 A8 A9 A10 A11 A12 A13 A14 ρ : Type) (tc1 : TryConv A1) (tc2 : TryConv A2) (tc3 : TryConv A3) (tc4 : TryConv A4) (tc5 : TryConv A5) (tc6 : TryConv A6) (tc7 : TryConv A7) (tc8 : TryConv A8) (tc9 : TryConv A9) (tc10 : TryConv A10) (tc11 : TryConv A11) (tc12 : TryConv A12) (tc13 : TryConv A13) (tc14 : TryConv A14) (rv : RV ρ) (meth : Function14 A1 A2 A3 A4 A5 A6 A7 A8 A9 A10 A11 A12 A13 A14 ρ) (a b c d e f g h i j k l m n : Value) (rb_self : Value),
    function_tramp14 tc1 tc2 tc3 tc4 tc5 tc6 tc7 tc8 tc9 tc10 tc11 tc12 tc13 tc14 rv meth rb_self a b c d e f g h i j k l m n
      = Function14.call_handle_error tc1 tc2 tc3 tc4 tc5 tc6 tc7 tc8 tc9 tc10 tc11 tc12 tc13 tc14 rv meth a b c d e f g h i j k l m n) ∧
  (∀ (A1 A2 A3 A4 A5 A6 A7 A8 A9 A10 A11 A12 A13 A14 A15 ρ : Type) (tc1 : TryConv A1) (tc2 : TryConv A2) (tc3 : TryConv A3) (tc4 : TryConv A4) (tc5 : TryConv A5) (tc6 : TryConv A6) (tc7 : TryConv A7) (tc8 : TryConv A8) (tc9 : TryConv A9) (tc10 : TryConv A10) (tc11 : TryConv A11) (tc12 : TryConv A12) (tc13 : TryConv A13) (tc14 : TryConv A14) (tc15 : TryConv A15) (rv : RV ρ) (meth : Function15 A1 A2 A3 A4 A5 A6 A7 A8 A9 A10 A11 A12 A13 A14 A15 ρ) (a b c d e f g h i j k l m n o : Value) (rb_self : Value),
    function_tramp15 tc1 tc2 tc3 tc4 tc5 tc6 tc7 tc8 tc9 tc10 tc11 tc12 tc13 tc14 tc15 rv meth rb_self a b c d e f g h i j k l m n o
      = Function15.call_handle_error tc1 tc2 tc3 tc4 tc5 tc6 tc7 tc8 tc9 tc10 tc11 tc12 tc13 tc14 tc15 rv meth a b c d e f g h i j k l m n o) ∧
  (∀ (A1 A2 A3 A4 A5 A6 A7 A8 A9 A10 A11 A12 A13 A14 A15 A16 ρ : Type) (tc1 : TryConv A1) (tc2 : TryConv A2) (tc3 : TryConv A3) (tc4 : TryConv A4) (tc5 : TryConv A5) (tc6 : TryConv A6) (tc7 : TryConv A7) (tc8 : TryConv A8) (tc9 : TryConv A9) (tc10 : TryConv A10) (tc11 : TryConv A11) (tc12 : TryConv A12) (tc13 : TryConv A13) (tc14 : TryConv A14) (tc15 : TryConv A15) (tc16 : TryConv A16) (rv : RV ρ) (meth : Function16 A1 A2 A3 A4 A5 A6 A7 A8 A9 A10 A11 A12 A13 A14 A15 A16 ρ) (a b c d e f g h i j k l m n o p : Value) (rb_self : Value),
    function_tramp16 tc1 tc2 tc3 tc4 tc5 tc6 tc7 tc8 tc9 tc10 tc11 tc12 tc13 tc14 tc15 tc16 rv meth rb_self a b c d e f g h i j k l m n o p
      = Function16.call_handle_error tc1 tc2 tc3 tc4 tc5 tc6 tc7 tc8 tc9 tc10 tc11 tc12 tc13 tc14 tc15 tc16 rv meth a b c d e f g h i j k l m n o p) :=
  ⟨by intros; rfl,
   by intros; rfl,
   by intros; rfl,
   by intros; rfl,
   by intros; rfl,
   by intros; rfl,
   by intros; rfl,
   by intros; rfl,
   by intros; rfl,
   by intros; rfl,
   by intros; rfl,
   by intros; rfl,
   by intros; rfl,
   by intros; rfl,
   by intros; rfl,
   by intros; rfl,
   by intros; rfl,
   by intros; rfl,
   by intros; rfl⟩

/-- C7: For arity -2, the adapter performs no per-argument conversion: the
positional arguments arrive pre-collected in one aggregate array
container and the user function receives the aggregate converted as a
whole; the only conversions the adapter performs are of the self handle
(method family only) and of the aggregate as a whole, as the resulting
trace shows. -/
theorem rb_ary_adapter_aggregate_only :
    (∀ (S Args ρ : Type) (tcS : TryConv S) (tcArgs : TryConv Args) (rv : RV ρ)
        (meth : MethodRbAry S Args ρ) (rb_self : Value) (args : RArray)
        (tS tA : List Ev) (s : S) (a : Args),
      tcS.try_convert rb_self = (tS, Outcome.ok s) →
      tcArgs.try_convert args.asValue = (tA, Outcome.ok a) →
      MethodRbAry.call_convert_value tcS tcArgs rv meth rb_self args
        = tracePre (tS ++ tA) (M.bind (toM (meth.func s a)) rv.into_return_value)) ∧
    (∀ (Args ρ : Type) (tcArgs : TryConv Args) (rv : RV ρ)
        (meth : FunctionRbAry Args ρ) (args : RArray) (tA : List Ev) (a : Args),
      tcArgs.try_convert args.asValue = (tA, Outcome.ok a) →
      FunctionRbAry.call_convert_value tcArgs rv meth args
        = tracePre tA (M.bind (toM (meth.func a)) rv.into_return_value)) :=
  ⟨by
    intro S Args ρ tcS tcArgs rv meth rb_self args tS tA s a hs ha
    simp [MethodRbAry.call_convert_value, M.bind, tracePre, hs, ha,
      List.append_assoc],
   by
    intro Args ρ tcArgs rv meth args tA a ha
    simp [FunctionRbAry.call_convert_value, M.bind, tracePre, ha]⟩

/-- Witness for C7: a concrete aggregate-array invocation converts exactly
the self handle and the aggregate as a whole. -/
theorem rb_ary_adapter_aggregate_only_witness :
    MethodRbAry.call_convert_value (tcIdOk 0) (tcIdOk 1) rvPlain methRbW
      (hv 1) ⟨hv 9⟩
     = tracePre ([Ev.convert 0 (hv 1)] ++ [Ev.convert 1 (hv 9)])
        (M.bind (toM (methRbW.func (hv 1) (hv 9))) rvPlain.into_return_value) :=
  rb_ary_adapter_aggregate_only.1 Value Value Value (tcIdOk 0) (tcIdOk 1)
    rvPlain methRbW (hv 1) ⟨hv 9⟩ [Ev.convert 0 (hv 1)] [Ev.convert 1 (hv 9)]
    (hv 1) (hv 9) rfl rfl

/-- C8: For arity -1, the adapter turns the raw argument count and pointer
into a slice view of exactly argc elements — the i-th element of the view
is exactly the i-th element in argument memory — without converting the
individual elements, and hands that view to the user function (for the
method family, after converting only the self handle). -/
theorem c_ary_adapter_slice_view :
    (∀ (S ρ : Type) (tcS : TryConv S) (rv : RV ρ) (meth : MethodCAry S ρ)
        (argc : Nat) (argv : Nat → Value) (rb_self : Value) (tS : List Ev)
        (s : S),
      tcS.try_convert rb_self = (tS, Outcome.ok s) →
      MethodCAry.call_convert_value tcS rv meth argc argv rb_self
        = tracePre tS (M.bind (toM (meth.func s (slice_from_raw_parts argv argc)))
            rv.into_return_value)) ∧
    (∀ (ρ : Type) (rv : RV ρ) (meth : FunctionCAry ρ) (argc : Nat)
        (argv : Nat → Value),
      FunctionCAry.call_convert_value rv meth argc argv
        = M.bind (toM (meth.func (slice_from_raw_parts argv argc)))
            rv.into_return_value) ∧
    (∀ (argc : Nat) (argv : Nat → Value),
      (slice_from_raw_parts argv argc).length = argc) ∧
    (∀ (argc : Nat) (argv : Nat → Value) (i : Nat), i < argc →
      (slice_from_raw_parts argv argc).getD i Value.default = argv i) :=
  ⟨by
    intro S ρ tcS rv meth argc argv rb_self tS s hs
    simp [MethodCAry.call_convert_value, M.bind, tracePre, hs],
   by intros; rfl,
   by intros; simp [slice_from_raw_parts],
   by
    intro argc argv i h
    simp [slice_from_raw_parts, List.getD_eq_getElem?_getD, List.getElem?_map,
      List.getElem?_range, h]⟩

/-- Witness for C8: a concrete slice invocation converts only the self
handle and passes the two raw argument handles through unconverted. -/
theorem c_ary_adapter_slice_view_witness :
    MethodCAry.call_convert_value (tcIdOk 0) rvPlain methCW 2 hv (hv 1)
     = tracePre [Ev.convert 0 (hv 1)]
        (M.bind (toM (methCW.func (hv 1) (slice_from_raw_parts hv 2)))
          rvPlain.into_return_value) :=
  c_ary_adapter_slice_view.1 Value Value (tcIdOk 0) rvPlain methCW 2 hv (hv 1)
    [Ev.convert 0 (hv 1)] (hv 1) rfl

/-- C9: Every adapter holds only the user function value: all other type
parameters are phantom markers carrying no runtime state (any two
markers are equal), so every adapter equals the adapter freshly created
from its user function — each invocation, which consumes the adapter by
value, is a pure function of the user function and the call's inputs. -/
theorem adapters_hold_only_function :
  (∀ (α : Type) (x y : PhantomData α), x = y) ∧
  (∀ (S ρ : Type) (meth : Method0 S ρ),
    meth = Method0.new meth.func) ∧
  (∀ (S A1 ρ : Type) (meth : Method1 S A1 ρ),
    meth = Method1.new meth.func) ∧
  (∀ (S A1 A2 ρ : Type) (meth : Method2 S A1 A2 ρ),
    meth = Method2.new meth.func) ∧
  (∀ (S A1 A2 A3 ρ : Type) (meth : Method3 S A1 A2 A3 ρ),
    meth = Method3.new meth.func) ∧
  (∀ (S A1 A2 A3 A4 ρ : Type) (meth : Method4 S A1 A2 A3 A4 ρ),
    meth = Method4.new meth.func) ∧
  (∀ (S A1 A2 A3 A4 A5 ρ : Type) (meth : Method5 S A1 A2 A3 A4 A5 ρ),
    meth = Method5.new meth.func) ∧
  (∀ (S A1 A2 A3 A4 A5 A6 ρ : Type) (meth : Method6 S A1 A2 A3 A4 A5 A6 ρ),
    meth = Method6.new meth.func) ∧
  (∀ (S A1 A2 A3 A4 A5 A6 A7 ρ : Type) (meth : Method7 S A1 A2 A3 A4 A5 A6 A7 ρ),
    meth = Method7.new meth.func) ∧
  (∀ (S A1 A2 A3 A4 A5 A6 A7 A8 ρ : Type) (meth : Method8 S A1 A2 A3 A4 A5 A6 A7 A8 ρ),
    meth = Method8.new meth.func) ∧
  (∀ (S A1 A2 A3 A4 A5 A6 A7 A8 A9 ρ : Type) (meth : Method9 S A1 A2 A3 A4 A5 A6 A7 A8 A9 ρ),
    meth = Method9.new meth.func) ∧
  (∀ (S A1 A2 A3 A4 A5 A6 A7 A8 A9 A10 ρ : Type) (meth : Method10 S A1 A2 A3 A4 A5 A6 A7 A8 A9 A10 ρ),
    meth = Method10.new meth.func) ∧
  (∀ (S A1 A2 A3 A4 A5 A6 A7 A8 A9 A10 A11 ρ : Type) (meth : Method11 S A1 A2 A3 A4 A5 A6 A7 A8 A9 A10 A11 ρ),
    meth = Method11.new meth.func) ∧
  (∀ (S A1 A2 A3 A4 A5 A6 A7 A8 A9 A10 A11 A12 ρ : Type) (meth : Method12 S A1 A2 A3 A4 A5 A6 A7 A8 A9 A10 A11 A12 ρ),
    meth = Method12.new meth.func) ∧
  (∀ (S A1 A2 A3 A4 A5 A6 A7 A8 A9 A10 A11 A12 A13 ρ : Type) (meth : Method13 S A1 A2 A3 A4 A5 A6 A7 A8 A9 A10 A11 A12 A13 ρ),
    meth = Method13.new meth.func) ∧
  (∀ (S A1 A2 A3 A4 A5 A6 A7 A8 A9 A10 A11 A12 A13 A14 ρ : Type) (meth : Method14 S A1 A2 A3 A4 A5 A6 A7 A8 A9 A10 A11 A12 A13 A14 ρ),
    meth = Method14.new meth.func) ∧
  (∀ (S A1 A2 A3 A4 A5 A6 A7 A8 A9 A10 A11 A12 A13 A14 A15 ρ : Type) (meth : Method15 S A1 A2 A3 A4 A5 A6 A7 A8 A9 A10 A11 A12 A13 A14 A15 ρ),
    meth = Method15.new meth.func) ∧
  (∀ (S A1 A2 A3 A4 A5 A6 A7 A8 A9 A10 A11 A12 A13 A14 A15 A16 ρ : Type) (meth : Method16 S A1 A2 A3 A4 A5 A6 A7 A8 A9 A10 A11 A12 A13 A14 A15 A16 ρ),
    meth = Method16.new meth.func) ∧
  (∀ (S Args ρ : Type) (meth : MethodRbAry S Args ρ),
    meth = MethodRbAry.new meth.func) ∧
  (∀ (S ρ : Type) (meth : MethodCAry S ρ),
    meth = MethodCAry.new meth.func) ∧
  (∀ (ρ : Type) (meth : Function0 ρ),
    meth = Function0.new meth.func) ∧
  (∀ (A1 ρ : Type) (meth : Function1 A1 ρ),
    meth = Function1.new meth.func) ∧
  (∀ (A1 A2 ρ : Type) (meth : Function2 A1 A2 ρ),
    meth = Function2.new meth.func) ∧
  (∀ (A1 A2 A3 ρ : Type) (meth : Function3 A1 A2 A3 ρ),
    meth = Function3.new meth.func) ∧
  (∀ (A1 A2 A3 A4 ρ : Type) (meth : Function4 A1 A2 A3 A4 ρ),
    meth = Function4.new meth.func) ∧
  (∀ (A1 A2 A3 A4 A5 ρ : Type) (meth : Function5 A1 A2 A3 A4 A5 ρ),
    meth = Function5.new meth.func) ∧
  (∀ (A1 A2 A3 A4 A5 A6 ρ : Type) (meth : Function6 A1 A2 A3 A4 A5 A6 ρ),
    meth = Function6.new meth.func) ∧
  (∀ (A1 A2 A3 A4 A5 A6 A7 ρ : Type) (meth : Function7 A1 A2 A3 A4 A5 A6 A7 ρ),
    meth = Function7.new meth.func) ∧
  (∀ (A1 A2 A3 A4 A5 A6 A7 A8 ρ : Type) (meth : Function8 A1 A2 A3 A4 A5 A6 A7 A8 ρ),
    meth = Function8.new meth.func) ∧
  (∀ (A1 A2 A3 A4 A5 A6 A7 A8 A9 ρ : Type) (meth : Function9 A1 A2 A3 A4 A5 A6 A7 A8 A9 ρ),
    meth = Function9.new meth.func) ∧
  (∀ (A1 A2 A3 A4 A5 A6 A7 A8 A9 A10 ρ : Type) (meth : Function10 A1 A2 A3 A4 A5 A6 A7 A8 A9 A10 ρ),
    meth = Function10.new meth.func) ∧
  (∀ (A1 A2 A3 A4 A5 A6 A7 A8 A9 A10 A11 ρ : Type) (meth : Function11 A1 A2 A3 A4 A5 A6 A7 A8 A9 A10 A11 ρ),
    meth = Function11.new meth.func) ∧
  (∀ (A1 A2 A3 A4 A5 A6 A7 A8 A9 A10 A11 A12 ρ : Type) (meth : Function12 A1 A2 A3 A4 A5 A6 A7 A8 A9 A10 A11 A12 ρ),
    meth = Function12.new meth.func) ∧
  (∀ (A1 A2 A3 A4 A5 A6 A7 A8 A9 A10 A11 A12 A13 ρ : Type) (meth : Function13 A1 A2 A3 A4 A5 A6 A7 A8 A9 A10 A11 A12 A13 ρ),
    meth = Function13.new meth.func) ∧
  (∀ (A1 A2 A3 A4 A5 A6 A7 A8 A9 A10 A11 A12 A13 A14 ρ : Type) (meth : Function14 A1 A2 A3 A4 A5 A6 A7 A8 A9 A10 A11 A12 A13 A14 ρ),
    meth = Function14.new meth.func) ∧
  (∀ (A1 A2 A3 A4 A5 A6 A7 A8 A9 A10 A11 A12 A13 A14 A15 ρ : Type) (meth : Function15 A1 A2 A3 A4 A5 A6 A7 A8 A9 A10 A11 A12 A13 A14 A15 ρ),
    meth = Function15.new meth.func) ∧
  (∀ (A1 A2 A3 A4 A5 A6 A7 A8 A9 A10 A11 A12 A13 A14 A15 A16 ρ : Type) (meth : Function16 A1 A2 A3 A4 A5 A6 A7 A8 A9 A10 A11 A12 A13 A14 A15 A16 ρ),
    meth = Function16.new meth.func) ∧
  (∀ (Args ρ : Type) (meth : FunctionRbAry Args ρ),
    meth = FunctionRbAry.new meth.func) ∧
  (∀ (ρ : Type) (meth : FunctionCAry ρ),
    meth = FunctionCAry.new meth.func) :=
  ⟨by intros; rfl,
   by intros; rfl,
   by intros; rfl,
   by intros; rfl,
   by intros; rfl,
   by intros; rfl,
   by intros; rfl,
   by intros; rfl,
   by intros; rfl,
   by intros; rfl,
   by intros; rfl,
   by intros; rfl,
   by intros; rfl,
   by intros; rfl,
   by intros; rfl,
   by intros; rfl,
   by intros; rfl,
   by intros; rfl,
   by intros; rfl,
   by intros; rfl,
   by intros; rfl,
   by intros; rfl,
   by intros; rfl,
   by intros; rfl,
   by intros; rfl,
   by intros; rfl,
   by intros; rfl,
   by intros; rfl,
   by intros; rfl,
   by intros; rfl,
   by intros; rfl,
   by intros; rfl,
   by intros; rfl,
   by intros; rfl,
   by intros; rfl,
   by intros; rfl,
   by intros; rfl,
   by intros; rfl,
   by intros; rfl⟩

/-- C10: For every type with a conversion contract, converting a nil
handle to an Option returns none without invoking the inner conversion
(so it never fails on nil), and converting a non-nil handle delegates to
the inner conversion, wrapping a success in some and propagating its
error unchanged. -/
theorem option_try_convert_nil :
    ∀ (α : Type) (tc : TryConv α) (val : Value),
      (val.is_nil = true →
        (TryConv.option tc).try_convert val = ([], Outcome.ok none)) ∧
      (∀ (t : List Ev) (x : α), val.is_nil = false →
        tc.try_convert val = (t, Outcome.ok x) →
        (TryConv.option tc).try_convert val = (t, Outcome.ok (some x))) ∧
      (∀ (t : List Ev) (e : Error), val.is_nil = false →
        tc.try_convert val = (t, Outcome.err e) →
        (TryConv.option tc).try_convert val = (t, Outcome.err e)) := by
  intro α tc val
  refine ⟨fun h => ?_, fun t x h hc => ?_, fun t e h hc => ?_⟩
  · simp [TryConv.option, boolThen, optTranspose, h]
  · simp [TryConv.option, boolThen, optTranspose, h, hc]
  · simp [TryConv.option, boolThen, optTranspose, h, hc]

/-- Witness for C10: the nil handle converts to none without invoking the
inner conversion, and a non-nil handle delegates to it. -/
theorem option_try_convert_nil_witness :
    (TryConv.option (tcFail 7)).try_convert Value.default
      = ([], Outcome.ok none) :=
  (option_try_convert_nil Value (tcFail 7) Value.default).1 rfl
